import Mathlib

/-!
# Adreno a8xx GPU state capture, CAMSS CSID 1080 and Novatek NVT touchscreen

A shallow embedding of parts of three drivers:

* `drivers/gpu/drm/msm/adreno/a8xx_gpu_state.c`
* `drivers/media/platform/qcom/camss/camss-csid-1080.c`
* `drivers/input/touchscreen/novatek-nvt-ts.c`

Machine integers are natural numbers (or integers) with the wrap-around of
their C type written out.  Hardware and kernel services the drivers call are
inputs of the model (values read, results returned) and outputs of it (a
trace of the accesses made).
-/

namespace LinuxMtk

/-! ## Machine arithmetic -/

/-- Models `UINT_MAX`, the terminator of a register range array. -/
def UINT_MAX : Nat := 2 ^ 32 - 1

/-- Truncation to `u32`. -/
def u32 (x : Nat) : Nat := x % 2 ^ 32

/-- Truncation to `u64`. -/
def u64 (x : Nat) : Nat := x % 2 ^ 64

/-- Models `BIT(n)`. -/
def BIT (n : Nat) : Nat := 2 ^ n

/-- Scan for `fls`: the highest set bit among the low `n` bits, counted from 1. -/
def flsAux (x : Nat) : Nat → Nat
  | 0 => 0
  | n + 1 => if x.testBit n then n + 1 else flsAux x n

/-- Models `fls(x)` for a 32-bit `x`: the 1-based position of the most significant set
bit, 0 when `x` is 0. -/
def fls (x : Nat) : Nat := flsAux x 32

/-- Population count of the low `n` bits. -/
def hweightAux (x : Nat) : Nat → Nat
  | 0 => 0
  | n + 1 => hweightAux x n + (x >>> n) % 2

/-- Models `hweight32(x)`: the number of set bits of a 32-bit `x`. -/
def hweight32 (x : Nat) : Nat := hweightAux x 32

/-- Models `NUM_SLICES(gpu)`, from the GPU's slice mask. -/
def NUM_SLICES (slice_mask : Nat) : Nat := hweight32 slice_mask

/-! ## Slice iteration -/

/-- The `UNSLICE` region.  The enumeration is declared in `a8xx_gpu_state.h`
(not part of the sources here); the code tests `slice_region` as a truth value
with `UNSLICE` false, so it is 0. -/
def UNSLICE : Nat := 0

/-- The loop of `next_slice`; the first argument counts the iterations left,
`fls(slice_mask) - slice` of them at most. -/
def next_slice_loop (slice_mask : Nat) : Nat → Nat → Nat
  | 0, slice => slice
  | n + 1, slice =>
    if slice < fls slice_mask then
      if BIT slice &&& slice_mask ≠ 0 then slice
      else next_slice_loop slice_mask n (slice + 1)
    else slice

/-- Models `next_slice(slice, slice_mask)`. -/
def next_slice (slice slice_mask : Nat) : Nat :=
  next_slice_loop slice_mask (fls slice_mask - slice) slice

/-- Models `NEXT_SLICE(_slice, _region, _slice_mask)`. -/
def NEXT_SLICE (slice region slice_mask : Nat) : Nat :=
  if region = UNSLICE then fls slice_mask else next_slice slice slice_mask

/-- Models `FIRST_SLICE(_region, _slice_mask)`. -/
def FIRST_SLICE (region slice_mask : Nat) : Nat :=
  if region = UNSLICE then 0 else NEXT_SLICE 0 region slice_mask

/-- The `for` loop of `FOR_EACH_SLICE` from the current value of `_slice`: the
values of `_slice` the body runs with, in order; `none` when the iterations
allowed by the first argument do not reach the loop's exit. -/
def FOR_EACH_SLICE_loop (region slice_mask : Nat) : Nat → Nat → Option (List Nat)
  | 0, _ => none
  | fuel + 1, slice =>
    if slice < fls slice_mask then
      (FOR_EACH_SLICE_loop region slice_mask fuel
        (NEXT_SLICE (slice + 1) region slice_mask)).map (fun l => slice :: l)
    else some []

/-- Models `FOR_EACH_SLICE(_slice, _region, _slice_mask)`: the values of `_slice` the
body runs with, in order.  A 32-bit mask has `fls` at most 32 and `_slice`
grows in every iteration, so 33 iterations always reach the exit. -/
def FOR_EACH_SLICE (region slice_mask : Nat) : Option (List Nat) :=
  FOR_EACH_SLICE_loop region slice_mask 33 (FIRST_SLICE region slice_mask)

/-- The bits set in `slice_mask` among bits `s .. 31`, in increasing order. -/
def setBitsFrom (slice_mask s : Nat) : List Nat :=
  (List.range' s (32 - s)).filter (fun b => slice_mask.testBit b)

/-! ## Hardware, kernel services and data structures -/

/-- Registers the code names by macro.  Their offsets are in the generated
register headers (not part of the sources here); `offset n` is a register
addressed by a number taken from a table. -/
inductive Reg
  | A8XX_CP_APERTURE_CNTL_HOST
  | A8XX_CP_CRASH_DUMP_SCRIPT_BASE
  | A8XX_CP_CRASH_DUMP_CNTL
  | A8XX_CP_CRASH_DUMP_STATUS
  | A8XX_RBBM_MISC_STATUS
  | A8XX_CP_CHICKEN_DBG_PIPE
  | A8XX_CP_SLICE_CHICKEN_DBG_PIPE
  | offset (n : Nat)
  deriving DecidableEq, Repr

/-- Field encoders and register offsets of the generated register headers (not
part of the sources here) that the code stores as numbers. -/
structure RegDefs where
  A8XX_CP_APERTURE_CNTL_HOST_PIPEID : Nat → Nat
  A8XX_CP_APERTURE_CNTL_HOST_SLICEID : Nat → Nat
  A8XX_CP_APERTURE_CNTL_HOST_USESLICEID : Nat
  A8XX_RBBM_MISC_STATUS_SMMU_STALLED_ON_FAULT : Nat
  REG_A7XX_SP_READ_SEL : Nat
  REG_A7XX_SP_AHB_READ_APERTURE : Nat
  A7XX_SP_READ_SEL_CONTEXT : Nat → Nat
  A7XX_SP_READ_SEL_SLICE : Nat → Nat
  A7XX_SP_READ_SEL_LOCATION : Nat → Nat
  A7XX_SP_READ_SEL_PIPE : Nat → Nat
  A7XX_SP_READ_SEL_STATETYPE : Nat → Nat
  A7XX_SP_READ_SEL_USPTP : Nat → Nat
  A7XX_SP_READ_SEL_SPTP : Nat → Nat

/-- What the driver does to the hardware and asks of the kernel, in order.
`a6xx_gmu_gx_is_on` carries the answer; the last three mark the return of
`a8xx_crashdumper_init` with its result and the calls of `a8xx_get_registers`
and `a8xx_get_shaders`. -/
inductive Event
  | gpu_write (reg : Reg) (val : Nat)
  | gpu_write64 (reg : Reg) (val : Nat)
  | gpu_read (reg : Reg)
  | gpu_poll_timeout (reg : Reg)
  | gmu_read (offset : Nat)
  | kzalloc
  | kvzalloc (nr objsize : Nat)
  | adreno_gpu_state_get
  | a6xx_gmu_gx_is_on (ret : Bool)
  | a8xx_aperture_set (pipe : Nat)
  | msm_gem_kernel_new (size : Nat)
  | msm_gem_kernel_put
  | WARN_ON
  | a8xx_crashdumper_init_returned (ret : Int)
  | a8xx_get_registers_called (with_dumper : Bool)
  | a8xx_get_shaders_called
  deriving DecidableEq, Repr

/-- A pointer as far as the code tells pointers apart: a valid mapping,
`NULL`, or `ERR_PTR(-errno)`. -/
inductive Ptr
  | valid
  | null
  | err (errno : Nat)
  deriving DecidableEq, Repr

/-- Models `IS_ERR_OR_NULL(ptr)`. -/
def IS_ERR_OR_NULL : Ptr → Bool
  | Ptr.valid => false
  | _ => true

/-- Models `PTR_ERR_OR_ZERO(ptr)`. -/
def PTR_ERR_OR_ZERO : Ptr → Int
  | Ptr.err errno => -(errno : Int)
  | _ => 0

/-- What the hardware and the kernel answer.  Every answer is indexed by the
number of events made before the question, so two questions never have to get
the same answer. -/
structure Env where
  /-- The value a `gpu_read` returns. -/
  gpu_read : Nat → Reg → Nat
  /-- The value a `gmu_read` returns. -/
  gmu_read : Nat → Nat → Nat
  /-- The result of `gpu_poll_timeout`: 0, or a negative errno on timeout. -/
  gpu_poll_timeout : Nat → Int
  /-- Whether an allocation succeeds. -/
  alloc_ok : Nat → Bool
  /-- The result of `a6xx_gmu_gx_is_on`. -/
  a6xx_gmu_gx_is_on : Nat → Bool
  /-- The mapping `msm_gem_kernel_new` returns and the address it maps at. -/
  msm_gem_kernel_new : Nat → Ptr × Nat
  /-- The dword at an index of the data part of the scratch region. -/
  cd_data : Nat → Nat → Nat
  /-- The indeterminate value of `i` that `a8xx_get_registers` reads before
  assigning it. -/
  get_registers_i_uninit : Int
  /-- The indeterminate value of `regcount` that `_a8xx_get_gmu_registers`
  reads before assigning it. -/
  gmu_regcount_uninit : Nat

/-- The state the functions share: the events so far and
`a6xx_gpu->cached_aperture`. -/
structure World where
  trace : List Event
  cached_aperture : Nat
  deriving DecidableEq, Repr

/-- The number of events so far. -/
def World.time (w : World) : Nat := w.trace.length

/-- Record an event. -/
def World.emit (w : World) (e : Event) : World :=
  { w with trace := w.trace ++ [e] }

/-- Models `gpu_write(gpu, reg, val)`. -/
def gpu_write (w : World) (reg : Reg) (val : Nat) : World :=
  w.emit (Event.gpu_write reg val)

/-- Models `gpu_write64(gpu, reg, val)`. -/
def gpu_write64 (w : World) (reg : Reg) (val : Nat) : World :=
  w.emit (Event.gpu_write64 reg val)

/-- Models `gpu_read(gpu, reg)`. -/
def gpu_read (env : Env) (w : World) (reg : Reg) : Nat × World :=
  (u32 (env.gpu_read w.time reg), w.emit (Event.gpu_read reg))

/-- Models `struct gen8_reg_list`: the fields the code uses.  `regs` is the range
array, `none` for the `NULL` of the entry that ends a table. -/
structure gen8_reg_list where
  slice_region : Nat
  regs : Option (List Nat)
  deriving DecidableEq, Repr

/-- Models `struct gen8_shader_block`: the fields the code uses, all `u32`. -/
structure gen8_shader_block where
  statetype : Nat
  size : Nat
  num_sps : Nat
  num_ctx : Nat
  pipeid : Nat
  location : Nat
  usptp_id : Nat
  slice_region : Nat
  deriving DecidableEq, Repr

/-- Models `struct a8xx_indexed_registers`: the fields the code uses.  `count_fn` is
the value `count_fn(gpu)` returns, `none` for a `NULL` function pointer. -/
structure a8xx_indexed_registers where
  addr : Nat
  data : Nat
  count : Nat
  count_fn : Option Nat
  pipe_id : Nat
  slice_region : Nat
  deriving DecidableEq, Repr

/-- What `obj->handle` points to. -/
inductive Handle
  | reg_list (regs : gen8_reg_list)
  | shader_block (block : gen8_shader_block)
  | indexed (indexed : a8xx_indexed_registers)
  | gmu_regs (regs : List Nat)
  deriving DecidableEq, Repr

/-- Models `struct a8xx_gpu_state_obj`; `none` is `NULL`. -/
structure a8xx_gpu_state_obj where
  handle : Option Handle
  data : Option (List Nat)
  count : Nat
  slice : Nat
  deriving DecidableEq, Repr

/-- An object as `kvzalloc` leaves it. -/
def a8xx_gpu_state_obj.zero : a8xx_gpu_state_obj :=
  { handle := none, data := none, count := 0, slice := 0 }

/-- Models `struct a8xx_crashdumper`: `ptr` and `iova`. -/
structure a8xx_crashdumper where
  ptr : Ptr
  iova : Nat
  deriving DecidableEq, Repr

/-- The tables of `adreno_gen8_2_0_snapshot.h` as the code walks them, and
`sizeof(struct msm_gpu_state_bo)` of `msm_gpu.h` (neither header is part of the
sources here). -/
structure Tables where
  sizeof_msm_gpu_state_bo : Nat
  gen8_2_0_ahb_registers : List gen8_reg_list
  gen8_2_0_misc_registers : List gen8_reg_list
  gen8_2_0_shader_blocks : List gen8_shader_block
  gen8_2_0_cp_indexed_reg_list : List a8xx_indexed_registers
  gen8_2_0_gmucx_registers : List Nat

/-- Models `state_kcalloc(a8xx_state, nr, objsize)`: whether the allocation
succeeded. -/
def state_kcalloc (env : Env) (w : World) (nr objsize : Nat) : Bool × World :=
  (env.alloc_ok w.time, w.emit (Event.kvzalloc nr objsize))

/-- Models `state_kmemdup(a8xx_state, src, size)` of the data part of the scratch
region: the `size / 4` dwords copied, `none` when the allocation failed. -/
def state_kmemdup (env : Env) (w : World) (size : Nat) : Option (List Nat) × World :=
  let (ok, w1) := state_kcalloc env w 1 size
  (if ok then some ((List.range (size / 4)).map (env.cd_data w.time)) else none, w1)

/-! ## The crash dumper -/

/-- Models `A8XX_CD_DATA_OFFSET`. -/
def A8XX_CD_DATA_OFFSET : Nat := 8192

/-- Models `SZ_1M`. -/
def SZ_1M : Nat := 0x100000

/-- Models `A8XX_CD_DATA_SIZE`. -/
def A8XX_CD_DATA_SIZE : Nat := SZ_1M - 8192

/-- Models `EINVAL`. -/
def EINVAL : Int := 22

/-- Models `CRASHDUMP_WRITE(in, reg, val)`: the words stored in `in[0]`, `in[1]`. -/
def CRASHDUMP_WRITE (reg val : Nat) : List Nat :=
  [val, u64 (reg <<< 44) ||| (1 <<< 21) ||| 1]

/-- Models `CRASHDUMP_READ(in, reg, dwords, target)`: the words stored in `in[0]`,
`in[1]`. -/
def CRASHDUMP_READ (reg dwords target : Nat) : List Nat :=
  [target, u64 (reg <<< 44) ||| dwords]

/-- Models `CRASHDUMP_FINI(in)`: the words stored in `in[0]`, `in[1]`. -/
def CRASHDUMP_FINI : List Nat := [0, 0]

/-- A call that stages a descriptor through `in`, with its arguments. -/
inductive Descriptor
  | write (reg val : Nat)
  | read (reg dwords target : Nat)
  | fini
  deriving DecidableEq, Repr

/-- The two 64-bit words a staging call stores. -/
def Descriptor.words : Descriptor → List Nat
  | Descriptor.write reg val => CRASHDUMP_WRITE reg val
  | Descriptor.read reg dwords target => CRASHDUMP_READ reg dwords target
  | Descriptor.fini => CRASHDUMP_FINI

/-- The dwords a descriptor asks the hardware to write to memory. -/
def Descriptor.read_dwords : Descriptor → Nat
  | Descriptor.read _ dwords _ => dwords
  | _ => 0

/-- The words of a sequence of descriptors, stored one after the other (`in`
advances by the 2 each call returns). -/
def script_words (descs : List Descriptor) : List Nat :=
  descs.flatMap Descriptor.words

/-- The bytes the read descriptors of a script ask the hardware to write: 4
times the sum of their dword counts, as a natural number (no wrap-around). -/
def script_read_bytes (descs : List Descriptor) : Nat :=
  4 * (descs.map Descriptor.read_dwords).sum

/-- The bytes a script occupies: 8 for each 64-bit word. -/
def script_bytes (descs : List Descriptor) : Nat :=
  8 * (script_words descs).length

/-- Models `RANGE(reg, a)` from `lo = reg[a]` and `hi = reg[a + 1]`, in `u32`. -/
def RANGE (lo hi : Nat) : Nat := u32 (hi + 2 ^ 32 - lo + 1)

/-- An `int` (given by its 32 bits) converted to `size_t`, 64 bits wide. -/
def int_to_size_t (x : Nat) : Nat :=
  if x < 2 ^ 31 then x else x + (2 ^ 64 - 2 ^ 32)

/-- Models `a8xx_crashdumper_run(gpu, dumper)`. -/
def a8xx_crashdumper_run (env : Env) (w : World) (dumper : a8xx_crashdumper) :
    Int × World :=
  if IS_ERR_OR_NULL dumper.ptr then (-EINVAL, w)
  else
    let w1 := gpu_write64 w Reg.A8XX_CP_CRASH_DUMP_SCRIPT_BASE dumper.iova
    let w2 := gpu_write w1 Reg.A8XX_CP_CRASH_DUMP_CNTL 1
    let ret := env.gpu_poll_timeout w2.time
    let w3 := w2.emit (Event.gpu_poll_timeout Reg.A8XX_CP_CRASH_DUMP_STATUS)
    let w4 := gpu_write w3 Reg.A8XX_CP_CRASH_DUMP_CNTL 0
    (ret, w4)

/-- The variables of the staging loops: the descriptors staged through `in` so
far (descriptor `k` at `dumper->ptr + 16 * k`), `out`, and `regcount` as its
32 bits. -/
structure Staging where
  script : List Descriptor
  out : Nat
  regcount : Nat
  deriving DecidableEq, Repr

/-- The `for` loop of `a8xx_get_crashdumper_registers` on the rest of
`regs->regs` from index `i`; `none` when it reads past the end of the array. -/
def a8xx_get_crashdumper_registers_loop : List Nat → Staging → Option Staging
  | [], _ => none
  | [r], st => if r ≠ UINT_MAX then none else some st
  | r :: e :: rest, st =>
    if r ≠ UINT_MAX then
      let count := RANGE r e
      a8xx_get_crashdumper_registers_loop rest
        { script := st.script ++ [Descriptor.read r count st.out]
          out := u64 (st.out + count * 4)
          regcount := u32 (st.regcount + count) }
    else some st

/-- What `a8xx_get_crashdumper_registers` and `a8xx_get_shader_block` leave:
the descriptors staged from the start of the scratch region, the object, and
the world. -/
structure Staged where
  script : List Descriptor
  obj : a8xx_gpu_state_obj
  world : World
  deriving DecidableEq, Repr

/-- Models `a8xx_get_crashdumper_registers(gpu, a8xx_state, regs, slice_id, obj,
dumper)`; `none` when it dereferences `NULL` or reads past the end of the
range array. -/
def a8xx_get_crashdumper_registers (env : Env) (w : World) (regs : gen8_reg_list)
    (slice_id : Nat) (obj : a8xx_gpu_state_obj) (dumper : a8xx_crashdumper) :
    Option Staged :=
  match regs.regs with
  | none => none
  | some r =>
    match a8xx_get_crashdumper_registers_loop r
        { script := [], out := u64 (dumper.iova + A8XX_CD_DATA_OFFSET), regcount := 0 } with
    | none => none
    | some st =>
      let script := st.script ++ [Descriptor.fini]
      if u64 (int_to_size_t st.regcount * 4) > A8XX_CD_DATA_SIZE then
        some { script := script, obj := obj, world := w.emit Event.WARN_ON }
      else
        let (ret, w1) := a8xx_crashdumper_run env w dumper
        if ret ≠ 0 then some { script := script, obj := obj, world := w1 }
        else
          let (data, w2) := state_kmemdup env w1 (u64 (int_to_size_t st.regcount * 4))
          some { script := script
                 obj := { obj with handle := some (Handle.reg_list regs)
                                   slice := slice_id, data := data }
                 world := w2 }

/-- The value `a8xx_get_shader_block` writes to `SP_READ_SEL` for SP `i` and
context `j`. -/
def sp_read_sel (R : RegDefs) (block : gen8_shader_block) (slice_id i j : Nat) : Nat :=
  R.A7XX_SP_READ_SEL_CONTEXT j |||
  R.A7XX_SP_READ_SEL_SLICE slice_id |||
  R.A7XX_SP_READ_SEL_LOCATION block.location |||
  R.A7XX_SP_READ_SEL_PIPE block.pipeid |||
  R.A7XX_SP_READ_SEL_STATETYPE block.statetype |||
  R.A7XX_SP_READ_SEL_USPTP block.usptp_id |||
  R.A7XX_SP_READ_SEL_SPTP i

/-- The inner `for (j ...)` loop of `a8xx_get_shader_block`, with `n`
iterations left. -/
def a8xx_get_shader_block_ctx (R : RegDefs) (block : gen8_shader_block)
    (slice_id i : Nat) : Nat → Nat → Staging → Staging
  | 0, _, st => st
  | n + 1, j, st =>
    a8xx_get_shader_block_ctx R block slice_id i n (j + 1)
      { script := st.script
          ++ [Descriptor.write R.REG_A7XX_SP_READ_SEL (sp_read_sel R block slice_id i j),
              Descriptor.read R.REG_A7XX_SP_AHB_READ_APERTURE block.size st.out]
        out := u64 (st.out + block.size * 4)
        regcount := st.regcount }

/-- The outer `for (i ...)` loop of `a8xx_get_shader_block`, with `n`
iterations left. -/
def a8xx_get_shader_block_sps (R : RegDefs) (block : gen8_shader_block)
    (slice_id : Nat) : Nat → Nat → Staging → Staging
  | 0, _, st => st
  | n + 1, i, st =>
    a8xx_get_shader_block_sps R block slice_id n (i + 1)
      (a8xx_get_shader_block_ctx R block slice_id i block.num_ctx 0 st)

/-- Models `a8xx_get_shader_block(gpu, a8xx_state, block, slice_id, obj, dumper)`.
The product of the three `u32` fields is taken in `u32` before it is widened
to `size_t`. -/
def a8xx_get_shader_block (R : RegDefs) (env : Env) (w : World)
    (block : gen8_shader_block) (slice_id : Nat) (obj : a8xx_gpu_state_obj)
    (dumper : a8xx_crashdumper) : Staged :=
  let datasize := u64 (u32 (u32 (block.size * block.num_sps) * block.num_ctx) * 4)
  if datasize > A8XX_CD_DATA_SIZE then
    { script := [], obj := obj, world := w.emit Event.WARN_ON }
  else
    let st := a8xx_get_shader_block_sps R block slice_id block.num_sps 0
      { script := [], out := u64 (dumper.iova + A8XX_CD_DATA_OFFSET), regcount := 0 }
    let script := st.script ++ [Descriptor.fini]
    let (ret, w1) := a8xx_crashdumper_run env w dumper
    if ret ≠ 0 then { script := script, obj := obj, world := w1 }
    else
      let (data, w2) := state_kmemdup env w1 datasize
      { script := script
        obj := { obj with handle := some (Handle.shader_block block)
                          slice := slice_id, data := data }
        world := w2 }

/-- Whether a trace triggers the crash dumper engine: a write of 1 to
`CP_CRASH_DUMP_CNTL`. -/
def triggers_crashdumper (tr : List Event) : Prop :=
  Event.gpu_write Reg.A8XX_CP_CRASH_DUMP_CNTL 1 ∈ tr

instance (tr : List Event) : Decidable (triggers_crashdumper tr) := by
  unfold triggers_crashdumper; infer_instance

/-! ## Reading registers through the AHB aperture -/

/-- Models `_aperture_slice_set(gpu, pipe, slice, use_slice)`. -/
def _aperture_slice_set (R : RegDefs) (w : World) (pipe slice : Nat) (use_slice : Bool) :
    World :=
  let val := R.A8XX_CP_APERTURE_CNTL_HOST_PIPEID pipe |||
    R.A8XX_CP_APERTURE_CNTL_HOST_SLICEID slice
  let val := if use_slice then val ||| R.A8XX_CP_APERTURE_CNTL_HOST_USESLICEID else val
  if w.cached_aperture = val then w
  else { gpu_write w Reg.A8XX_CP_APERTURE_CNTL_HOST val with cached_aperture := val }

/-- The first loop of `a8xx_get_ahb_gpu_registers` (and of
`_a8xx_get_gmu_registers`) on the rest of `regs` from index `i`: `regcount`, as
its 32 bits; `none` when it reads past the end of the array. -/
def regcount_loop : List Nat → Nat → Option Nat
  | [], _ => none
  | [r], regcount => if r ≠ UINT_MAX then none else some regcount
  | r :: e :: rest, regcount =>
    if r ≠ UINT_MAX then regcount_loop rest (u32 (regcount + RANGE r e))
    else some regcount

/-- The values stored through `obj->data[index++]` so far, and the world. -/
structure Reading where
  data : List Nat
  world : World
  deriving DecidableEq, Repr

/-- The inner `for (j ...)` loop of `a8xx_get_ahb_gpu_registers` for the range
that starts at register `reg`, with `n` iterations left. -/
def a8xx_get_ahb_gpu_registers_range (env : Env) (reg : Nat) : Nat → Nat → Reading → Reading
  | 0, _, rd => rd
  | n + 1, j, rd =>
    let (val, w1) := gpu_read env rd.world (Reg.offset (u32 (reg + j)))
    a8xx_get_ahb_gpu_registers_range env reg n (j + 1)
      { data := rd.data ++ [val], world := w1 }

/-- The second loop of `a8xx_get_ahb_gpu_registers` on the rest of `regs` from
index `i`. -/
def a8xx_get_ahb_gpu_registers_loop (env : Env) : List Nat → Reading → Option Reading
  | [], _ => none
  | [r], rd => if r ≠ UINT_MAX then none else some rd
  | r :: e :: rest, rd =>
    if r ≠ UINT_MAX then
      a8xx_get_ahb_gpu_registers_loop env rest
        (a8xx_get_ahb_gpu_registers_range env r (RANGE r e) 0 rd)
    else some rd

/-- The array `kvzalloc` returned for `nr` dwords after `data` was stored from
its start: `none` when more was stored than it holds. -/
def filled (nr : Nat) (data : List Nat) : Option (List Nat) :=
  if data.length ≤ nr then some (data ++ List.replicate (nr - data.length) 0) else none

/-- Models `a8xx_get_ahb_gpu_registers(gpu, a8xx_state, regs, slice_id, obj)`; `none`
when it reads past the end of `regs` or stores past the end of `obj->data`. -/
def a8xx_get_ahb_gpu_registers (env : Env) (w : World) (regs : List Nat)
    (obj : a8xx_gpu_state_obj) : Option (a8xx_gpu_state_obj × World) :=
  match regcount_loop regs 0 with
  | none => none
  | some regcount =>
    let (ok, w1) := state_kcalloc env w regcount 4
    if !ok then some ({ obj with data := none }, w1)
    else
      match a8xx_get_ahb_gpu_registers_loop env regs { data := [], world := w1 } with
      | none => none
      | some rd =>
        match filled regcount rd.data with
        | none => none
        | some data => some ({ obj with data := some data }, rd.world)

/-- Models `a8xx_get_ahb_gpu_reglist(gpu, a8xx_state, regs, slice_id, obj)`.  The call
of `_aperture_slice_set` has `slice_id` as its `pipe` argument and 0 as its
`slice` argument. -/
def a8xx_get_ahb_gpu_reglist (R : RegDefs) (env : Env) (w : World) (regs : gen8_reg_list)
    (slice_id : Nat) (obj : a8xx_gpu_state_obj) : Option (a8xx_gpu_state_obj × World) :=
  let (w1, obj1) :=
    if regs.slice_region ≠ 0 then
      (_aperture_slice_set R w slice_id 0 false,
        { obj with handle := some (Handle.reg_list regs), slice := slice_id })
    else (w, obj)
  match regs.regs with
  | none => none
  | some r => a8xx_get_ahb_gpu_registers env w1 r obj1

/-! ## `a8xx_get_registers` -/

/-- The loops `for (i = 0; list[i].regs; i++) FOR_EACH_SLICE(...) count++;` of
`a8xx_get_registers` on the rest of the table from index `i`: `i` and `count`
at the exit; `none` when the table has no entry with `regs == NULL`. -/
def a8xx_get_registers_count (slice_mask : Nat) :
    List gen8_reg_list → Nat → Nat → Option (Nat × Nat)
  | [], _, _ => none
  | e :: rest, i, count =>
    match e.regs with
    | none => some (i, count)
    | some _ =>
      match FOR_EACH_SLICE e.slice_region slice_mask with
      | none => none
      | some slices => a8xx_get_registers_count slice_mask rest (i + 1) (count + slices.length)

/-- The array `a8xx_state->registers`, `index`, and the world. -/
structure Capture where
  registers : List a8xx_gpu_state_obj
  index : Nat
  world : World
  deriving DecidableEq, Repr

/-- A body `a8xx_get_ahb_gpu_reglist(gpu, a8xx_state, regs, slice,
&a8xx_state->registers[index++])` of `FOR_EACH_SLICE`, run for each slice of
the list; `none` when `index` is past the end of the array. -/
def a8xx_get_registers_ahb_slices (R : RegDefs) (env : Env) (regs : gen8_reg_list) :
    List Nat → Capture → Option Capture
  | [], c => some c
  | slice :: rest, c =>
    match c.registers[c.index]? with
    | none => none
    | some obj =>
      match a8xx_get_ahb_gpu_reglist R env c.world regs slice obj with
      | none => none
      | some (obj1, w1) =>
        a8xx_get_registers_ahb_slices R env regs rest
          { registers := c.registers.set c.index obj1, index := c.index + 1, world := w1 }

/-- The loop of `a8xx_get_registers` over `pre_crashdumper_reglist` on the rest
of the table from index `i`: `i` at the exit and what was captured.  Every call
is given `pre_crashdumper_reglist` itself, the address of entry 0 of the
table. -/
def a8xx_get_registers_pre (R : RegDefs) (env : Env) (slice_mask : Nat)
    (pre_crashdumper_reglist : List gen8_reg_list) :
    List gen8_reg_list → Nat → Capture → Option (Nat × Capture)
  | [], _, _ => none
  | e :: rest, i, c =>
    match e.regs with
    | none => some (i, c)
    | some _ =>
      match FOR_EACH_SLICE e.slice_region slice_mask, pre_crashdumper_reglist[0]? with
      | some slices, some first =>
        match a8xx_get_registers_ahb_slices R env first slices c with
        | none => none
        | some c1 => a8xx_get_registers_pre R env slice_mask pre_crashdumper_reglist rest (i + 1) c1
      | _, _ => none

/-- A body `a8xx_get_crashdumper_registers(gpu, a8xx_state, &reglist[i], slice,
&a8xx_state->registers[index++], dumper)` of `FOR_EACH_SLICE`, run for each
slice of the list. -/
def a8xx_get_registers_cd_slices (env : Env) (regs : gen8_reg_list)
    (dumper : a8xx_crashdumper) : List Nat → Capture → Option Capture
  | [], c => some c
  | slice :: rest, c =>
    match c.registers[c.index]? with
    | none => none
    | some obj =>
      match a8xx_get_crashdumper_registers env c.world regs slice obj dumper with
      | none => none
      | some r =>
        a8xx_get_registers_cd_slices env regs dumper rest
          { registers := c.registers.set c.index r.obj, index := c.index + 1,
            world := r.world }

/-- The last loop of `a8xx_get_registers`, over `reglist` with the crash
dumper, on the rest of the table from index `i`. -/
def a8xx_get_registers_cd (env : Env) (slice_mask : Nat) (dumper : a8xx_crashdumper) :
    List gen8_reg_list → Capture → Option Capture
  | [], _ => none
  | e :: rest, c =>
    match e.regs with
    | none => some c
    | some _ =>
      match FOR_EACH_SLICE e.slice_region slice_mask with
      | none => none
      | some slices =>
        match a8xx_get_registers_cd_slices env e dumper slices c with
        | none => none
        | some c1 => a8xx_get_registers_cd env slice_mask dumper rest c1

/-- Models `table[i]` for an `int i`; `none` outside the table. -/
def entry_at {α : Type} (table : List α) (i : Int) : Option α :=
  if 0 ≤ i then table[i.toNat]? else none

/-- The fields of `struct a8xx_gpu_state` the code sets, apart from the base
state. -/
structure a8xx_gpu_state where
  gmu_registers : Option (List a8xx_gpu_state_obj)
  nr_gmu_registers : Nat
  registers : Option (List a8xx_gpu_state_obj)
  nr_registers : Nat
  shaders : Option (List a8xx_gpu_state_obj)
  nr_shaders : Nat
  indexed_regs : Option (List a8xx_gpu_state_obj)
  nr_indexed_regs : Nat
  gmu_log : Option (Nat × Nat × Option (List Nat))
  gmu_hfi : Option (Nat × Nat × Option (List Nat))
  gmu_debug : Option (Nat × Nat × Option (List Nat))
  hfi_queue_history : List (List Int)
  gpu_initialized : Bool
  deriving DecidableEq, Repr

/-- The state as `kzalloc` leaves it. -/
def a8xx_gpu_state.zero : a8xx_gpu_state :=
  { gmu_registers := none, nr_gmu_registers := 0, registers := none, nr_registers := 0,
    shaders := none, nr_shaders := 0, indexed_regs := none, nr_indexed_regs := 0,
    gmu_log := none, gmu_hfi := none, gmu_debug := none, hfi_queue_history := [],
    gpu_initialized := false }

/-- Models `a8xx_get_registers(gpu, a8xx_state, dumper)`, with `dumper = none` for
`NULL`; `none` when it reads or writes outside an array.  Without a dumper the
first `FOR_EACH_SLICE` reads `reglist[i]` before `i` is assigned, and the one
that captures reads `reglist[i]` with the `i` the loop over
`pre_crashdumper_reglist` left. -/
def a8xx_get_registers (R : RegDefs) (env : Env) (T : Tables) (slice_mask : Nat)
    (w : World) (a8xx_state : a8xx_gpu_state) (dumper : Option a8xx_crashdumper) :
    Option (a8xx_gpu_state × World) :=
  let w := w.emit (Event.a8xx_get_registers_called dumper.isSome)
  let pre_crashdumper_reglist := T.gen8_2_0_ahb_registers
  let reglist := T.gen8_2_0_misc_registers
  let count := reglist.length + pre_crashdumper_reglist.length
  let count1 : Option Nat :=
    match dumper with
    | some _ => (a8xx_get_registers_count slice_mask reglist 0 count).map Prod.snd
    | none =>
      match entry_at reglist env.get_registers_i_uninit with
      | none => none
      | some e => (FOR_EACH_SLICE e.slice_region slice_mask).map (fun s => count + s.length)
  match count1 with
  | none => none
  | some count1 =>
    match a8xx_get_registers_count slice_mask pre_crashdumper_reglist 0 count1 with
    | none => none
    | some (_, count2) =>
      let (ok, w1) := state_kcalloc env w count2 24
      if !ok then some ({ a8xx_state with registers := none }, w1)
      else
        let a8xx_state := { a8xx_state with nr_registers := count2 }
        match a8xx_get_registers_pre R env slice_mask pre_crashdumper_reglist
            pre_crashdumper_reglist 0
            { registers := List.replicate count2 a8xx_gpu_state_obj.zero, index := 0,
              world := w1 } with
        | none => none
        | some (i, c) =>
          match dumper with
          | none =>
            match reglist[i]?, reglist[0]? with
            | some e, some first =>
              match FOR_EACH_SLICE e.slice_region slice_mask with
              | none => none
              | some slices =>
                match a8xx_get_registers_ahb_slices R env first slices c with
                | none => none
                | some c1 =>
                  some ({ a8xx_state with registers := some c1.registers }, c1.world)
            | _, _ => none
          | some dumper =>
            match a8xx_get_registers_cd env slice_mask dumper reglist c with
            | none => none
            | some c1 => some ({ a8xx_state with registers := some c1.registers }, c1.world)

/-! ## GMU registers and buffers -/

/-- The inner loop of `_a8xx_get_gmu_registers` for the range that starts at
`reg`, with `n` iterations left. -/
def _a8xx_get_gmu_registers_range (env : Env) (reg : Nat) : Nat → Nat → Reading → Reading
  | 0, _, rd => rd
  | n + 1, j, rd =>
    let offset := u32 (reg + j)
    let val := u32 (env.gmu_read rd.world.time offset)
    _a8xx_get_gmu_registers_range env reg n (j + 1)
      { data := rd.data ++ [val], world := rd.world.emit (Event.gmu_read offset) }

/-- The second loop of `_a8xx_get_gmu_registers` on the rest of `regs` from
index `i`. -/
def _a8xx_get_gmu_registers_loop (env : Env) : List Nat → Reading → Option Reading
  | [], _ => none
  | [r], rd => if r ≠ UINT_MAX then none else some rd
  | r :: e :: rest, rd =>
    if r ≠ UINT_MAX then
      _a8xx_get_gmu_registers_loop env rest
        (_a8xx_get_gmu_registers_range env r (RANGE r e) 0 rd)
    else some rd

/-- Models `_a8xx_get_gmu_registers(gpu, a8xx_state, regs, obj)`.  `regcount` is read
before it is assigned. -/
def _a8xx_get_gmu_registers (env : Env) (w : World) (regs : List Nat)
    (obj : a8xx_gpu_state_obj) : Option (a8xx_gpu_state_obj × World) :=
  match regcount_loop regs (u32 env.gmu_regcount_uninit) with
  | none => none
  | some regcount =>
    let obj := { obj with handle := some (Handle.gmu_regs regs) }
    let (ok, w1) := state_kcalloc env w regcount 4
    if !ok then some ({ obj with data := none }, w1)
    else
      match _a8xx_get_gmu_registers_loop env regs { data := [], world := w1 } with
      | none => none
      | some rd =>
        match filled regcount rd.data with
        | none => none
        | some data => some ({ obj with data := some data }, rd.world)

/-- Models `a8xx_get_gmu_registers(gpu, a8xx_state)`. -/
def a8xx_get_gmu_registers (env : Env) (T : Tables) (w : World)
    (a8xx_state : a8xx_gpu_state) : Option (a8xx_gpu_state × World) :=
  let (ok, w1) := state_kcalloc env w 1 24
  if !ok then some ({ a8xx_state with gmu_registers := none }, w1)
  else
    match _a8xx_get_gmu_registers env w1 T.gen8_2_0_gmucx_registers
        a8xx_gpu_state_obj.zero with
    | none => none
    | some (obj, w2) =>
      some ({ a8xx_state with gmu_registers := some [obj], nr_gmu_registers := 1 }, w2)

/-- Models `struct a6xx_gmu_bo`: `size`, `iova` and the bytes at `virt`. -/
structure a6xx_gmu_bo where
  size : Nat
  iova : Nat
  virt : List Nat
  deriving DecidableEq, Repr

/-- Models `a8xx_snapshot_gmu_bo(a8xx_state, bo)`: `none` for `NULL`, else `iova`,
`size` and `data`. -/
def a8xx_snapshot_gmu_bo (env : Env) (T : Tables) (w : World) (bo : a6xx_gmu_bo) :
    Option (Nat × Nat × Option (List Nat)) × World :=
  if bo.size = 0 then (none, w)
  else
    let (ok, w1) := state_kcalloc env w 1 T.sizeof_msm_gpu_state_bo
    if !ok then (none, w1)
    else
      let ok2 := env.alloc_ok w1.time
      let w2 := w1.emit (Event.kvzalloc 1 bo.size)
      if !ok2 then (none, w2)
      else (some (bo.iova, bo.size, some (bo.virt.take bo.size)), w2)

/-- Models `HFI_HISTORY_SZ`, from `a6xx_hfi.h` (not part of the sources here). -/
def HFI_HISTORY_SZ : Nat := 8

/-- Models `struct a6xx_hfi_queue`: `history` and `history_idx`. -/
structure a6xx_hfi_queue where
  history : List Int
  history_idx : Nat
  deriving DecidableEq, Repr

/-- Models `a8xx_snapshot_gmu_hfi_history(gpu, a8xx_state)`: the new
`hfi_queue_history`. -/
def a8xx_snapshot_gmu_hfi_history (queues : List a6xx_hfi_queue) : List (List Int) :=
  queues.map (fun queue =>
    (List.range HFI_HISTORY_SZ).map (fun j =>
      queue.history.getD ((j + queue.history_idx) % HFI_HISTORY_SZ) 0))

/-- What the code reads of `struct msm_gpu` and of the `a6xx_gpu` around it. -/
structure msm_gpu where
  needs_hw_init : Bool
  slice_mask : Nat
  gmu_log : a6xx_gmu_bo
  gmu_hfi : a6xx_gmu_bo
  gmu_debug : a6xx_gmu_bo
  gmu_queues : List a6xx_hfi_queue
  deriving DecidableEq, Repr

/-! ## Indexed registers -/

/-- The loop of `a8xx_get_indexed_regs` that reads the data register, with `n`
iterations left. -/
def a8xx_get_indexed_regs_loop (env : Env) (data : Nat) : Nat → Reading → Reading
  | 0, rd => rd
  | n + 1, rd =>
    let (val, w1) := gpu_read env rd.world (Reg.offset data)
    a8xx_get_indexed_regs_loop env data n { data := rd.data ++ [val], world := w1 }

/-- Models `a8xx_get_indexed_regs(gpu, a8xx_state, indexed, slice, obj)`. -/
def a8xx_get_indexed_regs (env : Env) (w : World) (indexed : a8xx_indexed_registers)
    (slice : Nat) (obj : a8xx_gpu_state_obj) : a8xx_gpu_state_obj × World :=
  let count := indexed.count
  let obj := { obj with handle := some (Handle.indexed indexed) }
  let count := match indexed.count_fn with
    | some c => c
    | none => count
  let (ok, w1) := state_kcalloc env w count 4
  let obj := { obj with slice := slice, count := count }
  if !ok then ({ obj with data := none }, w1)
  else
    let w2 := gpu_write w1 (Reg.offset indexed.addr) 0
    let rd := a8xx_get_indexed_regs_loop env indexed.data count { data := [], world := w2 }
    ({ obj with data := some rd.data }, rd.world)

/-- The first loop of `a8xx_get_indexed_registers` on the rest of the table;
the objects are stored in `indexed_regs[idx++]`. -/
def a8xx_get_indexed_registers_loop (env : Env) :
    List a8xx_indexed_registers → List a8xx_gpu_state_obj → World →
      List a8xx_gpu_state_obj × World
  | [], objs, w => (objs, w)
  | indexed :: rest, objs, w =>
    let w1 := w.emit (Event.a8xx_aperture_set indexed.pipe_id)
    let (obj, w2) := a8xx_get_indexed_regs env w1 indexed 0 a8xx_gpu_state_obj.zero
    a8xx_get_indexed_registers_loop env rest (objs ++ [obj]) w2

/-- Models `a8xx_get_indexed_registers(gpu, a8xx_state)`.  `mempool_count` is 0, so
the loop over the mempools has no iteration. -/
def a8xx_get_indexed_registers (env : Env) (T : Tables) (slice_mask : Nat) (w : World)
    (a8xx_state : a8xx_gpu_state) : a8xx_gpu_state × World :=
  let indexed_count := T.gen8_2_0_cp_indexed_reg_list.length
  let mempool_count := 0
  let a8xx_state :=
    { a8xx_state with nr_indexed_regs := indexed_count + mempool_count * NUM_SLICES slice_mask }
  let (ok, w1) := state_kcalloc env w a8xx_state.nr_indexed_regs 24
  if !ok then ({ a8xx_state with indexed_regs := none }, w1)
  else
    let (objs, w2) := a8xx_get_indexed_registers_loop env T.gen8_2_0_cp_indexed_reg_list [] w1
    ({ a8xx_state with indexed_regs := some objs }, w2.emit (Event.a8xx_aperture_set 0))

/-! ## Shader blocks -/

/-- The body of `FOR_EACH_SLICE` in `a8xx_get_shaders` for one block, run for
each slice of the list; every run is given the same `&a8xx_state->shaders[i]`. -/
def a8xx_get_shaders_slices (R : RegDefs) (env : Env) (block : gen8_shader_block)
    (dumper : a8xx_crashdumper) : List Nat → a8xx_gpu_state_obj → World →
      a8xx_gpu_state_obj × World
  | [], obj, w => (obj, w)
  | slice :: rest, obj, w =>
    let r := a8xx_get_shader_block R env w block slice obj dumper
    a8xx_get_shaders_slices R env block dumper rest r.obj r.world

/-- The loop of `a8xx_get_shaders` over the shader blocks, on the rest of the
table. -/
def a8xx_get_shaders_loop (R : RegDefs) (env : Env) (slice_mask : Nat)
    (dumper : a8xx_crashdumper) :
    List gen8_shader_block → List a8xx_gpu_state_obj → World →
      Option (List a8xx_gpu_state_obj × World)
  | [], objs, w => some (objs, w)
  | block :: rest, objs, w =>
    match FOR_EACH_SLICE block.slice_region slice_mask with
    | none => none
    | some slices =>
      let (obj, w1) := a8xx_get_shaders_slices R env block dumper slices
        a8xx_gpu_state_obj.zero w
      a8xx_get_shaders_loop R env slice_mask dumper rest (objs ++ [obj]) w1

/-- Models `a8xx_get_shaders(gpu, a8xx_state, dumper)`. -/
def a8xx_get_shaders (R : RegDefs) (env : Env) (T : Tables) (slice_mask : Nat) (w : World)
    (a8xx_state : a8xx_gpu_state) (dumper : a8xx_crashdumper) :
    Option (a8xx_gpu_state × World) :=
  let w := w.emit Event.a8xx_get_shaders_called
  let num_shader_blocks := T.gen8_2_0_shader_blocks.length
  let (ok, w1) := state_kcalloc env w num_shader_blocks 24
  if !ok then some ({ a8xx_state with shaders := none }, w1)
  else
    let a8xx_state := { a8xx_state with nr_shaders := num_shader_blocks }
    match a8xx_get_shaders_loop R env slice_mask dumper T.gen8_2_0_shader_blocks [] w1 with
    | none => none
    | some (objs, w2) => some ({ a8xx_state with shaders := some objs }, w2)

/-! ## `a8xx_gpu_state_get` -/

/-- Models `ENOMEM`. -/
def ENOMEM : Int := 12

/-- Models `a8xx_crashdumper_init(gpu, dumper)`: its result and the dumper it fills. -/
def a8xx_crashdumper_init (env : Env) (w : World) : Int × a8xx_crashdumper × World :=
  let (ptr, iova) := env.msm_gem_kernel_new w.time
  let w1 := w.emit (Event.msm_gem_kernel_new SZ_1M)
  let ret := PTR_ERR_OR_ZERO ptr
  (ret, { ptr := ptr, iova := u64 iova }, w1.emit (Event.a8xx_crashdumper_init_returned ret))

/-- What `a8xx_gpu_state_get` returns: `ERR_PTR(-errno)` or the state. -/
inductive StateResult
  | err_ptr (errno : Int)
  | state (a8xx_state : a8xx_gpu_state)
  deriving DecidableEq, Repr

/-- The part of `a8xx_gpu_state_get` after the check of `a6xx_gmu_gx_is_on`,
when GX is on. -/
def a8xx_gpu_state_get_gx (R : RegDefs) (env : Env) (T : Tables) (gpu : msm_gpu)
    (stalled : Bool) (a8xx_state : a8xx_gpu_state) (w : World) :
    Option (a8xx_gpu_state × World) :=
  let (a8xx_state, w) := a8xx_get_indexed_registers env T gpu.slice_mask w a8xx_state
  let (dumper, w) : Option a8xx_crashdumper × World :=
    if !stalled && !gpu.needs_hw_init then
      let (ret, _dumper, w1) := a8xx_crashdumper_init env w
      if ret = 0 then (some _dumper, w1) else (none, w1)
    else (none, w)
  match a8xx_get_registers R env T gpu.slice_mask w a8xx_state dumper with
  | none => none
  | some (a8xx_state, w) =>
    match dumper with
    | some d =>
      match a8xx_get_shaders R env T gpu.slice_mask w a8xx_state d with
      | none => none
      | some (a8xx_state, w) =>
        let w := w.emit Event.msm_gem_kernel_put
        some ({ a8xx_state with gpu_initialized := !gpu.needs_hw_init }, w)
    | none => some ({ a8xx_state with gpu_initialized := !gpu.needs_hw_init }, w)

/-- Models `a8xx_gpu_state_get(gpu)`; `none` when one of the functions it calls reads
or writes outside an array. -/
def a8xx_gpu_state_get (R : RegDefs) (env : Env) (T : Tables) (gpu : msm_gpu) (w : World) :
    Option (StateResult × World) :=
  let alloc := env.alloc_ok w.time
  let w := w.emit Event.kzalloc
  let (misc_status, w) := gpu_read env w Reg.A8XX_RBBM_MISC_STATUS
  let stalled : Bool := misc_status &&& R.A8XX_RBBM_MISC_STATUS_SMMU_STALLED_ON_FAULT ≠ 0
  if !alloc then some (StateResult.err_ptr (-ENOMEM), w)
  else
    let a8xx_state := a8xx_gpu_state.zero
    let w := w.emit Event.adreno_gpu_state_get
    match a8xx_get_gmu_registers env T w a8xx_state with
    | none => none
    | some (a8xx_state, w) =>
      let (log, w) := a8xx_snapshot_gmu_bo env T w gpu.gmu_log
      let (hfi, w) := a8xx_snapshot_gmu_bo env T w gpu.gmu_hfi
      let (debug, w) := a8xx_snapshot_gmu_bo env T w gpu.gmu_debug
      let a8xx_state :=
        { a8xx_state with gmu_log := log, gmu_hfi := hfi, gmu_debug := debug
                          hfi_queue_history := a8xx_snapshot_gmu_hfi_history gpu.gmu_queues }
      let gx_is_on := env.a6xx_gmu_gx_is_on w.time
      let w := w.emit (Event.a6xx_gmu_gx_is_on gx_is_on)
      if !gx_is_on then some (StateResult.state a8xx_state, w)
      else
        match a8xx_gpu_state_get_gx R env T gpu stalled a8xx_state w with
        | none => none
        | some (a8xx_state, w) => some (StateResult.state a8xx_state, w)

/-! ## Register range arrays as sequences of pairs -/

/-- The `regs` array made of the pairs `(start_k, end_k)` followed by the
terminator `UINT_MAX`. -/
def reg_array (pairs : List (Nat × Nat)) : List Nat :=
  pairs.flatMap (fun p => [p.1, p.2]) ++ [UINT_MAX]

/-- The number of registers of a pair: `end - start + 1`, as a natural number. -/
def range_count (p : Nat × Nat) : Nat := p.2 - p.1 + 1

/-- The read descriptors for a sequence of pairs, the first with target
`out`. -/
def staged_reads (out : Nat) : List (Nat × Nat) → List Descriptor
  | [] => []
  | p :: ps =>
    Descriptor.read p.1 (range_count p) out
      :: staged_reads (u64 (out + 4 * range_count p)) ps

/-! ## Sample inputs -/

/-- An environment in which every read returns 0, every allocation and every
poll succeeds, GX is on and the scratch region maps at `0x10000`. -/
def Env.quiet : Env :=
  { gpu_read := fun _ _ => 0, gmu_read := fun _ _ => 0,
    gpu_poll_timeout := fun _ => 0, alloc_ok := fun _ => true,
    a6xx_gmu_gx_is_on := fun _ => true,
    msm_gem_kernel_new := fun _ => (Ptr.valid, 0x10000),
    cd_data := fun _ _ => 0, get_registers_i_uninit := 0,
    gmu_regcount_uninit := 0 }

/-- No events yet, aperture cache 0. -/
def World.init : World := { trace := [], cached_aperture := 0 }

/-- A crash dumper with a valid mapping at `0x10000`. -/
def a8xx_crashdumper.sample : a8xx_crashdumper := { ptr := Ptr.valid, iova := 0x10000 }

/-- Register encoders that all return 0 and offsets that are all 0. -/
def RegDefs.zero : RegDefs :=
  { A8XX_CP_APERTURE_CNTL_HOST_PIPEID := fun _ => 0
    A8XX_CP_APERTURE_CNTL_HOST_SLICEID := fun _ => 0
    A8XX_CP_APERTURE_CNTL_HOST_USESLICEID := 0
    A8XX_RBBM_MISC_STATUS_SMMU_STALLED_ON_FAULT := 0
    REG_A7XX_SP_READ_SEL := 0
    REG_A7XX_SP_AHB_READ_APERTURE := 0
    A7XX_SP_READ_SEL_CONTEXT := fun _ => 0
    A7XX_SP_READ_SEL_SLICE := fun _ => 0
    A7XX_SP_READ_SEL_LOCATION := fun _ => 0
    A7XX_SP_READ_SEL_PIPE := fun _ => 0
    A7XX_SP_READ_SEL_STATETYPE := fun _ => 0
    A7XX_SP_READ_SEL_USPTP := fun _ => 0
    A7XX_SP_READ_SEL_SPTP := fun _ => 0 }

/-- A shader block of 16 dwords for 2 SPs and 3 contexts. -/
def gen8_shader_block.sample : gen8_shader_block :=
  { statetype := 1, size := 16, num_sps := 2, num_ctx := 3, pipeid := 1,
    location := 0, usptp_id := 0, slice_region := 1 }

/-- Tables with one unsliced AHB register list and one sliced misc register
list, each followed by the entry that ends its table. -/
def Tables.sample : Tables :=
  { sizeof_msm_gpu_state_bo := 64
    gen8_2_0_ahb_registers :=
      [{ slice_region := 0, regs := some [0x10, 0x11, UINT_MAX] },
       { slice_region := 0, regs := none }]
    gen8_2_0_misc_registers :=
      [{ slice_region := 1, regs := some [0x20, 0x21, UINT_MAX] },
       { slice_region := 0, regs := none }]
    gen8_2_0_shader_blocks := [gen8_shader_block.sample]
    gen8_2_0_cp_indexed_reg_list :=
      [{ addr := 0x30, data := 0x31, count := 2, count_fn := none, pipe_id := 1,
         slice_region := 0 }]
    gen8_2_0_gmucx_registers := [0x40, 0x40, UINT_MAX] }

/-- A GPU with slices 0 and 1, initialised, with empty GMU buffers. -/
def msm_gpu.sample : msm_gpu :=
  { needs_hw_init := false, slice_mask := 3
    gmu_log := { size := 0, iova := 0, virt := [] }
    gmu_hfi := { size := 0, iova := 0, virt := [] }
    gmu_debug := { size := 0, iova := 0, virt := [] }
    gmu_queues := [] }

/-- An environment like `Env.quiet` in which GX is off. -/
def Env.gx_off : Env := { Env.quiet with a6xx_gmu_gx_is_on := fun _ => false }

/-- An environment like `Env.quiet` in which `RBBM_MISC_STATUS` reads as 1. -/
def Env.stalled : Env := { Env.quiet with gpu_read := fun _ _ => 1 }

/-- Register encoders like `RegDefs.zero` with `SMMU_STALLED_ON_FAULT` bit 0. -/
def RegDefs.sample : RegDefs :=
  { RegDefs.zero with A8XX_RBBM_MISC_STATUS_SMMU_STALLED_ON_FAULT := 1 }

/-! ## Classes of events -/

/-- The events of capturing registers through the CPU: reads, allocations,
aperture writes and writes to a register addressed from a table. -/
def Event.is_capture : Event → Bool
  | Event.gpu_read _ => true
  | Event.gmu_read _ => true
  | Event.kvzalloc _ _ => true
  | Event.a8xx_aperture_set _ => true
  | Event.gpu_write Reg.A8XX_CP_APERTURE_CNTL_HOST _ => true
  | Event.gpu_write (Reg.offset _) 0 => true
  | _ => false

/-- The events of capturing registers with or without the crash dumper. -/
def Event.is_dumper : Event → Bool
  | Event.gpu_write64 Reg.A8XX_CP_CRASH_DUMP_SCRIPT_BASE _ => true
  | Event.gpu_write Reg.A8XX_CP_CRASH_DUMP_CNTL _ => true
  | Event.gpu_poll_timeout Reg.A8XX_CP_CRASH_DUMP_STATUS => true
  | Event.WARN_ON => true
  | e => e.is_capture

/-- World `w1` continues `w` by events that are all of class `K`. -/
def Ext (K : Event → Bool) (w w1 : World) : Prop :=
  ∃ evs, w1.trace = w.trace ++ evs ∧ ∀ e ∈ evs, K e = true

/-- The events up to the check of `a6xx_gmu_gx_is_on`: the allocation of the
state, the generic state and capture events. -/
def Event.is_gmu : Event → Bool
  | Event.kzalloc => true
  | Event.adreno_gpu_state_get => true
  | e => e.is_capture

/-- Whether every event of a list is of a class. -/
def all_of (K : Event → Bool) (evs : List Event) : Prop := ∀ e ∈ evs, K e = true

/-- The value of `stalled` in `a8xx_gpu_state_get` called in world `w`: the
`SMMU_STALLED_ON_FAULT` bit of the `RBBM_MISC_STATUS` read, the second event
the function makes. -/
def stalled_at (R : RegDefs) (env : Env) (w : World) : Bool :=
  u32 (env.gpu_read (w.time + 1) Reg.A8XX_RBBM_MISC_STATUS) &&&
    R.A8XX_RBBM_MISC_STATUS_SMMU_STALLED_ON_FAULT ≠ 0

/-! ## CAMSS CSID 1080 -/

/-- Models `EIO`. -/
def EIO : Int := 5

/-- Models `CSID_RST_CFG`. -/
def CSID_RST_CFG : Nat := 0x108
/-- Models `RST_MODE`. -/
def RST_MODE : Nat := BIT 0
/-- Models `RST_LOCATION`. -/
def RST_LOCATION : Nat := BIT 4
/-- Models `CSID_RST_CMD`. -/
def CSID_RST_CMD : Nat := 0x10C
/-- Models `SELECT_HW_RST`. -/
def SELECT_HW_RST : Nat := BIT 0
/-- Models `SELECT_IRQ_RST`. -/
def SELECT_IRQ_RST : Nat := BIT 2
/-- Models `CSID_IRQ_CMD`. -/
def CSID_IRQ_CMD : Nat := 0x110
/-- Models `IRQ_CMD_CLEAR`. -/
def IRQ_CMD_CLEAR : Nat := BIT 0
/-- Models `CSID_TOP_IRQ_STATUS`. -/
def CSID_TOP_IRQ_STATUS : Nat := 0x180
/-- Models `CSID_TOP_IRQ_MASK`. -/
def CSID_TOP_IRQ_MASK : Nat := 0x184
/-- Models `CSID_TOP_IRQ_CLEAR`. -/
def CSID_TOP_IRQ_CLEAR : Nat := 0x188
/-- Models `INFO_RST_DONE`. -/
def INFO_RST_DONE : Nat := BIT 0
/-- Models `BUF_DONE_IRQ_STATUS`. -/
def BUF_DONE_IRQ_STATUS : Nat := BIT 3
/-- Models `CSID_BUF_DONE_IRQ_STATUS`. -/
def CSID_BUF_DONE_IRQ_STATUS : Nat := 0x1A0
/-- Models `BUF_DONE_IRQ_STATUS_RDI_OFFSET`. -/
def BUF_DONE_IRQ_STATUS_RDI_OFFSET : Nat := 16
/-- Models `CSID_BUF_DONE_IRQ_MASK`. -/
def CSID_BUF_DONE_IRQ_MASK : Nat := 0x1A4
/-- Models `CSID_BUF_DONE_IRQ_CLEAR`. -/
def CSID_BUF_DONE_IRQ_CLEAR : Nat := 0x1A8
/-- Models `CSID_RDIN_IRQ_STATUS(rdi)`. -/
def CSID_RDIN_IRQ_STATUS (rdi : Nat) : Nat := 0x224 + 0x10 * rdi
/-- Models `CSID_RDIN_IRQ_CLEAR(rdi)`. -/
def CSID_RDIN_IRQ_CLEAR (rdi : Nat) : Nat := 0x22C + 0x10 * rdi

/-- What the code reads of `struct csid_device`: the result of
`csid_is_lite(csid)`, `id` and `phy.en_vc`. -/
structure csid_device where
  is_lite : Bool
  id : Nat
  en_vc : Nat
  deriving DecidableEq, Repr

/-- Models `MSM_CSID_MAX_SRC_STREAMS_1080`. -/
def MSM_CSID_MAX_SRC_STREAMS_1080 (csid : csid_device) : Nat :=
  if csid.is_lite then 4 else 5

/-- What the CSID driver does to the hardware and asks of the kernel, in order;
register accesses are relative to `csid->base`. -/
inductive CsidEvent
  | readl (offset : Nat)
  | writel (val offset : Nat)
  | camss_buf_done (id port : Nat)
  | complete_reset_complete
  | reinit_completion
  | wait_for_completion_timeout
  | dev_err
  deriving DecidableEq, Repr

/-- What the hardware and the kernel answer the CSID driver, indexed by the
number of events made before the question. -/
structure CsidEnv where
  /-- The value a `readl` returns. -/
  readl : Nat → Nat → Nat
  /-- The result of `wait_for_completion_timeout`: 0 when the wait timed out,
  else the jiffies that were left, at least 1. -/
  wait_for_completion_timeout : Nat → Nat

/-- Models `readl(csid->base + offset)`. -/
def csid_readl (env : CsidEnv) (tr : List CsidEvent) (offset : Nat) :
    Nat × List CsidEvent :=
  (u32 (env.readl tr.length offset), tr ++ [CsidEvent.readl offset])

/-- Models `writel(val, csid->base + offset)`. -/
def csid_writel (tr : List CsidEvent) (val offset : Nat) : List CsidEvent :=
  tr ++ [CsidEvent.writel val offset]

/-- Models `irqreturn_t`. -/
inductive irqreturn_t
  | IRQ_NONE
  | IRQ_HANDLED
  | IRQ_WAKE_THREAD
  deriving DecidableEq, Repr

/-- The `for` loop of `csid_isr_1080` from `i`, with `n` iterations left. -/
def csid_isr_1080_loop (env : CsidEnv) (csid : csid_device) (buf_done_val : Nat) :
    Nat → Nat → List CsidEvent → List CsidEvent
  | 0, _, tr => tr
  | n + 1, i, tr =>
    if csid.en_vc &&& BIT i ≠ 0 then
      let (val, tr1) := csid_readl env tr (CSID_RDIN_IRQ_STATUS i)
      let tr2 := csid_writel tr1 val (CSID_RDIN_IRQ_CLEAR i)
      let tr3 :=
        if buf_done_val &&& BIT (BUF_DONE_IRQ_STATUS_RDI_OFFSET + i) ≠ 0 then
          tr2 ++ [CsidEvent.camss_buf_done csid.id i]
        else tr2
      csid_isr_1080_loop env csid buf_done_val n (i + 1) tr3
    else csid_isr_1080_loop env csid buf_done_val n (i + 1) tr

/-- Models `csid_isr_1080(irq, dev)`. -/
def csid_isr_1080 (env : CsidEnv) (csid : csid_device) (tr : List CsidEvent) :
    irqreturn_t × List CsidEvent :=
  let (val, tr) := csid_readl env tr CSID_TOP_IRQ_STATUS
  let tr := csid_writel tr val CSID_TOP_IRQ_CLEAR
  let reset_done := (val &&& INFO_RST_DONE) % 2 ^ 8
  let (buf_done_val, tr) := csid_readl env tr CSID_BUF_DONE_IRQ_STATUS
  let tr := csid_writel tr buf_done_val CSID_BUF_DONE_IRQ_CLEAR
  let tr := csid_isr_1080_loop env csid buf_done_val (MSM_CSID_MAX_SRC_STREAMS_1080 csid) 0 tr
  let val := IRQ_CMD_CLEAR
  let tr := csid_writel tr val CSID_IRQ_CMD
  let tr := if reset_done ≠ 0 then tr ++ [CsidEvent.complete_reset_complete] else tr
  (irqreturn_t.IRQ_HANDLED, tr)

/-- The `for` loop of `csid_reset_1080` from `i`, with `n` iterations left:
`val`. -/
def csid_reset_1080_loop (csid : csid_device) : Nat → Nat → Nat → Nat
  | 0, _, val => val
  | n + 1, i, val =>
    if csid.en_vc &&& BIT i ≠ 0 then
      csid_reset_1080_loop csid n (i + 1) (val ||| BIT (BUF_DONE_IRQ_STATUS_RDI_OFFSET + i))
    else csid_reset_1080_loop csid n (i + 1) val

/-- Models `csid_reset_1080(csid)`: its result and the trace. -/
def csid_reset_1080 (env : CsidEnv) (csid : csid_device) (tr : List CsidEvent) :
    Int × List CsidEvent :=
  let tr := tr ++ [CsidEvent.reinit_completion]
  let val := INFO_RST_DONE ||| BUF_DONE_IRQ_STATUS
  let tr := csid_writel tr val CSID_TOP_IRQ_CLEAR
  let tr := csid_writel tr val CSID_TOP_IRQ_MASK
  let val := csid_reset_1080_loop csid (MSM_CSID_MAX_SRC_STREAMS_1080 csid) 0 0
  let tr := csid_writel tr val CSID_BUF_DONE_IRQ_CLEAR
  let tr := csid_writel tr val CSID_BUF_DONE_IRQ_MASK
  let val := IRQ_CMD_CLEAR
  let tr := csid_writel tr val CSID_IRQ_CMD
  let val := RST_LOCATION ||| RST_MODE
  let tr := csid_writel tr val CSID_RST_CFG
  let val := SELECT_HW_RST ||| SELECT_IRQ_RST
  let tr := csid_writel tr val CSID_RST_CMD
  let time := env.wait_for_completion_timeout tr.length
  let tr := tr ++ [CsidEvent.wait_for_completion_timeout]
  if time = 0 then (- EIO, tr ++ [CsidEvent.dev_err])
  else (0, tr)

/-! ## Novatek NVT touchscreen -/

/-- Models `ARRAY_SIZE(msg)` in `nvt_ts_read_data`. -/
def NVT_MSG_COUNT : Nat := 2

/-- An `int` converted to `size_t`, 64 bits wide. -/
def int_as_size_t (x : Int) : Int := x % 2 ^ 64

/-- Models `nvt_ts_read_data(client, reg, data, count)` as a function of the result
`ret` of `i2c_transfer`: the number of messages transferred, or a negative
errno. -/
def nvt_ts_read_data (ret : Int) : Int :=
  if int_as_size_t ret ≠ (NVT_MSG_COUNT : Int) then
    if ret < 0 then ret else - EIO
  else 0

/-- The events of the loop of `csid_isr_1080`: reads, writes to the per-RDI
clear registers (at `0x22C` and above) and buffer-done notifications. -/
def CsidEvent.is_rdi : CsidEvent → Bool
  | CsidEvent.readl _ => true
  | CsidEvent.writel _ offset => decide (0x22C ≤ offset)
  | CsidEvent.camss_buf_done _ _ => true
  | _ => false

/-- A CSID with RDI 0 and 1 enabled. -/
def csid_device.sample : csid_device := { is_lite := false, id := 0, en_vc := 3 }

/-- Whether an event is a `camss_buf_done` notification. -/
def CsidEvent.is_buf_done : CsidEvent → Bool
  | CsidEvent.camss_buf_done _ _ => true
  | _ => false

/-- The test the loop of `csid_isr_1080` makes for RDI `i` before it notifies
the VFE: the RDI is enabled in `phy.en_vc` and its buffer-done bit is set. -/
def csid_buf_done_test (csid : csid_device) (buf_done_val i : Nat) : Bool :=
  decide (csid.en_vc &&& BIT i ≠ 0) &&
    decide (buf_done_val &&& BIT (BUF_DONE_IRQ_STATUS_RDI_OFFSET + i) ≠ 0)

/-- An environment in which every CSID register reads as `0x30001` (reset done,
buffer done for RDI 0 and 1) and the wait for the reset completes. -/
def CsidEnv.sample : CsidEnv :=
  { readl := fun _ _ => 0x30001, wait_for_completion_timeout := fun _ => 1 }

/-! ## The aperture register -/

/-- The last value written to `CP_APERTURE_CNTL_HOST` in a trace, `none` when
the trace has no such write. -/
def last_aperture_write : List Event → Option Nat
  | [] => none
  | e :: rest =>
    match last_aperture_write rest with
    | some v => some v
    | none =>
      match e with
      | Event.gpu_write Reg.A8XX_CP_APERTURE_CNTL_HOST v => some v
      | _ => none

/-- Register encoders with the fields of `CP_APERTURE_CNTL_HOST` laid out as
pipe id in bits 12 to 15, slice id in bits 16 to 18 and `USESLICEID` bit 23;
the other encoders are those of `RegDefs.sample`.  The generated header with
the layout is not part of the sources here. -/
def RegDefs.aperture_layout : RegDefs :=
  { RegDefs.sample with
    A8XX_CP_APERTURE_CNTL_HOST_PIPEID := fun pipe => (pipe <<< 12) &&& 0xF000
    A8XX_CP_APERTURE_CNTL_HOST_SLICEID := fun slice => (slice <<< 16) &&& 0x70000
    A8XX_CP_APERTURE_CNTL_HOST_USESLICEID := 0x800000 }

/-- The slice-id field of a value of `CP_APERTURE_CNTL_HOST` in the layout of
`RegDefs.aperture_layout`. -/
def aperture_sliceid (val : Nat) : Nat := (val >>> 16) &&& 7

/-- The pipe-id field of a value of `CP_APERTURE_CNTL_HOST` in the layout of
`RegDefs.aperture_layout`. -/
def aperture_pipeid (val : Nat) : Nat := (val >>> 12) &&& 0xF

/-! ## Sample inputs for the indexed registers -/

/-- An environment like `Env.quiet` in which a `gpu_read` returns 100 plus the
number of events made before it. -/
def Env.clock : Env := { Env.quiet with gpu_read := fun t _ => 100 + t }

/-- An indexed register bank with a static count of 2 and a `count_fn` that
returns 3. -/
def a8xx_indexed_registers.sample : a8xx_indexed_registers :=
  { addr := 0x30, data := 0x31, count := 2, count_fn := some 3, pipe_id := 1,
    slice_region := 0 }

/-! ## `print_ascii85` -/

/-- What `print_ascii85` does: the strings it passes to `drm_puts` and the
indices of `data` it reads, each in order. -/
structure Printed where
  out : List String
  reads : List Nat
  deriving DecidableEq, Repr

/-- The first loop of `print_ascii85` from `i`, with `n` iterations left:
`datalen` and the indices read; `none` when it reads past the end of `data`. -/
def print_ascii85_scan (data : List Nat) : Nat → Nat → Nat → List Nat →
    Option (Nat × List Nat)
  | 0, _, datalen, reads => some (datalen, reads)
  | n + 1, i, datalen, reads =>
    match data[i]? with
    | none => none
    | some d =>
      print_ascii85_scan data n (i + 1) (if d ≠ 0 then (i + 1) <<< 2 else datalen)
        (reads ++ [i])

/-- The second loop of `print_ascii85` from `i`, with `n` iterations left;
`ascii85_encode` is a parameter (`linux/ascii85.h` is not part of the sources
here). -/
def print_ascii85_encode (ascii85_encode : Nat → String) (data : List Nat) :
    Nat → Nat → Printed → Option Printed
  | 0, _, p => some p
  | n + 1, i, p =>
    match data[i]? with
    | none => none
    | some d =>
      print_ascii85_encode ascii85_encode data n (i + 1)
        { out := p.out ++ [ascii85_encode d], reads := p.reads ++ [i] }

/-- Models `print_ascii85(p, len, data)`, with `ascii85_encode_len` and
`ascii85_encode` of `linux/ascii85.h` (not part of the sources here) as
parameters; `none` when it reads past the end of `data`. -/
def print_ascii85 (ascii85_encode_len : Nat → Nat) (ascii85_encode : Nat → String)
    (len : Nat) (data : List Nat) : Option Printed :=
  match print_ascii85_scan data (len >>> 2) 0 0 [] with
  | none => none
  | some (datalen, reads) =>
    if datalen = 0 then some { out := [], reads := reads }
    else
      let l := ascii85_encode_len datalen
      match print_ascii85_encode ascii85_encode data l 0
          { out := ["    data: !!ascii85 |\n", "      "], reads := reads } with
      | none => none
      | some p => some { p with out := p.out ++ ["\n"] }

/-- The length `ascii85_encode_len` returns in the kernel's `linux/ascii85.h`:
`DIV_ROUND_UP(len, 4)`. -/
def ascii85_encode_len_div_round_up (len : Nat) : Nat := (len + 3) / 4

/-- The string `ascii85_encode` returns in the kernel's `linux/ascii85.h`: `z`
for 0, else the five base-85 digits of the dword, most significant first, each
added to the character `!`. -/
def ascii85_encode_base85 (d : Nat) : String :=
  if d = 0 then "z"
  else String.mk ((List.range 5).map (fun k => Char.ofNat (33 + d / 85 ^ (4 - k) % 85)))

end LinuxMtk

/-! # Theorems -/

namespace LinuxMtk

/-! ### Lemmas on the bit helpers -/

theorem BIT_and_ne_zero (n m : Nat) : (BIT n &&& m ≠ 0) ↔ m.testBit n = true := by
  unfold BIT
  rw [Nat.two_pow_and]
  cases h : m.testBit n <;> simp

theorem flsAux_le (x n : Nat) : flsAux x n ≤ n := by
  induction n with
  | zero => simp [flsAux]
  | succ n ih =>
    unfold flsAux
    split
    · exact le_rfl
    · exact Nat.le_succ_of_le ih

theorem fls_le (x : Nat) : fls x ≤ 32 := flsAux_le x 32

theorem lt_flsAux_of_testBit (x : Nat) {n b : Nat} (hb : b < n)
    (h : x.testBit b = true) : b < flsAux x n := by
  induction n with
  | zero => omega
  | succ n ih =>
    unfold flsAux
    split
    · omega
    · rename_i hn
      have hne : b ≠ n := by
        rintro rfl
        exact hn h
      exact ih (by omega)

theorem lt_fls_of_testBit {x b : Nat} (hx : x < 2 ^ 32) (h : x.testBit b = true) :
    b < fls x := by
  have hb : b < 32 := by
    by_contra hge
    have h2 : x < 2 ^ b :=
      lt_of_lt_of_le hx (Nat.pow_le_pow_right (by decide) (by omega))
    rw [Nat.testBit_lt_two_pow h2] at h
    exact Bool.noConfusion h
  exact lt_flsAux_of_testBit x hb h

theorem fls_eq_zero_iff {x : Nat} (hx : x < 2 ^ 32) : fls x = 0 ↔ x = 0 := by
  constructor
  · intro h
    apply Nat.zero_of_testBit_eq_false
    intro i
    by_contra hi
    have := lt_fls_of_testBit hx (by simpa using hi)
    omega
  · rintro rfl
    decide

theorem hweightAux_eq_countP (x n : Nat) :
    hweightAux x n = ((List.range n).filter (fun b => x.testBit b)).length := by
  induction n with
  | zero => simp [hweightAux]
  | succ n ih =>
    rw [hweightAux, ih, List.range_succ, List.filter_append, List.length_append]
    congr 1
    have h2 : (x >>> n) % 2 = if x.testBit n then 1 else 0 := by
      rw [Nat.testBit, Nat.one_and_eq_mod_two]
      rcases Nat.mod_two_eq_zero_or_one (x >>> n) with h | h <;> simp [h]
    rw [h2]
    by_cases hb : x.testBit n = true <;> simp [List.filter_cons, hb]

/-! ### Lemmas on the slice iteration -/

theorem next_slice_loop_of_ge (mask : Nat) {n s : Nat} (h : fls mask ≤ s) :
    next_slice_loop mask n s = s := by
  cases n with
  | zero => rfl
  | succ n => simp [next_slice_loop, Nat.not_lt.mpr h]

theorem next_slice_of_ge {mask s : Nat} (h : fls mask ≤ s) : next_slice s mask = s :=
  next_slice_loop_of_ge mask h

theorem next_slice_step {mask s : Nat} (h : s < fls mask) :
    next_slice s mask = if mask.testBit s then s else next_slice (s + 1) mask := by
  unfold next_slice
  obtain ⟨n, hn⟩ : ∃ n, fls mask - s = n + 1 := ⟨fls mask - s - 1, by omega⟩
  have hn2 : fls mask - (s + 1) = n := by omega
  rw [hn, hn2, next_slice_loop]
  simp only [h, if_true]
  by_cases hb : mask.testBit s = true
  · rw [if_pos ((BIT_and_ne_zero s mask).mpr hb), if_pos hb]
  · rw [if_neg (fun hc => hb ((BIT_and_ne_zero s mask).mp hc)), if_neg hb]

theorem setBitsFrom_of_ge {mask s : Nat} (hm : mask < 2 ^ 32) (h : fls mask ≤ s) :
    setBitsFrom mask s = [] := by
  unfold setBitsFrom
  rw [List.filter_eq_nil_iff]
  intro b hb
  rw [List.mem_range'_1] at hb
  intro hbit
  have := lt_fls_of_testBit hm hbit
  omega

theorem setBitsFrom_step {mask s : Nat} (h : s < 32) :
    setBitsFrom mask s =
      if mask.testBit s then s :: setBitsFrom mask (s + 1) else setBitsFrom mask (s + 1) := by
  unfold setBitsFrom
  obtain ⟨n, hn⟩ : ∃ n, 32 - s = n + 1 := ⟨32 - s - 1, by omega⟩
  have hn2 : 32 - (s + 1) = n := by omega
  rw [hn, hn2, List.range'_succ, List.filter_cons]

/-- From a sliced region's `next_slice s`, the loop of `FOR_EACH_SLICE` visits
exactly the set bits at or above `s`. -/
theorem FOR_EACH_SLICE_loop_sliced {region mask : Nat} (hr : region ≠ UNSLICE)
    (hm : mask < 2 ^ 32) (k : Nat) :
    ∀ (s fuel : Nat), fls mask - s ≤ k → fls mask - s < fuel →
      FOR_EACH_SLICE_loop region mask fuel (next_slice s mask)
        = some (setBitsFrom mask s) := by
  induction k with
  | zero =>
    intro s fuel hk hf
    have hge : fls mask ≤ s := by omega
    obtain ⟨f, rfl⟩ : ∃ f, fuel = f + 1 := ⟨fuel - 1, by omega⟩
    rw [next_slice_of_ge hge, setBitsFrom_of_ge hm hge, FOR_EACH_SLICE_loop,
      if_neg (by omega)]
  | succ k ih =>
    intro s fuel hk hf
    by_cases hge : fls mask ≤ s
    · obtain ⟨f, rfl⟩ : ∃ f, fuel = f + 1 := ⟨fuel - 1, by omega⟩
      rw [next_slice_of_ge hge, setBitsFrom_of_ge hm hge, FOR_EACH_SLICE_loop,
        if_neg (by omega)]
    · have hlt : s < fls mask := by omega
      have h32 : s < 32 := lt_of_lt_of_le hlt (fls_le mask)
      rw [next_slice_step hlt, setBitsFrom_step h32]
      by_cases hb : mask.testBit s = true
      · rw [if_pos hb, if_pos hb]
        obtain ⟨f, rfl⟩ : ∃ f, fuel = f + 1 := ⟨fuel - 1, by omega⟩
        rw [FOR_EACH_SLICE_loop, if_pos hlt]
        have hN : NEXT_SLICE (s + 1) region mask = next_slice (s + 1) mask := by
          simp [NEXT_SLICE, hr]
        rw [hN, ih (s + 1) f (by omega) (by omega)]
        rfl
      · rw [if_neg hb, if_neg hb]
        exact ih (s + 1) fuel (by omega) (by omega)

theorem FIRST_SLICE_sliced {region mask : Nat} (hr : region ≠ UNSLICE) :
    FIRST_SLICE region mask = next_slice 0 mask := by
  simp [FIRST_SLICE, NEXT_SLICE, hr]

/-- C10: for a sliced region (any region other than `UNSLICE`) and every 32-bit
slice mask, `FOR_EACH_SLICE` terminates and runs its body exactly once for
each bit set in the mask, in increasing bit order, with `slice` equal to that
bit's index; the number of runs is `hweight32(mask) = NUM_SLICES`. -/
theorem FOR_EACH_SLICE_sliced (region mask : Nat) (hr : region ≠ UNSLICE)
    (hm : mask < 2 ^ 32) :
    FOR_EACH_SLICE region mask
        = some ((List.range 32).filter (fun b => mask.testBit b)) ∧
      ((List.range 32).filter (fun b => mask.testBit b)).length = hweight32 mask ∧
      hweight32 mask = NUM_SLICES mask := by
  refine ⟨?_, ?_, rfl⟩
  · unfold FOR_EACH_SLICE
    rw [FIRST_SLICE_sliced hr,
      FOR_EACH_SLICE_loop_sliced hr hm (fls mask) 0 33 (by omega)
        (by have := fls_le mask; omega)]
    simp [setBitsFrom, List.range_eq_range']
  · exact (hweightAux_eq_countP mask 32).symm

/-- C10 at region 1 and mask `0b1011`: the body runs with slices 0, 1, 3. -/
theorem FOR_EACH_SLICE_sliced_witness :
    FOR_EACH_SLICE 1 11 = some [0, 1, 3] ∧ hweight32 11 = 3 := by
  have h := FOR_EACH_SLICE_sliced 1 11 (by decide) (by decide)
  refine ⟨h.1.trans (by decide), by decide⟩

/-- For the `UNSLICE` region the loop of `FOR_EACH_SLICE` exits within the
iterations allowed: the body runs with slice 0 when `fls(mask)` is not 0 and
not at all otherwise. -/
theorem FOR_EACH_SLICE_unslice_loop (mask : Nat) :
    FOR_EACH_SLICE UNSLICE mask = some (if 0 < fls mask then [0] else []) := by
  unfold FOR_EACH_SLICE
  have hF : FIRST_SLICE UNSLICE mask = 0 := by simp [FIRST_SLICE]
  have hN : NEXT_SLICE (0 + 1) UNSLICE mask = fls mask := by simp [NEXT_SLICE]
  rw [hF, FOR_EACH_SLICE_loop]
  by_cases h : 0 < fls mask
  · rw [if_pos h, if_pos h, hN, FOR_EACH_SLICE_loop, if_neg (Nat.lt_irrefl _)]
    rfl
  · rw [if_neg h, if_neg h]

/-- The loop of `FOR_EACH_SLICE` always exits within the 33 iterations allowed,
for every region and every 32-bit mask. -/
theorem FOR_EACH_SLICE_isSome (region mask : Nat) (hm : mask < 2 ^ 32) :
    (FOR_EACH_SLICE region mask).isSome = true := by
  by_cases hr : region = UNSLICE
  · subst hr
    rw [FOR_EACH_SLICE_unslice_loop]
    rfl
  · unfold FOR_EACH_SLICE
    rw [FIRST_SLICE_sliced hr,
      FOR_EACH_SLICE_loop_sliced hr hm (fls mask) 0 33 (by omega)
        (by have := fls_le mask; omega)]
    rfl

/-! ### The staging loop of `a8xx_get_crashdumper_registers` -/

theorem u64_add_u64 (a b : Nat) : u64 (u64 a + b) = u64 (a + b) := by
  unfold u64
  omega

theorem u32_add_u32 (a b : Nat) : u32 (u32 a + b) = u32 (a + b) := by
  unfold u32
  omega

theorem RANGE_eq_range_count {p : Nat × Nat} (h : p.1 ≤ p.2) (h2 : p.2 < UINT_MAX) :
    RANGE p.1 p.2 = range_count p := by
  unfold RANGE range_count u32
  unfold UINT_MAX at h2
  omega

theorem u64_lt (a : Nat) : u64 a < 2 ^ 64 := Nat.mod_lt _ (by decide)

theorem u32_lt (a : Nat) : u32 a < 2 ^ 32 := Nat.mod_lt _ (by decide)

theorem u64_of_lt {a : Nat} (h : a < 2 ^ 64) : u64 a = a := Nat.mod_eq_of_lt h

theorem u32_of_lt {a : Nat} (h : a < 2 ^ 32) : u32 a = a := Nat.mod_eq_of_lt h

theorem reg_array_cons (p : Nat × Nat) (ps : List (Nat × Nat)) :
    reg_array (p :: ps) = p.1 :: p.2 :: reg_array ps := by
  simp [reg_array]

theorem a8xx_get_crashdumper_registers_loop_pairs (pairs : List (Nat × Nat))
    (hp : ∀ p ∈ pairs, p.1 ≤ p.2 ∧ p.2 < UINT_MAX) (st : Staging)
    (hout : st.out < 2 ^ 64) (hrc : st.regcount < 2 ^ 32) :
    a8xx_get_crashdumper_registers_loop (reg_array pairs) st
      = some { script := st.script ++ staged_reads st.out pairs
               out := u64 (st.out + 4 * (pairs.map range_count).sum)
               regcount := u32 (st.regcount + (pairs.map range_count).sum) } := by
  induction pairs generalizing st with
  | nil =>
    simp [reg_array, a8xx_get_crashdumper_registers_loop, staged_reads,
      u64_of_lt hout, u32_of_lt hrc]
  | cons p ps ih =>
    have h1 := hp p (List.mem_cons_self _ _)
    have hne : p.1 ≠ UINT_MAX := by omega
    rw [reg_array_cons, a8xx_get_crashdumper_registers_loop, if_pos hne,
      RANGE_eq_range_count h1.1 h1.2]
    rw [ih (fun q hq => hp q (List.mem_cons_of_mem _ hq)) _ (u64_lt _) (u32_lt _)]
    simp only [staged_reads, List.map_cons, List.sum_cons, u64_add_u64, u32_add_u32,
      List.append_assoc, List.singleton_append, Nat.mul_comm (range_count p) 4]
    congr 2
    · congr 1; ring
    · congr 1; ring

theorem script_words_cons (d : Descriptor) (ds : List Descriptor) :
    script_words (d :: ds) = d.words ++ script_words ds := by
  simp [script_words]

theorem script_words_append (ds es : List Descriptor) :
    script_words (ds ++ es) = script_words ds ++ script_words es := by
  simp [script_words]

theorem script_words_staged_reads (pairs : List (Nat × Nat)) (b : Nat) :
    script_words (staged_reads (u64 b) pairs)
      = (List.range pairs.length).flatMap (fun k =>
          [u64 (b + 4 * ((pairs.take k).map range_count).sum),
           u64 ((pairs.getD k (0, 0)).1 <<< 44) ||| range_count (pairs.getD k (0, 0))]) := by
  induction pairs generalizing b with
  | nil => simp [staged_reads, script_words]
  | cons p ps ih =>
    rw [staged_reads, script_words_cons, u64_add_u64, ih (b + 4 * range_count p),
      List.length_cons, List.range_succ_eq_map, List.flatMap_cons, List.flatMap_map]
    simp [Descriptor.words, CRASHDUMP_READ, Nat.mul_add, Nat.add_assoc]

/-- C1: for a register list whose `regs` array is `n` pairs
`(start_k, end_k)` of 32-bit values other than the terminator, with
`start_k <= end_k`, followed by `UINT_MAX`, `a8xx_get_crashdumper_registers`
returns and the words it stored in the dumper script are, for `k < n`, the two
64-bit words `[target_k, (start_k << 44) | count_k]` with
`count_k = end_k - start_k + 1` and
`target_k = iova + 8192 + 4 * (count_0 + ... + count_{k-1})` (64-bit
arithmetic), followed by the terminator `[0, 0]`. -/
theorem a8xx_get_crashdumper_registers_script (env : Env) (w : World)
    (region slice_id : Nat) (obj : a8xx_gpu_state_obj) (dumper : a8xx_crashdumper)
    (pairs : List (Nat × Nat))
    (hp : ∀ p ∈ pairs, p.1 ≤ p.2 ∧ p.2 < UINT_MAX) :
    ∃ r, a8xx_get_crashdumper_registers env w
          { slice_region := region, regs := some (reg_array pairs) }
          slice_id obj dumper = some r ∧
      script_words r.script
        = (List.range pairs.length).flatMap (fun k =>
            [u64 (dumper.iova + 8192 + 4 * ((pairs.take k).map range_count).sum),
             u64 ((pairs.getD k (0, 0)).1 <<< 44) ||| range_count (pairs.getD k (0, 0))])
          ++ [0, 0] := by
  have hloop := a8xx_get_crashdumper_registers_loop_pairs pairs hp
    { script := [], out := u64 (dumper.iova + A8XX_CD_DATA_OFFSET), regcount := 0 }
    (u64_lt _) (Nat.two_pow_pos 32)
  have hw := script_words_staged_reads pairs (dumper.iova + 8192)
  unfold a8xx_get_crashdumper_registers
  simp only [hloop, List.nil_append]
  split
  · exact ⟨_, rfl, by
      simp only [script_words_append, A8XX_CD_DATA_OFFSET, hw]
      rfl⟩
  · split
    · exact ⟨_, rfl, by
        simp only [script_words_append, A8XX_CD_DATA_OFFSET, hw]
        rfl⟩
    · exact ⟨_, rfl, by
        simp only [script_words_append, A8XX_CD_DATA_OFFSET, hw]
        rfl⟩

/-- C1 at the register list `{0x100, 0x103, 0x200, 0x200, UINT_MAX}` and
`iova = 0x10000`: two read descriptors and the terminator. -/
theorem a8xx_get_crashdumper_registers_script_witness :
    ∃ r, a8xx_get_crashdumper_registers Env.quiet World.init
          { slice_region := 0, regs := some [0x100, 0x103, 0x200, 0x200, UINT_MAX] }
          0 a8xx_gpu_state_obj.zero a8xx_crashdumper.sample = some r ∧
      script_words r.script
        = [0x12000, 0x100 * 2 ^ 44 + 4, 0x12010, 0x200 * 2 ^ 44 + 1, 0, 0] := by
  obtain ⟨r, h1, h2⟩ := a8xx_get_crashdumper_registers_script Env.quiet World.init 0 0
    a8xx_gpu_state_obj.zero a8xx_crashdumper.sample [(0x100, 0x103), (0x200, 0x200)]
    (by decide)
  exact ⟨r, h1, h2.trans (by decide)⟩

/-- Outside the register lists C1 is about: for the single pair
`(0, UINT_MAX)`, whose end is the terminator value, the 32-bit `RANGE` wraps to
0 and the descriptor staged asks for 0 dwords, not for `2^32`. -/
theorem a8xx_get_crashdumper_registers_full_range :
    ∃ r, a8xx_get_crashdumper_registers Env.quiet World.init
          { slice_region := 0, regs := some [0, UINT_MAX, UINT_MAX] }
          0 a8xx_gpu_state_obj.zero a8xx_crashdumper.sample = some r ∧
      r.script = [Descriptor.read 0 0 0x12000, Descriptor.fini] := by
  refine ⟨_, rfl, ?_⟩
  decide

/-! ### The size of the data the crash dumper is asked to write -/

/-- A wrap of `regcount` with two ranges: for the register list
`{0, 0xFFFFFFFE, 0, 1, UINT_MAX}` the dword counts `0xFFFFFFFF` and `2` add up
to 1 in the 32-bit `regcount`, the size check passes, the crash dumper is run,
and the two read descriptors staged ask for `4 * (2^32 + 1)` bytes, more than
`A8XX_CD_DATA_SIZE`. -/
theorem a8xx_get_crashdumper_registers_overrun :
    ∃ r, a8xx_get_crashdumper_registers Env.quiet World.init
          { slice_region := 0, regs := some [0, 0xFFFFFFFE, 0, 1, UINT_MAX] }
          0 a8xx_gpu_state_obj.zero a8xx_crashdumper.sample = some r ∧
      triggers_crashdumper r.world.trace ∧
      r.script = [Descriptor.read 0 0xFFFFFFFF 0x12000,
                  Descriptor.read 0 2 0x400011FFC, Descriptor.fini] ∧
      script_read_bytes r.script = 4 * (2 ^ 32 + 1) ∧
      A8XX_CD_DATA_SIZE < script_read_bytes r.script := by
  refine ⟨_, rfl, ?_, ?_, ?_, ?_⟩ <;> decide

theorem script_read_bytes_append (ds es : List Descriptor) :
    script_read_bytes (ds ++ es) = script_read_bytes ds + script_read_bytes es := by
  simp [script_read_bytes, Nat.mul_add]

theorem script_words_length (ds : List Descriptor) :
    (script_words ds).length = 2 * ds.length := by
  induction ds with
  | nil => rfl
  | cons d ds ih =>
    rw [script_words_cons, List.length_append, ih, List.length_cons]
    cases d <;> simp [Descriptor.words, CRASHDUMP_WRITE, CRASHDUMP_READ, CRASHDUMP_FINI] <;>
      omega

theorem script_bytes_eq (ds : List Descriptor) : script_bytes ds = 16 * ds.length := by
  rw [script_bytes, script_words_length]
  omega

theorem staged_reads_length (pairs : List (Nat × Nat)) (out : Nat) :
    (staged_reads out pairs).length = pairs.length := by
  induction pairs generalizing out with
  | nil => rfl
  | cons p ps ih => simp [staged_reads, ih]

theorem a8xx_crashdumper_run_trace (env : Env) (w : World) (dumper : a8xx_crashdumper) :
    ∃ evs, (a8xx_crashdumper_run env w dumper).2.trace = w.trace ++ evs ∧
      (a8xx_crashdumper_run env w dumper).2.cached_aperture = w.cached_aperture := by
  unfold a8xx_crashdumper_run
  split
  · exact ⟨[], by simp, rfl⟩
  · exact ⟨[Event.gpu_write64 Reg.A8XX_CP_CRASH_DUMP_SCRIPT_BASE dumper.iova,
        Event.gpu_write Reg.A8XX_CP_CRASH_DUMP_CNTL 1,
        Event.gpu_poll_timeout Reg.A8XX_CP_CRASH_DUMP_STATUS,
        Event.gpu_write Reg.A8XX_CP_CRASH_DUMP_CNTL 0],
      by simp [gpu_write, gpu_write64, World.emit, List.append_assoc], rfl⟩

/-- The script `a8xx_get_crashdumper_registers` stages for a sequence of pairs
is the read descriptors and the terminator, whatever the outcome of the size
check and of the run. -/
theorem a8xx_get_crashdumper_registers_staged (env : Env) (w : World)
    (region slice_id : Nat) (obj : a8xx_gpu_state_obj) (dumper : a8xx_crashdumper)
    (pairs : List (Nat × Nat))
    (hp : ∀ p ∈ pairs, p.1 ≤ p.2 ∧ p.2 < UINT_MAX) :
    ∃ r, a8xx_get_crashdumper_registers env w
          { slice_region := region, regs := some (reg_array pairs) }
          slice_id obj dumper = some r ∧
      r.script = staged_reads (u64 (dumper.iova + A8XX_CD_DATA_OFFSET)) pairs
        ++ [Descriptor.fini] ∧
      (triggers_crashdumper r.world.trace → ¬ triggers_crashdumper w.trace →
        u64 (int_to_size_t (u32 (pairs.map range_count).sum) * 4) ≤ A8XX_CD_DATA_SIZE) := by
  have hloop := a8xx_get_crashdumper_registers_loop_pairs pairs hp
    { script := [], out := u64 (dumper.iova + A8XX_CD_DATA_OFFSET), regcount := 0 }
    (u64_lt _) (Nat.two_pow_pos 32)
  unfold a8xx_get_crashdumper_registers
  simp only [hloop, List.nil_append, Nat.zero_add]
  split
  · refine ⟨_, rfl, rfl, ?_⟩
    intro h1 h2
    simp [triggers_crashdumper, World.emit] at h1 h2
    exact absurd h1 h2
  · rename_i hle
    split
    · exact ⟨_, rfl, rfl, fun _ _ => Nat.not_lt.mp hle⟩
    · exact ⟨_, rfl, rfl, fun _ _ => Nat.not_lt.mp hle⟩

theorem a8xx_get_shader_block_ctx_script (R : RegDefs) (block : gen8_shader_block)
    (slice_id i n j : Nat) (st : Staging) :
    (a8xx_get_shader_block_ctx R block slice_id i n j st).script.length
        = st.script.length + 2 * n ∧
      script_read_bytes (a8xx_get_shader_block_ctx R block slice_id i n j st).script
        = script_read_bytes st.script + 4 * (n * block.size) := by
  induction n generalizing j st with
  | zero => simp [a8xx_get_shader_block_ctx]
  | succ n ih =>
    rw [a8xx_get_shader_block_ctx]
    obtain ⟨h1, h2⟩ := ih (j + 1)
      { script := st.script
          ++ [Descriptor.write R.REG_A7XX_SP_READ_SEL (sp_read_sel R block slice_id i j),
              Descriptor.read R.REG_A7XX_SP_AHB_READ_APERTURE block.size st.out]
        out := u64 (st.out + block.size * 4)
        regcount := st.regcount }
    rw [h1, h2, script_read_bytes_append]
    constructor
    · simp only [List.length_append, List.length_cons, List.length_nil]
      omega
    · simp only [script_read_bytes, List.map_cons, List.map_nil, Descriptor.read_dwords,
        List.sum_cons, List.sum_nil]
      ring

theorem a8xx_get_shader_block_sps_script (R : RegDefs) (block : gen8_shader_block)
    (slice_id n i : Nat) (st : Staging) :
    (a8xx_get_shader_block_sps R block slice_id n i st).script.length
        = st.script.length + 2 * (n * block.num_ctx) ∧
      script_read_bytes (a8xx_get_shader_block_sps R block slice_id n i st).script
        = script_read_bytes st.script + 4 * (n * block.num_ctx * block.size) := by
  induction n generalizing i st with
  | zero => simp [a8xx_get_shader_block_sps]
  | succ n ih =>
    rw [a8xx_get_shader_block_sps]
    obtain ⟨h1, h2⟩ := ih (i + 1)
      (a8xx_get_shader_block_ctx R block slice_id i block.num_ctx 0 st)
    obtain ⟨h3, h4⟩ := a8xx_get_shader_block_ctx_script R block slice_id i block.num_ctx 0 st
    rw [h1, h2, h3, h4]
    constructor <;> ring

/-- What `a8xx_get_shader_block` stages when the size check passes: two
descriptors for each SP and context and the terminator, with reads of
`4 * size * num_sps * num_ctx` bytes in all. -/
theorem a8xx_get_shader_block_staged (R : RegDefs) (env : Env) (w : World)
    (block : gen8_shader_block) (slice_id : Nat) (obj : a8xx_gpu_state_obj)
    (dumper : a8xx_crashdumper)
    (hsize : u64 (u32 (u32 (block.size * block.num_sps) * block.num_ctx) * 4)
      ≤ A8XX_CD_DATA_SIZE) :
    (a8xx_get_shader_block R env w block slice_id obj dumper).script.length
        = 2 * (block.num_sps * block.num_ctx) + 1 ∧
      script_read_bytes (a8xx_get_shader_block R env w block slice_id obj dumper).script
        = 4 * (block.num_sps * block.num_ctx * block.size) := by
  obtain ⟨h1, h2⟩ := a8xx_get_shader_block_sps_script R block slice_id block.num_sps 0
    { script := [], out := u64 (dumper.iova + A8XX_CD_DATA_OFFSET), regcount := 0 }
  unfold a8xx_get_shader_block
  simp only [if_neg (Nat.not_lt.mpr hsize)]
  split <;>
  · simp only [List.length_append, script_read_bytes_append, h1, h2]
    simp [script_read_bytes, Descriptor.read_dwords]

/-- A shader block whose 32-bit product wraps: `size = num_sps = 0x10000` and
`num_ctx = 1` have the 32-bit product 0, the size check passes, and the reads
staged ask for `2^34` bytes. -/
theorem a8xx_get_shader_block_overrun (R : RegDefs) (env : Env) (w : World)
    (slice_id : Nat) (obj : a8xx_gpu_state_obj) (dumper : a8xx_crashdumper) :
    script_read_bytes (a8xx_get_shader_block R env w
        { statetype := 0, size := 0x10000, num_sps := 0x10000, num_ctx := 1, pipeid := 0,
          location := 0, usptp_id := 0, slice_region := 0 } slice_id obj dumper).script
      = 2 ^ 34 := by
  rw [(a8xx_get_shader_block_staged R env w _ slice_id obj dumper (by decide)).2]
  rfl

/-! ### The size of the script -/

/-- C3 fails on the code: a register list of 512 one-register ranges (registers
0, 2, 4, ...) gets a script of 513 descriptors, 8208 bytes, which reaches past
`A8XX_CD_DATA_OFFSET` into the data part. -/
theorem a8xx_get_crashdumper_registers_script_overflow :
    ∃ r, a8xx_get_crashdumper_registers Env.quiet World.init
          { slice_region := 0
            regs := some (reg_array ((List.range 512).map (fun k => (2 * k, 2 * k)))) }
          0 a8xx_gpu_state_obj.zero a8xx_crashdumper.sample = some r ∧
      script_bytes r.script = 8208 ∧
      ¬ script_bytes r.script ≤ A8XX_CD_DATA_OFFSET := by
  have hp : ∀ p ∈ (List.range 512).map (fun k => (2 * k, 2 * k)),
      p.1 ≤ p.2 ∧ p.2 < UINT_MAX := by
    intro p hp
    obtain ⟨k, hk, rfl⟩ := List.mem_map.mp hp
    have := List.mem_range.mp hk
    simp only [UINT_MAX]
    omega
  obtain ⟨r, h1, h2, _⟩ := a8xx_get_crashdumper_registers_staged Env.quiet World.init 0 0
    a8xx_gpu_state_obj.zero a8xx_crashdumper.sample _ hp
  have hb : script_bytes r.script = 8208 := by
    rw [script_bytes_eq, h2, List.length_append, staged_reads_length]
    simp
  exact ⟨r, h1, hb, by rw [hb]; decide⟩

/-- C3 as amended: the script `a8xx_get_crashdumper_registers` writes for a
register list of `n` ranges occupies `16 * (n + 1)` bytes, and the script
`a8xx_get_shader_block` writes when its size check passes occupies
`32 * num_sps * num_ctx + 16` bytes; the script stays within the first
`A8XX_CD_DATA_OFFSET = 8192` bytes of the scratch region exactly when
`n <= 511`, respectively `num_sps * num_ctx <= 255`. -/
theorem crashdumper_script_bytes (R : RegDefs) (env : Env) (w : World)
    (region slice_id : Nat) (obj : a8xx_gpu_state_obj) (dumper : a8xx_crashdumper)
    (pairs : List (Nat × Nat)) (block : gen8_shader_block)
    (hp : ∀ p ∈ pairs, p.1 ≤ p.2 ∧ p.2 < UINT_MAX)
    (hsize : u64 (u32 (u32 (block.size * block.num_sps) * block.num_ctx) * 4)
      ≤ A8XX_CD_DATA_SIZE) :
    (∃ r, a8xx_get_crashdumper_registers env w
          { slice_region := region, regs := some (reg_array pairs) }
          slice_id obj dumper = some r ∧
        script_bytes r.script = 16 * (pairs.length + 1) ∧
        (script_bytes r.script ≤ A8XX_CD_DATA_OFFSET ↔ pairs.length ≤ 511)) ∧
      script_bytes (a8xx_get_shader_block R env w block slice_id obj dumper).script
        = 32 * (block.num_sps * block.num_ctx) + 16 ∧
      (script_bytes (a8xx_get_shader_block R env w block slice_id obj dumper).script
          ≤ A8XX_CD_DATA_OFFSET ↔ block.num_sps * block.num_ctx ≤ 255) := by
  obtain ⟨r, h1, h2, _⟩ :=
    a8xx_get_crashdumper_registers_staged env w region slice_id obj dumper pairs hp
  have hb : script_bytes r.script = 16 * (pairs.length + 1) := by
    rw [script_bytes_eq, h2, List.length_append, staged_reads_length]
    rfl
  have hs : script_bytes (a8xx_get_shader_block R env w block slice_id obj dumper).script
      = 32 * (block.num_sps * block.num_ctx) + 16 := by
    rw [script_bytes_eq, (a8xx_get_shader_block_staged R env w block slice_id obj dumper hsize).1]
    omega
  refine ⟨⟨r, h1, hb, ?_⟩, hs, ?_⟩
  · rw [hb]
    unfold A8XX_CD_DATA_OFFSET
    omega
  · rw [hs]
    unfold A8XX_CD_DATA_OFFSET
    omega

/-- C3 as amended, at a register list of two ranges (48 bytes of script) and a
shader block with 2 SPs and 3 contexts (208 bytes of script). -/
theorem crashdumper_script_bytes_witness :
    (∃ r, a8xx_get_crashdumper_registers Env.quiet World.init
          { slice_region := 0, regs := some (reg_array [(0x100, 0x103), (0x200, 0x200)]) }
          0 a8xx_gpu_state_obj.zero a8xx_crashdumper.sample = some r ∧
        script_bytes r.script = 48) ∧
      script_bytes (a8xx_get_shader_block RegDefs.zero Env.quiet World.init
        gen8_shader_block.sample 0 a8xx_gpu_state_obj.zero a8xx_crashdumper.sample).script
        = 208 := by
  have h := crashdumper_script_bytes RegDefs.zero Env.quiet World.init 0 0
    a8xx_gpu_state_obj.zero a8xx_crashdumper.sample [(0x100, 0x103), (0x200, 0x200)]
    gen8_shader_block.sample (by decide) (by decide)
  obtain ⟨⟨r, h1, h2, _⟩, h3, _⟩ := h
  exact ⟨⟨r, h1, h2⟩, h3⟩

/-! ### `a8xx_get_registers` without a crash dumper -/

/-- C6 fails on the code: with one AHB register list, a sliced first misc list
and slices 0 and 1, `FOR_EACH_SLICE` yields slices 0 and 1 for the first misc
list's own region, but `a8xx_get_registers` iterates over the region of
`reglist[1]` (the index the loop over the AHB lists left in `i`), which is
`UNSLICE`, and reads the first misc list once, not twice. -/
theorem a8xx_get_registers_stale_index :
    ∃ st w, a8xx_get_registers RegDefs.zero Env.quiet Tables.sample 3 World.init
          a8xx_gpu_state.zero none = some (st, w) ∧
      FOR_EACH_SLICE 1 3 = some [0, 1] ∧
      w.trace = [Event.a8xx_get_registers_called false, Event.kvzalloc 7 24,
        Event.kvzalloc 2 4, Event.gpu_read (Reg.offset 0x10),
        Event.gpu_read (Reg.offset 0x11),
        Event.kvzalloc 2 4, Event.gpu_read (Reg.offset 0x20),
        Event.gpu_read (Reg.offset 0x21)] ∧
      w.trace.count (Event.gpu_read (Reg.offset 0x20)) = 1 := by
  refine ⟨_, _, rfl, ?_, ?_, ?_⟩ <;> decide

/-! ### How the functions extend the trace -/

theorem Ext.refl (K : Event → Bool) (w : World) : Ext K w w :=
  ⟨[], by simp, by simp⟩

theorem Ext.trans {K : Event → Bool} {w1 w2 w3 : World} (h1 : Ext K w1 w2)
    (h2 : Ext K w2 w3) : Ext K w1 w3 := by
  obtain ⟨e1, he1, hk1⟩ := h1
  obtain ⟨e2, he2, hk2⟩ := h2
  refine ⟨e1 ++ e2, by rw [he2, he1, List.append_assoc], ?_⟩
  intro e he
  rcases List.mem_append.mp he with h | h
  · exact hk1 e h
  · exact hk2 e h

theorem Ext.emit {K : Event → Bool} (w : World) {e : Event} (h : K e = true) :
    Ext K w (w.emit e) :=
  ⟨[e], rfl, by simpa using h⟩

theorem Ext.mono {K K1 : Event → Bool} (hk : ∀ e, K e = true → K1 e = true)
    {w w1 : World} (h : Ext K w w1) : Ext K1 w w1 := by
  obtain ⟨evs, he, hK⟩ := h
  exact ⟨evs, he, fun e h => hk e (hK e h)⟩

theorem is_dumper_of_is_capture (e : Event) (h : e.is_capture = true) :
    e.is_dumper = true := by
  cases e <;> simp_all [Event.is_dumper, Event.is_capture]
  rename_i reg val
  cases reg <;> simp_all [Event.is_dumper, Event.is_capture]

theorem Ext.dumper {w w1 : World} (h : Ext Event.is_capture w w1) :
    Ext Event.is_dumper w w1 :=
  Ext.mono is_dumper_of_is_capture h

theorem ext_kvzalloc (w : World) (nr objsize : Nat) :
    Ext Event.is_capture w (w.emit (Event.kvzalloc nr objsize)) :=
  Ext.emit w rfl

theorem ext_gmu_read (w : World) (offset : Nat) :
    Ext Event.is_capture w (w.emit (Event.gmu_read offset)) :=
  Ext.emit w rfl

theorem ext_aperture_set (w : World) (pipe : Nat) :
    Ext Event.is_capture w (w.emit (Event.a8xx_aperture_set pipe)) :=
  Ext.emit w rfl

theorem ext_write_offset_zero (w : World) (offset : Nat) :
    Ext Event.is_capture w (gpu_write w (Reg.offset offset) 0) :=
  Ext.emit w rfl

theorem state_kcalloc_ext (env : Env) (w : World) (nr objsize : Nat) :
    Ext Event.is_capture w (state_kcalloc env w nr objsize).2 :=
  Ext.emit w rfl

theorem state_kmemdup_ext (env : Env) (w : World) (size : Nat) :
    Ext Event.is_capture w (state_kmemdup env w size).2 :=
  Ext.emit w rfl

theorem gpu_read_ext (env : Env) (w : World) (reg : Reg) :
    Ext Event.is_capture w (gpu_read env w reg).2 :=
  Ext.emit w rfl

theorem _aperture_slice_set_ext (R : RegDefs) (w : World) (pipe slice : Nat)
    (use_slice : Bool) :
    Ext Event.is_capture w (_aperture_slice_set R w pipe slice use_slice) := by
  unfold _aperture_slice_set
  simp only
  generalize (if use_slice = true then _ else _) = val
  by_cases h : w.cached_aperture = val
  · rw [if_pos h]
    exact Ext.refl _ _
  · rw [if_neg h]
    exact ⟨[Event.gpu_write Reg.A8XX_CP_APERTURE_CNTL_HOST val], rfl,
      by simp [Event.is_capture]⟩

theorem a8xx_get_ahb_gpu_registers_range_ext (env : Env) (reg n j : Nat) (rd : Reading) :
    Ext Event.is_capture rd.world (a8xx_get_ahb_gpu_registers_range env reg n j rd).world := by
  induction n generalizing j rd with
  | zero => exact Ext.refl _ _
  | succ n ih =>
    rw [a8xx_get_ahb_gpu_registers_range]
    exact Ext.trans (gpu_read_ext env rd.world _) (ih _ _)

/-- Induction over an array walked two entries at a time. -/
theorem pairs_induction {P : List Nat → Prop} (h0 : P []) (h1 : ∀ r, P [r])
    (h2 : ∀ r e rest, P rest → P (r :: e :: rest)) : ∀ l, P l := by
  intro l
  have key : ∀ n, ∀ l : List Nat, l.length ≤ n → P l := by
    intro n
    induction n with
    | zero =>
      intro l hl
      cases l with
      | nil => exact h0
      | cons a t => simp at hl
    | succ n ih =>
      intro l hl
      match l with
      | [] => exact h0
      | [r] => exact h1 r
      | r :: e :: rest =>
        apply h2
        apply ih
        simp only [List.length_cons] at hl
        omega
  exact key l.length l le_rfl

theorem a8xx_get_ahb_gpu_registers_loop_ext (env : Env) (regs : List Nat) :
    ∀ (rd rd1 : Reading), a8xx_get_ahb_gpu_registers_loop env regs rd = some rd1 →
      Ext Event.is_capture rd.world rd1.world := by
  induction regs using pairs_induction with
  | h0 => intro rd rd1 h; simp [a8xx_get_ahb_gpu_registers_loop] at h
  | h1 r =>
    intro rd rd1 h
    simp only [a8xx_get_ahb_gpu_registers_loop] at h
    split at h
    · exact Option.noConfusion h
    · cases h
      exact Ext.refl _ _
  | h2 r e rest ih =>
    intro rd rd1 h
    simp only [a8xx_get_ahb_gpu_registers_loop] at h
    split at h
    · exact Ext.trans (a8xx_get_ahb_gpu_registers_range_ext env r _ 0 rd) (ih _ _ h)
    · cases h
      exact Ext.refl _ _

theorem a8xx_get_ahb_gpu_registers_ext (env : Env) (w : World) (regs : List Nat)
    (obj obj1 : a8xx_gpu_state_obj) (w1 : World)
    (h : a8xx_get_ahb_gpu_registers env w regs obj = some (obj1, w1)) :
    Ext Event.is_capture w w1 := by
  unfold a8xx_get_ahb_gpu_registers at h
  split at h
  · exact Option.noConfusion h
  · rename_i regcount _
    simp only [state_kcalloc] at h
    split at h
    · cases h
      exact state_kcalloc_ext env w regcount 4
    · split at h
      · exact Option.noConfusion h
      · rename_i rd hrd
        split at h
        · exact Option.noConfusion h
        · cases h
          exact Ext.trans (state_kcalloc_ext env w regcount 4)
            (a8xx_get_ahb_gpu_registers_loop_ext env regs _ _ hrd)

theorem a8xx_get_ahb_gpu_reglist_ext (R : RegDefs) (env : Env) (w : World)
    (regs : gen8_reg_list) (slice_id : Nat) (obj obj1 : a8xx_gpu_state_obj) (w1 : World)
    (h : a8xx_get_ahb_gpu_reglist R env w regs slice_id obj = some (obj1, w1)) :
    Ext Event.is_capture w w1 := by
  unfold a8xx_get_ahb_gpu_reglist at h
  by_cases hr : regs.slice_region ≠ 0
  · simp only [if_pos hr] at h
    split at h
    · exact Option.noConfusion h
    · exact Ext.trans (_aperture_slice_set_ext R w slice_id 0 false)
        (a8xx_get_ahb_gpu_registers_ext env _ _ _ _ _ h)
  · simp only [if_neg hr] at h
    split at h
    · exact Option.noConfusion h
    · exact a8xx_get_ahb_gpu_registers_ext env _ _ _ _ _ h

theorem a8xx_get_registers_ahb_slices_ext (R : RegDefs) (env : Env) (regs : gen8_reg_list)
    (slices : List Nat) :
    ∀ (c c1 : Capture), a8xx_get_registers_ahb_slices R env regs slices c = some c1 →
      Ext Event.is_capture c.world c1.world := by
  induction slices with
  | nil =>
    intro c c1 h
    simp only [a8xx_get_registers_ahb_slices] at h
    cases h
    exact Ext.refl _ _
  | cons slice rest ih =>
    intro c c1 h
    simp only [a8xx_get_registers_ahb_slices] at h
    split at h
    · exact Option.noConfusion h
    · split at h
      · exact Option.noConfusion h
      · rename_i obj1 w1 hcall
        exact Ext.trans (a8xx_get_ahb_gpu_reglist_ext R env _ _ _ _ _ _ hcall) (ih _ _ h)

theorem a8xx_get_registers_pre_ext (R : RegDefs) (env : Env) (slice_mask : Nat)
    (pre : List gen8_reg_list) (table : List gen8_reg_list) :
    ∀ (i : Nat) (c : Capture) (i1 : Nat) (c1 : Capture),
      a8xx_get_registers_pre R env slice_mask pre table i c = some (i1, c1) →
      Ext Event.is_capture c.world c1.world := by
  induction table with
  | nil => intro i c i1 c1 h; simp [a8xx_get_registers_pre] at h
  | cons e rest ih =>
    intro i c i1 c1 h
    simp only [a8xx_get_registers_pre] at h
    split at h
    · cases h
      exact Ext.refl _ _
    · split at h
      · split at h
        · exact Option.noConfusion h
        · rename_i c2 hs
          exact Ext.trans (a8xx_get_registers_ahb_slices_ext R env _ _ _ _ hs) (ih _ _ _ _ h)
      · exact Option.noConfusion h

theorem a8xx_crashdumper_run_ext (env : Env) (w : World) (dumper : a8xx_crashdumper) :
    Ext Event.is_dumper w (a8xx_crashdumper_run env w dumper).2 := by
  unfold a8xx_crashdumper_run
  split
  · exact Ext.refl _ _
  · exact ⟨[Event.gpu_write64 Reg.A8XX_CP_CRASH_DUMP_SCRIPT_BASE dumper.iova,
        Event.gpu_write Reg.A8XX_CP_CRASH_DUMP_CNTL 1,
        Event.gpu_poll_timeout Reg.A8XX_CP_CRASH_DUMP_STATUS,
        Event.gpu_write Reg.A8XX_CP_CRASH_DUMP_CNTL 0],
      by simp [gpu_write, gpu_write64, World.emit, List.append_assoc],
      by simp [Event.is_dumper]⟩

theorem a8xx_get_crashdumper_registers_ext (env : Env) (w : World) (regs : gen8_reg_list)
    (slice_id : Nat) (obj : a8xx_gpu_state_obj) (dumper : a8xx_crashdumper) (r : Staged)
    (h : a8xx_get_crashdumper_registers env w regs slice_id obj dumper = some r) :
    Ext Event.is_dumper w r.world := by
  unfold a8xx_get_crashdumper_registers at h
  split at h
  · exact Option.noConfusion h
  · split at h
    · exact Option.noConfusion h
    · split at h
      · cases h
        exact Ext.emit w rfl
      · split at h
        rename_i ret w1 hrun
        have hr := a8xx_crashdumper_run_ext env w dumper
        rw [hrun] at hr
        split at h
        · cases h
          exact hr
        · simp only [state_kmemdup, state_kcalloc] at h
          cases h
          exact Ext.trans hr (Ext.emit _ rfl)

theorem a8xx_get_registers_cd_slices_ext (env : Env) (regs : gen8_reg_list)
    (dumper : a8xx_crashdumper) (slices : List Nat) :
    ∀ (c c1 : Capture), a8xx_get_registers_cd_slices env regs dumper slices c = some c1 →
      Ext Event.is_dumper c.world c1.world := by
  induction slices with
  | nil =>
    intro c c1 h
    simp only [a8xx_get_registers_cd_slices] at h
    cases h
    exact Ext.refl _ _
  | cons slice rest ih =>
    intro c c1 h
    simp only [a8xx_get_registers_cd_slices] at h
    split at h
    · exact Option.noConfusion h
    · split at h
      · exact Option.noConfusion h
      · rename_i r hcall
        exact Ext.trans (a8xx_get_crashdumper_registers_ext env _ _ _ _ _ _ hcall) (ih _ _ h)

theorem a8xx_get_registers_cd_ext (env : Env) (slice_mask : Nat) (dumper : a8xx_crashdumper)
    (table : List gen8_reg_list) :
    ∀ (c c1 : Capture), a8xx_get_registers_cd env slice_mask dumper table c = some c1 →
      Ext Event.is_dumper c.world c1.world := by
  induction table with
  | nil => intro c c1 h; simp [a8xx_get_registers_cd] at h
  | cons e rest ih =>
    intro c c1 h
    simp only [a8xx_get_registers_cd] at h
    split at h
    · cases h
      exact Ext.refl _ _
    · split at h
      · exact Option.noConfusion h
      · split at h
        · exact Option.noConfusion h
        · rename_i c2 hs
          exact Ext.trans (a8xx_get_registers_cd_slices_ext env _ _ _ _ _ hs) (ih _ _ h)

/-- Function `a8xx_get_registers` marks its call, then makes capture events only when it
has no dumper; it leaves the shader fields alone. -/
theorem a8xx_get_registers_ext (R : RegDefs) (env : Env) (T : Tables) (slice_mask : Nat)
    (w : World) (st : a8xx_gpu_state) (dumper : Option a8xx_crashdumper)
    (st1 : a8xx_gpu_state) (w1 : World)
    (h : a8xx_get_registers R env T slice_mask w st dumper = some (st1, w1)) :
    Ext (if dumper.isSome then Event.is_dumper else Event.is_capture)
        (w.emit (Event.a8xx_get_registers_called dumper.isSome)) w1 ∧
      st1.nr_shaders = st.nr_shaders ∧ st1.shaders = st.shaders ∧
      st1.gpu_initialized = st.gpu_initialized := by
  unfold a8xx_get_registers at h
  simp only at h
  split at h
  · exact Option.noConfusion h
  · split at h
    · exact Option.noConfusion h
    · rename_i count1 _ i0 count2 _
      simp only [state_kcalloc] at h
      split at h
      · cases h
        refine ⟨?_, rfl, rfl, rfl⟩
        cases dumper
        · exact state_kcalloc_ext env _ count2 24
        · exact Ext.dumper (state_kcalloc_ext env _ count2 24)
      · split at h
        · exact Option.noConfusion h
        · rename_i i c hpre
          have hp := a8xx_get_registers_pre_ext R env _ _ _ _ _ _ _ hpre
          have hk : Ext Event.is_capture
              (w.emit (Event.a8xx_get_registers_called dumper.isSome)) c.world :=
            Ext.trans (state_kcalloc_ext env _ count2 24) hp
          cases dumper with
          | none =>
            simp only at h
            split at h
            · split at h
              · exact Option.noConfusion h
              · split at h
                · exact Option.noConfusion h
                · rename_i c1 hs
                  cases h
                  exact ⟨Ext.trans hk (a8xx_get_registers_ahb_slices_ext R env _ _ _ _ hs),
                    rfl, rfl, rfl⟩
            · exact Option.noConfusion h
          | some d =>
            simp only at h
            split at h
            · exact Option.noConfusion h
            · rename_i c1 hs
              cases h
              exact ⟨Ext.trans (Ext.dumper hk) (a8xx_get_registers_cd_ext env _ _ _ _ _ hs),
                rfl, rfl, rfl⟩

theorem a8xx_get_shader_block_ext (R : RegDefs) (env : Env) (w : World)
    (block : gen8_shader_block) (slice_id : Nat) (obj : a8xx_gpu_state_obj)
    (dumper : a8xx_crashdumper) :
    Ext Event.is_dumper w (a8xx_get_shader_block R env w block slice_id obj dumper).world := by
  unfold a8xx_get_shader_block
  simp only
  have hr := a8xx_crashdumper_run_ext env w dumper
  split
  · exact Ext.emit w rfl
  · split
    · exact hr
    · simp only [state_kmemdup, state_kcalloc]
      exact Ext.trans hr (Ext.dumper (ext_kvzalloc _ _ _))

theorem a8xx_get_shaders_slices_ext (R : RegDefs) (env : Env) (block : gen8_shader_block)
    (dumper : a8xx_crashdumper) (slices : List Nat) :
    ∀ (obj : a8xx_gpu_state_obj) (w : World),
      Ext Event.is_dumper w (a8xx_get_shaders_slices R env block dumper slices obj w).2 := by
  induction slices with
  | nil => intro obj w; exact Ext.refl _ _
  | cons slice rest ih =>
    intro obj w
    rw [a8xx_get_shaders_slices]
    exact Ext.trans (a8xx_get_shader_block_ext R env w block slice obj dumper) (ih _ _)

theorem a8xx_get_shaders_loop_ext (R : RegDefs) (env : Env) (slice_mask : Nat)
    (dumper : a8xx_crashdumper) (blocks : List gen8_shader_block) :
    ∀ (objs : List a8xx_gpu_state_obj) (w : World) (objs1 : List a8xx_gpu_state_obj)
      (w1 : World),
      a8xx_get_shaders_loop R env slice_mask dumper blocks objs w = some (objs1, w1) →
      Ext Event.is_dumper w w1 := by
  induction blocks with
  | nil =>
    intro objs w objs1 w1 h
    simp only [a8xx_get_shaders_loop] at h
    cases h
    exact Ext.refl _ _
  | cons block rest ih =>
    intro objs w objs1 w1 h
    simp only [a8xx_get_shaders_loop] at h
    split at h
    · exact Option.noConfusion h
    · rename_i slices _
      exact Ext.trans (a8xx_get_shaders_slices_ext R env block dumper slices _ w) (ih _ _ _ _ h)

theorem a8xx_get_shaders_ext (R : RegDefs) (env : Env) (T : Tables) (slice_mask : Nat)
    (w : World) (st : a8xx_gpu_state) (dumper : a8xx_crashdumper)
    (st1 : a8xx_gpu_state) (w1 : World)
    (h : a8xx_get_shaders R env T slice_mask w st dumper = some (st1, w1)) :
    Ext Event.is_dumper (w.emit Event.a8xx_get_shaders_called) w1 := by
  unfold a8xx_get_shaders at h
  simp only [state_kcalloc] at h
  split at h
  · cases h
    exact Ext.dumper (ext_kvzalloc _ _ _)
  · split at h
    · exact Option.noConfusion h
    · rename_i objs w2 hl
      cases h
      exact Ext.trans (Ext.dumper (state_kcalloc_ext env _ _ 24))
        (a8xx_get_shaders_loop_ext R env _ _ _ _ _ _ _ hl)

theorem _a8xx_get_gmu_registers_range_ext (env : Env) (reg n j : Nat) (rd : Reading) :
    Ext Event.is_capture rd.world (_a8xx_get_gmu_registers_range env reg n j rd).world := by
  induction n generalizing j rd with
  | zero => exact Ext.refl _ _
  | succ n ih =>
    rw [_a8xx_get_gmu_registers_range]
    exact Ext.trans (ext_gmu_read rd.world _) (ih _ _)

theorem _a8xx_get_gmu_registers_loop_ext (env : Env) (regs : List Nat) :
    ∀ (rd rd1 : Reading), _a8xx_get_gmu_registers_loop env regs rd = some rd1 →
      Ext Event.is_capture rd.world rd1.world := by
  induction regs using pairs_induction with
  | h0 => intro rd rd1 h; simp [_a8xx_get_gmu_registers_loop] at h
  | h1 r =>
    intro rd rd1 h
    simp only [_a8xx_get_gmu_registers_loop] at h
    split at h
    · exact Option.noConfusion h
    · cases h
      exact Ext.refl _ _
  | h2 r e rest ih =>
    intro rd rd1 h
    simp only [_a8xx_get_gmu_registers_loop] at h
    split at h
    · exact Ext.trans (_a8xx_get_gmu_registers_range_ext env r _ 0 rd) (ih _ _ h)
    · cases h
      exact Ext.refl _ _

theorem _a8xx_get_gmu_registers_ext (env : Env) (w : World) (regs : List Nat)
    (obj obj1 : a8xx_gpu_state_obj) (w1 : World)
    (h : _a8xx_get_gmu_registers env w regs obj = some (obj1, w1)) :
    Ext Event.is_capture w w1 := by
  unfold _a8xx_get_gmu_registers at h
  split at h
  · exact Option.noConfusion h
  · rename_i regcount _
    simp only [state_kcalloc] at h
    split at h
    · cases h
      exact state_kcalloc_ext env w regcount 4
    · split at h
      · exact Option.noConfusion h
      · rename_i rd hrd
        split at h
        · exact Option.noConfusion h
        · cases h
          exact Ext.trans (state_kcalloc_ext env w regcount 4)
            (_a8xx_get_gmu_registers_loop_ext env regs _ _ hrd)

/-- Function `a8xx_get_gmu_registers` makes capture events and sets the GMU fields
only. -/
theorem a8xx_get_gmu_registers_ext (env : Env) (T : Tables) (w : World)
    (st st1 : a8xx_gpu_state) (w1 : World)
    (h : a8xx_get_gmu_registers env T w st = some (st1, w1)) :
    Ext Event.is_capture w w1 ∧
      st1.nr_indexed_regs = st.nr_indexed_regs ∧ st1.nr_registers = st.nr_registers ∧
      st1.nr_shaders = st.nr_shaders ∧ st1.gpu_initialized = st.gpu_initialized ∧
      st1.indexed_regs = st.indexed_regs ∧ st1.registers = st.registers ∧
      st1.shaders = st.shaders := by
  unfold a8xx_get_gmu_registers at h
  simp only [state_kcalloc] at h
  split at h
  · cases h
    exact ⟨state_kcalloc_ext env w 1 24, rfl, rfl, rfl, rfl, rfl, rfl, rfl⟩
  · split at h
    · exact Option.noConfusion h
    · rename_i obj w2 hg
      cases h
      exact ⟨Ext.trans (state_kcalloc_ext env w 1 24)
        (_a8xx_get_gmu_registers_ext env _ _ _ _ _ hg), rfl, rfl, rfl, rfl, rfl, rfl, rfl⟩

theorem a8xx_snapshot_gmu_bo_ext (env : Env) (T : Tables) (w : World) (bo : a6xx_gmu_bo) :
    Ext Event.is_capture w (a8xx_snapshot_gmu_bo env T w bo).2 := by
  unfold a8xx_snapshot_gmu_bo
  simp only [state_kcalloc]
  split
  · exact Ext.refl _ _
  · split
    · exact ext_kvzalloc w _ _
    · split
      · exact Ext.trans (ext_kvzalloc w _ _) (ext_kvzalloc _ _ _)
      · exact Ext.trans (ext_kvzalloc w _ _) (ext_kvzalloc _ _ _)

theorem a8xx_get_indexed_regs_loop_ext (env : Env) (data n : Nat) (rd : Reading) :
    Ext Event.is_capture rd.world (a8xx_get_indexed_regs_loop env data n rd).world := by
  induction n generalizing rd with
  | zero => exact Ext.refl _ _
  | succ n ih =>
    rw [a8xx_get_indexed_regs_loop]
    exact Ext.trans (gpu_read_ext env rd.world _) (ih _)

theorem a8xx_get_indexed_regs_ext (env : Env) (w : World) (indexed : a8xx_indexed_registers)
    (slice : Nat) (obj : a8xx_gpu_state_obj) :
    Ext Event.is_capture w (a8xx_get_indexed_regs env w indexed slice obj).2 := by
  unfold a8xx_get_indexed_regs
  simp only [state_kcalloc]
  split
  · exact ext_kvzalloc w _ _
  · exact Ext.trans (Ext.trans (ext_kvzalloc w _ _) (ext_write_offset_zero _ _))
      (a8xx_get_indexed_regs_loop_ext env _ _ _)

theorem a8xx_get_indexed_registers_loop_ext (env : Env)
    (table : List a8xx_indexed_registers) :
    ∀ (objs : List a8xx_gpu_state_obj) (w : World),
      Ext Event.is_capture w (a8xx_get_indexed_registers_loop env table objs w).2 := by
  induction table with
  | nil => intro objs w; exact Ext.refl _ _
  | cons indexed rest ih =>
    intro objs w
    rw [a8xx_get_indexed_registers_loop]
    exact Ext.trans (Ext.trans (ext_aperture_set w _)
      (a8xx_get_indexed_regs_ext env _ indexed 0 _)) (ih _ _)

/-- Function `a8xx_get_indexed_registers` makes capture events and leaves the register
and shader fields alone. -/
theorem a8xx_get_indexed_registers_ext (env : Env) (T : Tables) (slice_mask : Nat)
    (w : World) (st : a8xx_gpu_state) :
    Ext Event.is_capture w (a8xx_get_indexed_registers env T slice_mask w st).2 ∧
      (a8xx_get_indexed_registers env T slice_mask w st).1.nr_shaders = st.nr_shaders ∧
      (a8xx_get_indexed_registers env T slice_mask w st).1.shaders = st.shaders := by
  unfold a8xx_get_indexed_registers
  simp only [state_kcalloc]
  split
  · exact ⟨ext_kvzalloc w _ _, rfl, rfl⟩
  · exact ⟨Ext.trans (Ext.trans (ext_kvzalloc w _ _)
      (a8xx_get_indexed_registers_loop_ext env _ _ _)) (ext_aperture_set _ _), rfl, rfl⟩

/-! ### The events of `a8xx_gpu_state_get` -/

theorem Ext.all_of {K : Event → Bool} {w w1 : World} (h : Ext K w w1) :
    ∃ evs, w1.trace = w.trace ++ evs ∧ all_of K evs := h

theorem a8xx_crashdumper_init_trace (env : Env) (w : World) :
    (a8xx_crashdumper_init env w).2.2.trace
      = w.trace ++ [Event.msm_gem_kernel_new SZ_1M,
          Event.a8xx_crashdumper_init_returned (a8xx_crashdumper_init env w).1] := by
  simp [a8xx_crashdumper_init, World.emit]

/-- The events of the part of `a8xx_gpu_state_get` after the GX check: the
indexed registers, then either no `a8xx_crashdumper_init` or one that failed
and `a8xx_get_registers` without a dumper, or an `a8xx_crashdumper_init` that
returned 0 and `a8xx_get_registers` and `a8xx_get_shaders` with the dumper. -/
theorem a8xx_gpu_state_get_gx_shape (R : RegDefs) (env : Env) (T : Tables) (gpu : msm_gpu)
    (stalled : Bool) (st : a8xx_gpu_state) (w : World) (st1 : a8xx_gpu_state) (w1 : World)
    (h : a8xx_gpu_state_get_gx R env T gpu stalled st w = some (st1, w1)) :
    ∃ B C, all_of Event.is_capture B ∧
      (((stalled = true ∨ gpu.needs_hw_init = true) ∧ all_of Event.is_capture C ∧
          st1.nr_shaders = st.nr_shaders ∧
          w1.trace = w.trace ++ B ++ [Event.a8xx_get_registers_called false] ++ C) ∨
        (stalled = false ∧ gpu.needs_hw_init = false ∧ all_of Event.is_capture C ∧
          st1.nr_shaders = st.nr_shaders ∧
          ∃ ret, ret ≠ 0 ∧
            w1.trace = w.trace ++ B ++ [Event.msm_gem_kernel_new SZ_1M,
              Event.a8xx_crashdumper_init_returned ret,
              Event.a8xx_get_registers_called false] ++ C) ∨
        (stalled = false ∧ gpu.needs_hw_init = false ∧ all_of Event.is_dumper C ∧
          ∃ D, all_of Event.is_dumper D ∧
            w1.trace = w.trace ++ B ++ [Event.msm_gem_kernel_new SZ_1M,
              Event.a8xx_crashdumper_init_returned 0,
              Event.a8xx_get_registers_called true] ++ C
              ++ [Event.a8xx_get_shaders_called] ++ D ++ [Event.msm_gem_kernel_put])) := by
  unfold a8xx_gpu_state_get_gx at h
  obtain ⟨hI, hIs, _⟩ := a8xx_get_indexed_registers_ext env T gpu.slice_mask w st
  obtain ⟨B, hB, hBk⟩ := hI
  generalize a8xx_get_indexed_registers env T gpu.slice_mask w st = ir at h hIs hB
  obtain ⟨sti, wi⟩ := ir
  simp only at h hIs hB
  by_cases hc : (!stalled && !gpu.needs_hw_init) = true
  · have hs : stalled = false := by
      cases stalled <;> simp_all
    have hn : gpu.needs_hw_init = false := by
      cases hh : gpu.needs_hw_init <;> simp_all
    rw [if_pos hc] at h
    have hit := a8xx_crashdumper_init_trace env wi
    generalize a8xx_crashdumper_init env wi = ini at h hit
    obtain ⟨ret, d, w2⟩ := ini
    simp only at h hit
    by_cases hret : ret = 0
    · subst hret
      simp only [if_true] at h
      split at h
      · exact Option.noConfusion h
      · rename_i st2 w3 hreg
        split at h
        · exact Option.noConfusion h
        · rename_i st3 w4 hsh
          cases h
          obtain ⟨⟨C, hC, hCk⟩, _, _, _⟩ := a8xx_get_registers_ext R env T _ _ _ _ _ _ hreg
          obtain ⟨D, hD, hDk⟩ := a8xx_get_shaders_ext R env T _ _ _ _ _ _ hsh
          refine ⟨B, C, hBk, Or.inr (Or.inr ⟨hs, hn, hCk, D, hDk, ?_⟩)⟩
          simp only [World.emit, Option.isSome] at hC hD ⊢
          rw [hD, hC, hit, hB]
          simp [List.append_assoc]
    · simp only [if_neg hret] at h
      split at h
      · exact Option.noConfusion h
      · rename_i st2 w3 hreg
        cases h
        obtain ⟨⟨C, hC, hCk⟩, hsh, _, _⟩ := a8xx_get_registers_ext R env T _ _ _ _ _ _ hreg
        refine ⟨B, C, hBk, Or.inr (Or.inl ⟨hs, hn, hCk, ?_, ret, hret, ?_⟩)⟩
        · simp only
          rw [hsh, hIs]
        · simp only [World.emit, Option.isSome] at hC ⊢
          rw [hC, hit, hB]
          simp [List.append_assoc]
  · rw [if_neg hc] at h
    have hsn : stalled = true ∨ gpu.needs_hw_init = true := by
      cases stalled <;> cases hh : gpu.needs_hw_init <;> simp_all
    simp only at h
    split at h
    · exact Option.noConfusion h
    · rename_i st2 w3 hreg
      cases h
      obtain ⟨⟨C, hC, hCk⟩, hsh, _, _⟩ := a8xx_get_registers_ext R env T _ _ _ _ _ _ hreg
      refine ⟨B, C, hBk, Or.inl ⟨hsn, hCk, ?_, ?_⟩⟩
      · simp only
        rw [hsh, hIs]
      · simp only [World.emit, Option.isSome] at hC ⊢
        rw [hC, hB]

theorem World.time_emit (w : World) (e : Event) : (w.emit e).time = w.time + 1 := by
  simp [World.time, World.emit]

theorem not_mem_of_all_of {K : Event → Bool} {evs : List Event} (h : all_of K evs)
    {e : Event} (he : K e = false) : e ∉ evs := by
  intro hm
  rw [h e hm] at he
  exact Bool.noConfusion he

theorem all_of_gmu_of_capture {evs : List Event} (h : all_of Event.is_capture evs) :
    all_of Event.is_gmu evs := by
  intro e he
  have := h e he
  cases e <;> simp_all [Event.is_gmu, Event.is_capture]

theorem all_of_append {K : Event → Bool} {xs ys : List Event} (hx : all_of K xs)
    (hy : all_of K ys) : all_of K (xs ++ ys) := by
  intro e he
  rcases List.mem_append.mp he with h | h
  · exact hx e h
  · exact hy e h

/-- The events of `a8xx_gpu_state_get`: up to the GX check they are the
allocation of the state, the read of `RBBM_MISC_STATUS`, the generic state and
the capture of the GMU data; when GX is off the function returns there with
the register, shader and indexed register fields as `kzalloc` left them. -/
theorem a8xx_gpu_state_get_shape (R : RegDefs) (env : Env) (T : Tables) (gpu : msm_gpu)
    (w : World) (r : StateResult) (w1 : World)
    (h : a8xx_gpu_state_get R env T gpu w = some (r, w1)) :
    ∃ A, all_of Event.is_gmu A ∧
      ((r = StateResult.err_ptr (-ENOMEM) ∧ w1.trace = w.trace ++ A) ∨
        (∃ st, r = StateResult.state st ∧
          w1.trace = w.trace ++ A ++ [Event.a6xx_gmu_gx_is_on false] ∧
          st.nr_indexed_regs = 0 ∧ st.nr_registers = 0 ∧ st.nr_shaders = 0 ∧
          st.gpu_initialized = false ∧ st.indexed_regs = none ∧ st.registers = none ∧
          st.shaders = none) ∨
        (∃ st st0 w0, r = StateResult.state st ∧
          a8xx_gpu_state_get_gx R env T gpu (stalled_at R env w) st0 w0 = some (st, w1) ∧
          w0.trace = w.trace ++ A ++ [Event.a6xx_gmu_gx_is_on true] ∧
          st0.nr_shaders = 0)) := by
  unfold a8xx_gpu_state_get at h
  simp only [gpu_read, World.time_emit] at h
  split at h
  · cases h
    refine ⟨[Event.kzalloc, Event.gpu_read Reg.A8XX_RBBM_MISC_STATUS], ?_, Or.inl ⟨rfl, ?_⟩⟩
    · intro e he
      simp only [List.mem_cons, List.mem_singleton, List.not_mem_nil, or_false] at he
      rcases he with rfl | rfl <;> rfl
    · simp [World.emit]
  · split at h
    · exact Option.noConfusion h
    · rename_i st1 wg hg
      obtain ⟨⟨G, hG, hGk⟩, h1, h2, h3, h4, h5, h6, h7⟩ :=
        a8xx_get_gmu_registers_ext env T _ _ _ _ hg
      obtain ⟨L1, hL1, hL1k⟩ := a8xx_snapshot_gmu_bo_ext env T wg gpu.gmu_log
      generalize a8xx_snapshot_gmu_bo env T wg gpu.gmu_log = s1 at h hL1
      obtain ⟨log, wl⟩ := s1
      obtain ⟨L2, hL2, hL2k⟩ := a8xx_snapshot_gmu_bo_ext env T wl gpu.gmu_hfi
      generalize a8xx_snapshot_gmu_bo env T wl gpu.gmu_hfi = s2 at h hL2
      obtain ⟨hfi, wh⟩ := s2
      obtain ⟨L3, hL3, hL3k⟩ := a8xx_snapshot_gmu_bo_ext env T wh gpu.gmu_debug
      generalize a8xx_snapshot_gmu_bo env T wh gpu.gmu_debug = s3 at h hL3
      obtain ⟨debug, wd⟩ := s3
      simp only at h hL1 hL2 hL3
      have hA : all_of Event.is_gmu
          ([Event.kzalloc, Event.gpu_read Reg.A8XX_RBBM_MISC_STATUS,
            Event.adreno_gpu_state_get] ++ G ++ L1 ++ L2 ++ L3) := by
        refine all_of_append (all_of_append (all_of_append (all_of_append ?_
          (all_of_gmu_of_capture hGk)) (all_of_gmu_of_capture hL1k))
          (all_of_gmu_of_capture hL2k)) (all_of_gmu_of_capture hL3k)
        intro e he
        simp only [List.mem_cons, List.mem_singleton, List.not_mem_nil, or_false] at he
        rcases he with rfl | rfl | rfl <;> rfl
      have htr : wd.trace = w.trace ++
          ([Event.kzalloc, Event.gpu_read Reg.A8XX_RBBM_MISC_STATUS,
            Event.adreno_gpu_state_get] ++ G ++ L1 ++ L2 ++ L3) := by
        rw [hL3, hL2, hL1, hG]
        simp [World.emit, List.append_assoc]
      refine ⟨_, hA, ?_⟩
      split at h
      · rename_i hgx
        cases h
        have hgx2 : env.a6xx_gmu_gx_is_on wd.time = false := by simpa using hgx
        refine Or.inr (Or.inl ⟨_, rfl, ?_, ?_⟩)
        · simp only [World.emit, htr, hgx2]
        · simp only [h1, h2, h3, h4, h5, h6, h7]
          exact ⟨rfl, rfl, rfl, rfl, rfl, rfl, rfl⟩
      · rename_i hgx
        have hgx2 : env.a6xx_gmu_gx_is_on wd.time = true := by simpa using hgx
        split at h
        · exact Option.noConfusion h
        · rename_i st2 w2 hrest
          cases h
          refine Or.inr (Or.inr ⟨st2, _, _, rfl, hrest, ?_, ?_⟩)
          · simp only [World.emit, htr, hgx2]
          · simp only [h3]
            rfl

/-- C4: when `a8xx_gpu_state_get` returns a state (so the state object was
allocated) and the answer of `a6xx_gmu_gx_is_on` was false, then
`nr_indexed_regs`, `nr_registers` and `nr_shaders` are 0, `gpu_initialized` is
false, the register, shader and indexed register arrays are `NULL`, and the
crash dumper was neither initialised (no `msm_gem_kernel_new`, no return of
`a8xx_crashdumper_init`) nor run (no write of 1 to `CP_CRASH_DUMP_CNTL`). -/
theorem a8xx_gpu_state_get_gx_off (R : RegDefs) (env : Env) (T : Tables) (gpu : msm_gpu)
    (w : World) (st : a8xx_gpu_state) (w1 : World)
    (h : a8xx_gpu_state_get R env T gpu w = some (StateResult.state st, w1)) :
    ∃ evs, w1.trace = w.trace ++ evs ∧
      (Event.a6xx_gmu_gx_is_on false ∈ evs →
        st.nr_indexed_regs = 0 ∧ st.nr_registers = 0 ∧ st.nr_shaders = 0 ∧
        st.gpu_initialized = false ∧
        st.indexed_regs = none ∧ st.registers = none ∧ st.shaders = none ∧
        Event.msm_gem_kernel_new SZ_1M ∉ evs ∧
        (∀ ret, Event.a8xx_crashdumper_init_returned ret ∉ evs) ∧
        ¬ triggers_crashdumper evs) := by
  obtain ⟨A, hA, hcase⟩ := a8xx_gpu_state_get_shape R env T gpu w _ w1 h
  rcases hcase with ⟨hr, _⟩ | ⟨st', hr, htr, h1, h2, h3, h4, h5, h6, h7⟩ |
    ⟨st', st0, w0, hr, hgx, htr, _⟩
  · exact StateResult.noConfusion hr
  · cases hr
    refine ⟨A ++ [Event.a6xx_gmu_gx_is_on false], by rw [htr, List.append_assoc], ?_⟩
    intro _
    refine ⟨h1, h2, h3, h4, h5, h6, h7, ?_, ?_, ?_⟩
    · simp [not_mem_of_all_of hA (e := Event.msm_gem_kernel_new SZ_1M) rfl]
    · intro ret
      simp [not_mem_of_all_of hA (e := Event.a8xx_crashdumper_init_returned ret) rfl]
    · simp [triggers_crashdumper,
        not_mem_of_all_of hA (e := Event.gpu_write Reg.A8XX_CP_CRASH_DUMP_CNTL 1) rfl]
  · cases hr
    obtain ⟨B, C, hB, hshape⟩ := a8xx_gpu_state_get_gx_shape R env T gpu _ _ _ _ _ hgx
    have hAn := not_mem_of_all_of hA (e := Event.a6xx_gmu_gx_is_on false) rfl
    have hBn := not_mem_of_all_of hB (e := Event.a6xx_gmu_gx_is_on false) rfl
    rcases hshape with ⟨_, hC, _, ht⟩ | ⟨_, _, hC, _, ret, _, ht⟩ | ⟨_, _, hC, D, hD, ht⟩
    · have hCn := not_mem_of_all_of hC (e := Event.a6xx_gmu_gx_is_on false) rfl
      refine ⟨A ++ [Event.a6xx_gmu_gx_is_on true] ++ B
        ++ [Event.a8xx_get_registers_called false] ++ C, by
          rw [ht, htr]; simp [List.append_assoc], ?_⟩
      intro hm
      simp [hAn, hBn, hCn] at hm
    · have hCn := not_mem_of_all_of hC (e := Event.a6xx_gmu_gx_is_on false) rfl
      refine ⟨A ++ [Event.a6xx_gmu_gx_is_on true] ++ B
        ++ [Event.msm_gem_kernel_new SZ_1M, Event.a8xx_crashdumper_init_returned ret,
          Event.a8xx_get_registers_called false] ++ C, by
          rw [ht, htr]; simp [List.append_assoc], ?_⟩
      intro hm
      simp [hAn, hBn, hCn] at hm
    · have hCn := not_mem_of_all_of hC (e := Event.a6xx_gmu_gx_is_on false) rfl
      have hDn := not_mem_of_all_of hD (e := Event.a6xx_gmu_gx_is_on false) rfl
      refine ⟨A ++ [Event.a6xx_gmu_gx_is_on true] ++ B
        ++ [Event.msm_gem_kernel_new SZ_1M, Event.a8xx_crashdumper_init_returned 0,
          Event.a8xx_get_registers_called true] ++ C
        ++ [Event.a8xx_get_shaders_called] ++ D ++ [Event.msm_gem_kernel_put], by
          rw [ht, htr]; simp [List.append_assoc], ?_⟩
      intro hm
      simp [hAn, hBn, hCn, hDn] at hm

/-- C4 at the sample tables and GPU with GX off: the function returns a state
with the three counts 0 and makes no crash dumper event. -/
theorem a8xx_gpu_state_get_gx_off_witness :
    ∃ st w1, a8xx_gpu_state_get RegDefs.sample Env.gx_off Tables.sample msm_gpu.sample
          World.init = some (StateResult.state st, w1) ∧
      Event.a6xx_gmu_gx_is_on false ∈ w1.trace ∧
      st.nr_indexed_regs = 0 ∧ st.nr_registers = 0 ∧ st.nr_shaders = 0 ∧
      st.gpu_initialized = false ∧ ¬ triggers_crashdumper w1.trace := by
  refine ⟨_, _, rfl, by decide, ?_⟩
  obtain ⟨evs, htr, himp⟩ := a8xx_gpu_state_get_gx_off RegDefs.sample Env.gx_off
    Tables.sample msm_gpu.sample World.init _ _ rfl
  have hm : Event.a6xx_gmu_gx_is_on false ∈ World.init.trace ++ evs := htr ▸ (by decide)
  obtain ⟨h1, h2, h3, h4, _, _, _, _, _, h5⟩ := himp (by simpa [World.init] using hm)
  refine ⟨h1, h2, h3, h4, ?_⟩
  rw [htr]
  simpa [World.init] using h5

/-- C5: when `a8xx_gpu_state_get` returns a state and the answer of
`a6xx_gmu_gx_is_on` was true, it calls `a8xx_get_registers` with the dumper and
`a8xx_get_shaders` if and only if the `SMMU_STALLED_ON_FAULT` bit read was
clear, `gpu->needs_hw_init` is false and `a8xx_crashdumper_init` returned 0;
in every other case it calls `a8xx_get_registers` without a dumper, never
calls `a8xx_get_shaders`, never writes 1 to `CP_CRASH_DUMP_CNTL`, and
`nr_shaders` stays 0. -/
theorem a8xx_gpu_state_get_dumper_use (R : RegDefs) (env : Env) (T : Tables)
    (gpu : msm_gpu) (w : World) (st : a8xx_gpu_state) (w1 : World)
    (h : a8xx_gpu_state_get R env T gpu w = some (StateResult.state st, w1)) :
    ∃ evs, w1.trace = w.trace ++ evs ∧
      (Event.a6xx_gmu_gx_is_on true ∈ evs →
        ((Event.a8xx_get_registers_called true ∈ evs ∧
            Event.a8xx_get_shaders_called ∈ evs) ↔
          (stalled_at R env w = false ∧ gpu.needs_hw_init = false ∧
            Event.a8xx_crashdumper_init_returned 0 ∈ evs)) ∧
        (¬ (stalled_at R env w = false ∧ gpu.needs_hw_init = false ∧
            Event.a8xx_crashdumper_init_returned 0 ∈ evs) →
          Event.a8xx_get_registers_called false ∈ evs ∧
          Event.a8xx_get_registers_called true ∉ evs ∧
          Event.a8xx_get_shaders_called ∉ evs ∧
          ¬ triggers_crashdumper evs ∧ st.nr_shaders = 0)) := by
  obtain ⟨A, hA, hcase⟩ := a8xx_gpu_state_get_shape R env T gpu w _ w1 h
  rcases hcase with ⟨hr, _⟩ | ⟨st', hr, htr, _⟩ | ⟨st', st0, w0, hr, hgx, htr, hz⟩
  · exact StateResult.noConfusion hr
  · refine ⟨A ++ [Event.a6xx_gmu_gx_is_on false], by rw [htr, List.append_assoc], ?_⟩
    intro hm
    simp [not_mem_of_all_of hA (e := Event.a6xx_gmu_gx_is_on true) rfl] at hm
  · cases hr
    obtain ⟨B, C, hB, hshape⟩ := a8xx_gpu_state_get_gx_shape R env T gpu _ _ _ _ _ hgx
    have hA1 := not_mem_of_all_of hA (e := Event.a8xx_get_registers_called true) rfl
    have hA2 := not_mem_of_all_of hA (e := Event.a8xx_get_shaders_called) rfl
    have hA3 := not_mem_of_all_of hA (e := Event.gpu_write Reg.A8XX_CP_CRASH_DUMP_CNTL 1) rfl
    have hA4 := not_mem_of_all_of hA (e := Event.a8xx_crashdumper_init_returned 0) rfl
    have hB1 := not_mem_of_all_of hB (e := Event.a8xx_get_registers_called true) rfl
    have hB2 := not_mem_of_all_of hB (e := Event.a8xx_get_shaders_called) rfl
    have hB3 := not_mem_of_all_of hB (e := Event.gpu_write Reg.A8XX_CP_CRASH_DUMP_CNTL 1) rfl
    have hB4 := not_mem_of_all_of hB (e := Event.a8xx_crashdumper_init_returned 0) rfl
    rcases hshape with ⟨hsn, hC, hsh, ht⟩ | ⟨hs, hn, hC, hsh, ret, hret, ht⟩ |
      ⟨hs, hn, hC, D, hD, ht⟩
    · have hC1 := not_mem_of_all_of hC (e := Event.a8xx_get_registers_called true) rfl
      have hC2 := not_mem_of_all_of hC (e := Event.a8xx_get_shaders_called) rfl
      have hC3 := not_mem_of_all_of hC (e := Event.gpu_write Reg.A8XX_CP_CRASH_DUMP_CNTL 1) rfl
      refine ⟨A ++ [Event.a6xx_gmu_gx_is_on true] ++ B
        ++ [Event.a8xx_get_registers_called false] ++ C, by
          rw [ht, htr]; simp [List.append_assoc], ?_⟩
      intro _
      have hnc : ¬ (stalled_at R env w = false ∧ gpu.needs_hw_init = false) := by
        rintro ⟨h1, h2⟩
        rcases hsn with h3 | h3
        · rw [h1] at h3
          exact Bool.noConfusion h3
        · rw [h2] at h3
          exact Bool.noConfusion h3
      refine ⟨⟨fun hu => ?_, fun hc => absurd ⟨hc.1, hc.2.1⟩ hnc⟩, fun _ => ?_⟩
      · simp [hA1, hB1, hC1] at hu
      · refine ⟨by simp, by simp [hA1, hB1, hC1], by simp [hA2, hB2, hC2],
          by simp [triggers_crashdumper, hA3, hB3, hC3], by rw [hsh, hz]⟩
    · have hC1 := not_mem_of_all_of hC (e := Event.a8xx_get_registers_called true) rfl
      have hC2 := not_mem_of_all_of hC (e := Event.a8xx_get_shaders_called) rfl
      have hC3 := not_mem_of_all_of hC (e := Event.gpu_write Reg.A8XX_CP_CRASH_DUMP_CNTL 1) rfl
      have hC4 := not_mem_of_all_of hC (e := Event.a8xx_crashdumper_init_returned 0) rfl
      refine ⟨A ++ [Event.a6xx_gmu_gx_is_on true] ++ B
        ++ [Event.msm_gem_kernel_new SZ_1M, Event.a8xx_crashdumper_init_returned ret,
          Event.a8xx_get_registers_called false] ++ C, by
          rw [ht, htr]; simp [List.append_assoc], ?_⟩
      intro _
      have hnc : Event.a8xx_crashdumper_init_returned 0 ∉
          A ++ [Event.a6xx_gmu_gx_is_on true] ++ B
            ++ [Event.msm_gem_kernel_new SZ_1M, Event.a8xx_crashdumper_init_returned ret,
              Event.a8xx_get_registers_called false] ++ C := by
        simp [hA4, hB4, hC4, Ne.symm hret]
      refine ⟨⟨fun hu => ?_, fun hc => absurd hc.2.2 hnc⟩, fun _ => ?_⟩
      · simp [hA1, hB1, hC1] at hu
      · refine ⟨by simp, by simp [hA1, hB1, hC1], by simp [hA2, hB2, hC2],
          by simp [triggers_crashdumper, hA3, hB3, hC3], by rw [hsh, hz]⟩
    · refine ⟨A ++ [Event.a6xx_gmu_gx_is_on true] ++ B
        ++ [Event.msm_gem_kernel_new SZ_1M, Event.a8xx_crashdumper_init_returned 0,
          Event.a8xx_get_registers_called true] ++ C
        ++ [Event.a8xx_get_shaders_called] ++ D ++ [Event.msm_gem_kernel_put], by
          rw [ht, htr]; simp [List.append_assoc], ?_⟩
      intro _
      have hc : stalled_at R env w = false ∧ gpu.needs_hw_init = false ∧
          Event.a8xx_crashdumper_init_returned 0 ∈
            A ++ [Event.a6xx_gmu_gx_is_on true] ++ B
              ++ [Event.msm_gem_kernel_new SZ_1M, Event.a8xx_crashdumper_init_returned 0,
                Event.a8xx_get_registers_called true] ++ C
              ++ [Event.a8xx_get_shaders_called] ++ D ++ [Event.msm_gem_kernel_put] :=
        ⟨hs, hn, by simp⟩
      exact ⟨⟨fun _ => hc, fun _ => ⟨by simp, by simp⟩⟩, fun hn => absurd hc hn⟩

theorem a8xx_gpu_state_get_sample_stalled :
    ∃ st w1, a8xx_gpu_state_get RegDefs.sample Env.stalled Tables.sample msm_gpu.sample
          World.init = some (StateResult.state st, w1) ∧
      w1.trace = [Event.kzalloc, Event.gpu_read Reg.A8XX_RBBM_MISC_STATUS,
        Event.adreno_gpu_state_get, Event.kvzalloc 1 24, Event.kvzalloc 1 4,
        Event.gmu_read 64, Event.a6xx_gmu_gx_is_on true, Event.kvzalloc 1 24,
        Event.a8xx_aperture_set 1, Event.kvzalloc 2 4,
        Event.gpu_write (Reg.offset 48) 0, Event.gpu_read (Reg.offset 49),
        Event.gpu_read (Reg.offset 49), Event.a8xx_aperture_set 0,
        Event.a8xx_get_registers_called false, Event.kvzalloc 7 24, Event.kvzalloc 2 4,
        Event.gpu_read (Reg.offset 16), Event.gpu_read (Reg.offset 17),
        Event.kvzalloc 2 4, Event.gpu_read (Reg.offset 32),
        Event.gpu_read (Reg.offset 33)] :=
  ⟨_, _, rfl, by decide⟩

/-- C5 at the sample tables and GPU with the SMMU stalled: the registers are
read without a dumper, no shader is captured and the crash dumper is not
triggered. -/
theorem a8xx_gpu_state_get_dumper_use_witness :
    ∃ st w1, a8xx_gpu_state_get RegDefs.sample Env.stalled Tables.sample msm_gpu.sample
          World.init = some (StateResult.state st, w1) ∧
      Event.a8xx_get_registers_called false ∈ w1.trace ∧
      ¬ triggers_crashdumper w1.trace ∧ st.nr_shaders = 0 := by
  obtain ⟨st, w1, hrun, htrace⟩ := a8xx_gpu_state_get_sample_stalled
  obtain ⟨evs, htr, himp⟩ := a8xx_gpu_state_get_dumper_use RegDefs.sample Env.stalled
    Tables.sample msm_gpu.sample World.init st w1 hrun
  have he : w1.trace = evs := by
    rw [htr]
    rfl
  rw [htrace] at he
  subst he
  obtain ⟨h3, _, _, h4, h5⟩ := (himp (by decide)).2 (by
    rintro ⟨hs, _⟩
    revert hs
    decide)
  refine ⟨st, w1, hrun, ?_⟩
  rw [htrace]
  exact ⟨h3, h4, h5⟩

/-! ### CSID 1080 -/

theorem csid_isr_1080_loop_events (env : CsidEnv) (csid : csid_device) (buf_done_val : Nat)
    (n : Nat) :
    ∀ (i : Nat) (tr : List CsidEvent),
      ∃ evs, csid_isr_1080_loop env csid buf_done_val n i tr = tr ++ evs ∧
        ∀ e ∈ evs, e.is_rdi = true := by
  induction n with
  | zero => intro i tr; exact ⟨[], by simp [csid_isr_1080_loop], by simp⟩
  | succ n ih =>
    intro i tr
    rw [csid_isr_1080_loop]
    split
    · simp only [csid_readl, csid_writel]
      split
      · obtain ⟨evs, he, hk⟩ := ih (i + 1)
          (tr ++ [CsidEvent.readl (CSID_RDIN_IRQ_STATUS i)] ++
            [CsidEvent.writel (u32 (env.readl tr.length (CSID_RDIN_IRQ_STATUS i)))
              (CSID_RDIN_IRQ_CLEAR i)] ++ [CsidEvent.camss_buf_done csid.id i])
        refine ⟨[CsidEvent.readl (CSID_RDIN_IRQ_STATUS i),
          CsidEvent.writel (u32 (env.readl tr.length (CSID_RDIN_IRQ_STATUS i)))
            (CSID_RDIN_IRQ_CLEAR i), CsidEvent.camss_buf_done csid.id i] ++ evs, ?_, ?_⟩
        · rw [he]
          simp [List.append_assoc]
        · intro e hm
          simp only [List.mem_append, List.mem_cons, List.mem_singleton,
            List.not_mem_nil, or_false] at hm
          rcases hm with (rfl | rfl | rfl) | hm
          · rfl
          · simp [CsidEvent.is_rdi, CSID_RDIN_IRQ_CLEAR]
          · rfl
          · exact hk e hm
      · obtain ⟨evs, he, hk⟩ := ih (i + 1)
          (tr ++ [CsidEvent.readl (CSID_RDIN_IRQ_STATUS i)] ++
            [CsidEvent.writel (u32 (env.readl tr.length (CSID_RDIN_IRQ_STATUS i)))
              (CSID_RDIN_IRQ_CLEAR i)])
        refine ⟨[CsidEvent.readl (CSID_RDIN_IRQ_STATUS i),
          CsidEvent.writel (u32 (env.readl tr.length (CSID_RDIN_IRQ_STATUS i)))
            (CSID_RDIN_IRQ_CLEAR i)] ++ evs, ?_, ?_⟩
        · rw [he]
          simp [List.append_assoc]
        · intro e hm
          simp only [List.mem_append, List.mem_cons, List.mem_singleton,
            List.not_mem_nil, or_false] at hm
          rcases hm with (rfl | rfl) | hm
          · rfl
          · simp [CsidEvent.is_rdi, CSID_RDIN_IRQ_CLEAR]
          · exact hk e hm
    · exact ih (i + 1) tr

theorem and_one_ne_zero_iff (val : Nat) :
    ((val &&& INFO_RST_DONE) % 2 ^ 8 ≠ 0) ↔ val.testBit 0 = true := by
  have h : val &&& INFO_RST_DONE = (val.testBit 0).toNat := by
    have := Nat.and_two_pow val 0
    simpa [INFO_RST_DONE, BIT] using this
  rw [h]
  cases val.testBit 0 <;> simp

/-- C8: for every register state `csid_isr_1080` returns `IRQ_HANDLED`; the
value it writes to `CSID_TOP_IRQ_CLEAR` is the value it read from
`CSID_TOP_IRQ_STATUS`, written once and nothing else is written there; and it
signals `csid->reset_complete` if and only if bit 0 (`INFO_RST_DONE`) of that
value is set. -/
theorem csid_isr_1080_top_irq (env : CsidEnv) (csid : csid_device) (tr : List CsidEvent) :
    (csid_isr_1080 env csid tr).1 = irqreturn_t.IRQ_HANDLED ∧
      ∃ evs, (csid_isr_1080 env csid tr).2 = tr ++ evs ∧
        evs.take 2 = [CsidEvent.readl CSID_TOP_IRQ_STATUS,
          CsidEvent.writel (u32 (env.readl tr.length CSID_TOP_IRQ_STATUS))
            CSID_TOP_IRQ_CLEAR] ∧
        (∀ v, CsidEvent.writel v CSID_TOP_IRQ_CLEAR ∈ evs ↔
          v = u32 (env.readl tr.length CSID_TOP_IRQ_STATUS)) ∧
        evs.count (CsidEvent.writel (u32 (env.readl tr.length CSID_TOP_IRQ_STATUS))
          CSID_TOP_IRQ_CLEAR) = 1 ∧
        (CsidEvent.complete_reset_complete ∈ evs ↔
          (u32 (env.readl tr.length CSID_TOP_IRQ_STATUS)).testBit 0 = true) := by
  refine ⟨rfl, ?_⟩
  unfold csid_isr_1080
  simp only [csid_readl, csid_writel]
  generalize hval : u32 (env.readl tr.length CSID_TOP_IRQ_STATUS) = val
  generalize u32 (env.readl _ CSID_BUF_DONE_IRQ_STATUS) = bd
  obtain ⟨L, hL, hLk⟩ := csid_isr_1080_loop_events env csid bd
    (MSM_CSID_MAX_SRC_STREAMS_1080 csid) 0
    (tr ++ [CsidEvent.readl CSID_TOP_IRQ_STATUS] ++ [CsidEvent.writel val CSID_TOP_IRQ_CLEAR]
      ++ [CsidEvent.readl CSID_BUF_DONE_IRQ_STATUS]
      ++ [CsidEvent.writel bd CSID_BUF_DONE_IRQ_CLEAR])
  rw [hL]
  have hLw : ∀ v, CsidEvent.writel v CSID_TOP_IRQ_CLEAR ∉ L := by
    intro v hm
    have := hLk _ hm
    simp [CsidEvent.is_rdi, CSID_TOP_IRQ_CLEAR] at this
  have hLw2 : ∀ v, CsidEvent.writel v 392 ∉ L := hLw
  have hLn : List.count (CsidEvent.writel val 392) L = 0 :=
    List.count_eq_zero.mpr (hLw val)
  have hLc : CsidEvent.complete_reset_complete ∉ L := by
    intro hm
    have := hLk _ hm
    simp [CsidEvent.is_rdi] at this
  have hbit := and_one_ne_zero_iff val
  by_cases hr : (val &&& INFO_RST_DONE) % 2 ^ 8 ≠ 0
  · rw [if_pos hr]
    refine ⟨[CsidEvent.readl CSID_TOP_IRQ_STATUS, CsidEvent.writel val CSID_TOP_IRQ_CLEAR,
      CsidEvent.readl CSID_BUF_DONE_IRQ_STATUS, CsidEvent.writel bd CSID_BUF_DONE_IRQ_CLEAR]
      ++ L ++ [CsidEvent.writel IRQ_CMD_CLEAR CSID_IRQ_CMD,
        CsidEvent.complete_reset_complete], by simp [List.append_assoc], rfl, ?_, ?_, ?_⟩
    · intro v
      simp [hLw2, CSID_TOP_IRQ_CLEAR, CSID_BUF_DONE_IRQ_CLEAR, CSID_IRQ_CMD]
    · simp [List.count_append, List.count_cons, hLn,
        CSID_TOP_IRQ_CLEAR, CSID_BUF_DONE_IRQ_CLEAR, CSID_IRQ_CMD]
    · simp [hbit.mp hr]
  · rw [if_neg hr]
    refine ⟨[CsidEvent.readl CSID_TOP_IRQ_STATUS, CsidEvent.writel val CSID_TOP_IRQ_CLEAR,
      CsidEvent.readl CSID_BUF_DONE_IRQ_STATUS, CsidEvent.writel bd CSID_BUF_DONE_IRQ_CLEAR]
      ++ L ++ [CsidEvent.writel IRQ_CMD_CLEAR CSID_IRQ_CMD],
      by simp [List.append_assoc], rfl, ?_, ?_, ?_⟩
    · intro v
      simp [hLw2, CSID_TOP_IRQ_CLEAR, CSID_BUF_DONE_IRQ_CLEAR, CSID_IRQ_CMD]
    · simp [List.count_append, List.count_cons, hLn,
        CSID_TOP_IRQ_CLEAR, CSID_BUF_DONE_IRQ_CLEAR, CSID_IRQ_CMD]
    · have hb : ¬ val.testBit 0 = true := fun h => hr (hbit.mpr h)
      simp [hLc, hb]

/-- C7: `csid_reset_1080` returns 0 when `wait_for_completion_timeout` reports
that the reset completion was signalled before the timeout (a non-zero
result), and `- EIO`, a negative value, when it reports a timeout (0); it
returns no other value.  The wait is the ninth event the function makes. -/
theorem csid_reset_1080_result (env : CsidEnv) (csid : csid_device) (tr : List CsidEvent) :
    (env.wait_for_completion_timeout (tr.length + 8) ≠ 0 →
        (csid_reset_1080 env csid tr).1 = 0) ∧
      (env.wait_for_completion_timeout (tr.length + 8) = 0 →
        (csid_reset_1080 env csid tr).1 = - EIO) ∧
      ((csid_reset_1080 env csid tr).1 = 0 ∨ (csid_reset_1080 env csid tr).1 = - EIO) ∧
      - EIO < 0 ∧
      CsidEvent.wait_for_completion_timeout ∈ (csid_reset_1080 env csid tr).2 := by
  unfold csid_reset_1080
  simp only [csid_writel, List.length_append, List.length_singleton, List.length_cons,
    List.length_nil, Nat.add_assoc]
  norm_num
  by_cases h : env.wait_for_completion_timeout (tr.length + 8) = 0
  · simp [h, EIO]
  · simp [h, EIO]

/-! ### Novatek NVT touchscreen -/

/-- C9: for every `int` result `ret` of `i2c_transfer`, `nvt_ts_read_data`
returns 0 if and only if `ret` is 2; otherwise it returns `ret` itself when
`ret` is negative and `- EIO` when `ret` is 0 or 1 (or more than 2); it never
returns a positive value. -/
theorem nvt_ts_read_data_result (ret : Int) (hlo : -2 ^ 31 ≤ ret) (hhi : ret < 2 ^ 31) :
    (nvt_ts_read_data ret = 0 ↔ ret = 2) ∧
      (ret < 0 → nvt_ts_read_data ret = ret) ∧
      (ret = 0 ∨ ret = 1 → nvt_ts_read_data ret = - EIO) ∧
      (0 ≤ ret → ret ≠ 2 → nvt_ts_read_data ret = - EIO) ∧
      (ret ≠ 2 → nvt_ts_read_data ret < 0) ∧
      nvt_ts_read_data ret ≤ 0 := by
  have hconv : int_as_size_t ret ≠ (NVT_MSG_COUNT : Int) ↔ ret ≠ 2 := by
    unfold int_as_size_t NVT_MSG_COUNT
    constructor
    · intro h1 h2
      subst h2
      exact h1 (by decide)
    · intro h1 h2
      apply h1
      omega
  unfold nvt_ts_read_data
  by_cases h2 : ret = 2
  · subst h2
    simp [int_as_size_t, NVT_MSG_COUNT]
  · rw [if_pos (hconv.mpr h2)]
    by_cases hneg : ret < 0
    · rw [if_pos hneg]
      refine ⟨?_, fun _ => rfl, ?_, ?_, fun _ => hneg, le_of_lt hneg⟩
      · constructor
        · intro h; omega
        · intro h; exact absurd h h2
      · intro h; omega
      · intro h; omega
    · rw [if_neg hneg]
      refine ⟨?_, fun h => absurd h hneg, fun _ => rfl, fun _ _ => rfl, fun _ => by decide,
        by decide⟩
      constructor
      · intro h
        exact absurd h (by decide)
      · intro h; exact absurd h h2

/-- C9 at `ret = 1` (one message transferred): the result is `- EIO`. -/
theorem nvt_ts_read_data_result_witness :
    nvt_ts_read_data 1 = -5 ∧ nvt_ts_read_data 2 = 0 ∧ nvt_ts_read_data (-6) = -6 := by
  have h1 := nvt_ts_read_data_result 1 (by decide) (by decide)
  have h2 := nvt_ts_read_data_result 2 (by decide) (by decide)
  have h3 := nvt_ts_read_data_result (-6) (by decide) (by decide)
  exact ⟨h1.2.2.1 (Or.inr rfl), h2.1.mpr rfl, h3.2.1 (by decide)⟩

/-! ### `FOR_EACH_SLICE` on an unsliced region -/

/-- C11: for the `UNSLICE` region and every 32-bit slice mask, the loop of
`FOR_EACH_SLICE` exits and its body runs exactly once, with slice 0, when the
mask is not 0, and not at all when the mask is 0. -/
theorem FOR_EACH_SLICE_unslice (mask : Nat) (hm : mask < 2 ^ 32) :
    FOR_EACH_SLICE UNSLICE mask = some (if mask = 0 then [] else [0]) := by
  rw [FOR_EACH_SLICE_unslice_loop]
  by_cases h : mask = 0
  · subst h
    rfl
  · have hf : fls mask ≠ 0 := fun hz => h ((fls_eq_zero_iff hm).mp hz)
    rw [if_pos (Nat.pos_of_ne_zero hf), if_neg h]

/-- C11 at the masks `0b110` and 0: one run with slice 0, and no run. -/
theorem FOR_EACH_SLICE_unslice_witness :
    FOR_EACH_SLICE UNSLICE 6 = some [0] ∧ FOR_EACH_SLICE UNSLICE 0 = some [] :=
  ⟨FOR_EACH_SLICE_unslice 6 (by decide), FOR_EACH_SLICE_unslice 0 (by decide)⟩

/-! ### `_aperture_slice_set` -/

theorem last_aperture_write_append_write (tr : List Event) (v : Nat) :
    last_aperture_write (tr ++ [Event.gpu_write Reg.A8XX_CP_APERTURE_CNTL_HOST v])
      = some v := by
  induction tr with
  | nil => rfl
  | cons e rest ih =>
    simp [last_aperture_write, ih]

/-- C14: if before a call of `_aperture_slice_set` the cached aperture equals
the last value written to `CP_APERTURE_CNTL_HOST`, then after the call both
equal `PIPEID(pipe) | SLICEID(slice) | (USESLICEID if use_slice)`; the register
is written, once and with that value, if and only if the value differs from
the cached one, and a second call with the same arguments changes nothing. -/
theorem aperture_slice_set_in_step (R : RegDefs) (w : World) (pipe slice : Nat)
    (use_slice : Bool)
    (h : last_aperture_write w.trace = some w.cached_aperture) :
    (_aperture_slice_set R w pipe slice use_slice).cached_aperture
        = (R.A8XX_CP_APERTURE_CNTL_HOST_PIPEID pipe |||
            R.A8XX_CP_APERTURE_CNTL_HOST_SLICEID slice |||
            (if use_slice then R.A8XX_CP_APERTURE_CNTL_HOST_USESLICEID else 0)) ∧
      last_aperture_write (_aperture_slice_set R w pipe slice use_slice).trace
        = some (R.A8XX_CP_APERTURE_CNTL_HOST_PIPEID pipe |||
            R.A8XX_CP_APERTURE_CNTL_HOST_SLICEID slice |||
            (if use_slice then R.A8XX_CP_APERTURE_CNTL_HOST_USESLICEID else 0)) ∧
      ((R.A8XX_CP_APERTURE_CNTL_HOST_PIPEID pipe |||
            R.A8XX_CP_APERTURE_CNTL_HOST_SLICEID slice |||
            (if use_slice then R.A8XX_CP_APERTURE_CNTL_HOST_USESLICEID else 0))
          ≠ w.cached_aperture →
        (_aperture_slice_set R w pipe slice use_slice).trace
          = w.trace ++ [Event.gpu_write Reg.A8XX_CP_APERTURE_CNTL_HOST
              (R.A8XX_CP_APERTURE_CNTL_HOST_PIPEID pipe |||
                R.A8XX_CP_APERTURE_CNTL_HOST_SLICEID slice |||
                (if use_slice then R.A8XX_CP_APERTURE_CNTL_HOST_USESLICEID else 0))]) ∧
      ((R.A8XX_CP_APERTURE_CNTL_HOST_PIPEID pipe |||
            R.A8XX_CP_APERTURE_CNTL_HOST_SLICEID slice |||
            (if use_slice then R.A8XX_CP_APERTURE_CNTL_HOST_USESLICEID else 0))
          = w.cached_aperture →
        (_aperture_slice_set R w pipe slice use_slice).trace = w.trace) ∧
      _aperture_slice_set R (_aperture_slice_set R w pipe slice use_slice) pipe slice
          use_slice
        = _aperture_slice_set R w pipe slice use_slice := by
  have hval : (if use_slice = true then
        R.A8XX_CP_APERTURE_CNTL_HOST_PIPEID pipe |||
          R.A8XX_CP_APERTURE_CNTL_HOST_SLICEID slice |||
          R.A8XX_CP_APERTURE_CNTL_HOST_USESLICEID
      else R.A8XX_CP_APERTURE_CNTL_HOST_PIPEID pipe |||
          R.A8XX_CP_APERTURE_CNTL_HOST_SLICEID slice)
      = (R.A8XX_CP_APERTURE_CNTL_HOST_PIPEID pipe |||
          R.A8XX_CP_APERTURE_CNTL_HOST_SLICEID slice |||
          (if use_slice then R.A8XX_CP_APERTURE_CNTL_HOST_USESLICEID else 0)) := by
    cases use_slice <;> simp
  unfold _aperture_slice_set
  simp only [hval]
  generalize (R.A8XX_CP_APERTURE_CNTL_HOST_PIPEID pipe |||
    R.A8XX_CP_APERTURE_CNTL_HOST_SLICEID slice |||
    (if use_slice then R.A8XX_CP_APERTURE_CNTL_HOST_USESLICEID else 0)) = val
  by_cases hc : w.cached_aperture = val
  · rw [if_pos hc, if_pos hc]
    exact ⟨hc, by rw [h, hc], fun hne => absurd hc.symm hne, fun _ => rfl, rfl⟩
  · rw [if_neg hc]
    refine ⟨rfl, last_aperture_write_append_write w.trace val, fun _ => rfl,
      fun he => absurd he.symm hc, ?_⟩
    simp

/-- C14 at a world whose last aperture write and cache are both 0: setting
pipe 1, slice 2 with `use_slice` writes `0x821000` once, and setting them again
writes nothing. -/
theorem aperture_slice_set_in_step_witness :
    (_aperture_slice_set RegDefs.aperture_layout
        { trace := [Event.gpu_write Reg.A8XX_CP_APERTURE_CNTL_HOST 0], cached_aperture := 0 }
        1 2 true)
      = { trace := [Event.gpu_write Reg.A8XX_CP_APERTURE_CNTL_HOST 0,
            Event.gpu_write Reg.A8XX_CP_APERTURE_CNTL_HOST 0x821000],
          cached_aperture := 0x821000 } ∧
      _aperture_slice_set RegDefs.aperture_layout
          (_aperture_slice_set RegDefs.aperture_layout
            { trace := [Event.gpu_write Reg.A8XX_CP_APERTURE_CNTL_HOST 0],
              cached_aperture := 0 } 1 2 true) 1 2 true
        = _aperture_slice_set RegDefs.aperture_layout
            { trace := [Event.gpu_write Reg.A8XX_CP_APERTURE_CNTL_HOST 0],
              cached_aperture := 0 } 1 2 true :=
  ⟨by decide,
    (aperture_slice_set_in_step RegDefs.aperture_layout
      { trace := [Event.gpu_write Reg.A8XX_CP_APERTURE_CNTL_HOST 0], cached_aperture := 0 }
      1 2 true rfl).2.2.2.2⟩

/-! ### The aperture in `a8xx_get_ahb_gpu_reglist` -/

theorem a8xx_get_ahb_gpu_registers_range_aperture (env : Env) (reg n j : Nat)
    (rd : Reading) :
    (a8xx_get_ahb_gpu_registers_range env reg n j rd).world.cached_aperture
      = rd.world.cached_aperture := by
  induction n generalizing j rd with
  | zero => rfl
  | succ n ih =>
    rw [a8xx_get_ahb_gpu_registers_range]
    exact ih _ _

theorem a8xx_get_ahb_gpu_registers_loop_aperture (env : Env) (regs : List Nat) :
    ∀ (rd rd1 : Reading), a8xx_get_ahb_gpu_registers_loop env regs rd = some rd1 →
      rd1.world.cached_aperture = rd.world.cached_aperture := by
  induction regs using pairs_induction with
  | h0 => intro rd rd1 h; simp [a8xx_get_ahb_gpu_registers_loop] at h
  | h1 r =>
    intro rd rd1 h
    simp only [a8xx_get_ahb_gpu_registers_loop] at h
    split at h
    · exact Option.noConfusion h
    · cases h
      rfl
  | h2 r e rest ih =>
    intro rd rd1 h
    simp only [a8xx_get_ahb_gpu_registers_loop] at h
    split at h
    · rw [ih _ _ h, a8xx_get_ahb_gpu_registers_range_aperture]
    · cases h
      rfl

theorem a8xx_get_ahb_gpu_registers_aperture (env : Env) (w : World) (regs : List Nat)
    (obj obj1 : a8xx_gpu_state_obj) (w1 : World)
    (h : a8xx_get_ahb_gpu_registers env w regs obj = some (obj1, w1)) :
    w1.cached_aperture = w.cached_aperture := by
  unfold a8xx_get_ahb_gpu_registers at h
  split at h
  · exact Option.noConfusion h
  · simp only [state_kcalloc] at h
    split at h
    · cases h
      rfl
    · split at h
      · exact Option.noConfusion h
      · rename_i rd hrd
        split at h
        · exact Option.noConfusion h
        · cases h
          exact a8xx_get_ahb_gpu_registers_loop_aperture env regs _ _ hrd

/-- For a register list with a sliced region the aperture value
`a8xx_get_ahb_gpu_reglist` programs is `PIPEID(slice_id) | SLICEID(0)`, with
no `USESLICEID`: `slice_id` is encoded as the pipe and the slice encoded is 0,
whatever the layout of the fields. -/
theorem a8xx_get_ahb_gpu_reglist_aperture (R : RegDefs) (env : Env) (w : World)
    (regs : gen8_reg_list) (slice_id : Nat) (obj obj1 : a8xx_gpu_state_obj) (w1 : World)
    (hr : regs.slice_region ≠ 0)
    (h : a8xx_get_ahb_gpu_reglist R env w regs slice_id obj = some (obj1, w1)) :
    w1.cached_aperture = R.A8XX_CP_APERTURE_CNTL_HOST_PIPEID slice_id |||
      R.A8XX_CP_APERTURE_CNTL_HOST_SLICEID 0 := by
  unfold a8xx_get_ahb_gpu_reglist at h
  simp only [if_pos hr] at h
  split at h
  · exact Option.noConfusion h
  · rw [a8xx_get_ahb_gpu_registers_aperture env _ _ _ _ _ h]
    unfold _aperture_slice_set
    simp only [Bool.false_eq_true, if_false]
    split
    · rename_i hc
      exact hc
    · rfl

/-- C15 fails on the code: for a sliced register list and `slice_id = 1`,
`a8xx_get_ahb_gpu_reglist` programs the aperture value `0x1000`, whose slice-id
field is 0 and whose pipe-id field is 1: the call
`_aperture_slice_set(gpu, slice_id, 0, false)` has `slice_id` in the place of
the pipe and 0 in the place of the slice. -/
theorem a8xx_get_ahb_gpu_reglist_slice_as_pipe :
    ∃ obj w1, a8xx_get_ahb_gpu_reglist RegDefs.aperture_layout Env.quiet World.init
          { slice_region := 1, regs := some [0x20, 0x21, UINT_MAX] } 1
          a8xx_gpu_state_obj.zero = some (obj, w1) ∧
      w1.trace = [Event.gpu_write Reg.A8XX_CP_APERTURE_CNTL_HOST 0x1000,
        Event.kvzalloc 2 4, Event.gpu_read (Reg.offset 0x20),
        Event.gpu_read (Reg.offset 0x21)] ∧
      w1.cached_aperture = 0x1000 ∧
      aperture_sliceid 0x1000 = 0 ∧ aperture_pipeid 0x1000 = 1 ∧
      obj.slice = 1 := by
  refine ⟨_, _, rfl, ?_, ?_, ?_, ?_, ?_⟩ <;> decide

/-! ### `a8xx_get_indexed_regs` -/

theorem a8xx_get_indexed_regs_loop_reads (env : Env) (data n : Nat) (rd : Reading) :
    (a8xx_get_indexed_regs_loop env data n rd).world.trace
        = rd.world.trace ++ List.replicate n (Event.gpu_read (Reg.offset data)) ∧
      (a8xx_get_indexed_regs_loop env data n rd).data
        = rd.data ++ (List.range n).map
            (fun i => u32 (env.gpu_read (rd.world.time + i) (Reg.offset data))) ∧
      (a8xx_get_indexed_regs_loop env data n rd).world.cached_aperture
        = rd.world.cached_aperture := by
  induction n generalizing rd with
  | zero => simp [a8xx_get_indexed_regs_loop]
  | succ n ih =>
    rw [a8xx_get_indexed_regs_loop]
    obtain ⟨h1, h2, h3⟩ := ih
      { data := rd.data ++ [(gpu_read env rd.world (Reg.offset data)).1],
        world := (gpu_read env rd.world (Reg.offset data)).2 }
    refine ⟨?_, ?_, ?_⟩
    · rw [h1]
      simp [gpu_read, World.emit, List.replicate_succ]
    · rw [h2, List.range_succ_eq_map]
      simp [gpu_read, World.time_emit, Function.comp_def, Nat.add_assoc, Nat.add_comm 1]
    · rw [h3]
      rfl

/-- C13: when the allocation of `a8xx_get_indexed_regs` succeeds, with `count`
the value of `count_fn(gpu)` if the descriptor has a `count_fn` and the
descriptor's static count otherwise (a count within `int`, so that the index
`i` of the loop does not overflow), the function allocates `count` dwords,
writes 0 to the bank's address register once, then reads the bank's data
register `count` times and makes no other access of its own; `obj->data[i]` is
the value of the `i`-th of these reads and `obj->count` is `count`.  Of
`count_fn` the model has the value it returns, not what it does. -/
theorem a8xx_get_indexed_regs_reads (env : Env) (w : World)
    (indexed : a8xx_indexed_registers) (slice : Nat) (obj : a8xx_gpu_state_obj)
    (count : Nat)
    (hfn : count = match indexed.count_fn with
      | some c => c
      | none => indexed.count)
    (hcount : count < 2 ^ 31)
    (halloc : env.alloc_ok w.time = true) :
    (a8xx_get_indexed_regs env w indexed slice obj).2.trace
        = w.trace ++ [Event.kvzalloc count 4, Event.gpu_write (Reg.offset indexed.addr) 0]
          ++ List.replicate count (Event.gpu_read (Reg.offset indexed.data)) ∧
      (a8xx_get_indexed_regs env w indexed slice obj).1.data
        = some ((List.range count).map
            (fun i => u32 (env.gpu_read (w.time + 2 + i) (Reg.offset indexed.data)))) ∧
      (a8xx_get_indexed_regs env w indexed slice obj).1.count = count ∧
      (a8xx_get_indexed_regs env w indexed slice obj).1.slice = slice ∧
      (a8xx_get_indexed_regs env w indexed slice obj).1.handle
        = some (Handle.indexed indexed) ∧
      (∀ i, i < count → i < 2 ^ 31) := by
  obtain ⟨h1, h2, _⟩ := a8xx_get_indexed_regs_loop_reads env indexed.data count
    { data := [], world := gpu_write ((state_kcalloc env w count 4).2)
        (Reg.offset indexed.addr) 0 }
  unfold a8xx_get_indexed_regs
  simp only [← hfn, state_kcalloc, halloc, Bool.not_true, Bool.false_eq_true, if_false]
  simp only [state_kcalloc] at h1 h2
  refine ⟨?_, ?_, trivial, trivial, trivial, fun i hi => lt_trans hi hcount⟩
  · rw [h1]
    simp [gpu_write, World.emit, List.append_assoc]
  · rw [h2]
    simp [gpu_write, World.time_emit, Nat.add_assoc]

/-- C13 at a bank with a static count of 2 and a `count_fn` that returns 3:
three reads, whose values are stored in order. -/
theorem a8xx_get_indexed_regs_reads_witness :
    (a8xx_get_indexed_regs Env.clock World.init a8xx_indexed_registers.sample 0
        a8xx_gpu_state_obj.zero).2.trace
        = [Event.kvzalloc 3 4, Event.gpu_write (Reg.offset 0x30) 0,
            Event.gpu_read (Reg.offset 0x31), Event.gpu_read (Reg.offset 0x31),
            Event.gpu_read (Reg.offset 0x31)] ∧
      (a8xx_get_indexed_regs Env.clock World.init a8xx_indexed_registers.sample 0
        a8xx_gpu_state_obj.zero).1.data = some [102, 103, 104] ∧
      (a8xx_get_indexed_regs Env.clock World.init a8xx_indexed_registers.sample 0
        a8xx_gpu_state_obj.zero).1.count = 3 := by
  obtain ⟨h1, h2, h3, _⟩ := a8xx_get_indexed_regs_reads Env.clock World.init
    a8xx_indexed_registers.sample 0 a8xx_gpu_state_obj.zero 3 rfl (by decide) rfl
  exact ⟨h1.trans (by decide), h2.trans (by decide), h3⟩

/-! ### The buffer-done notifications of `csid_isr_1080` -/

theorem and_BIT_ne_zero (m n : Nat) : (m &&& BIT n ≠ 0) ↔ m.testBit n = true := by
  rw [Nat.and_comm]
  exact BIT_and_ne_zero n m

theorem csid_isr_1080_loop_buf_done (env : CsidEnv) (csid : csid_device)
    (buf_done_val : Nat) (n : Nat) :
    ∀ (i : Nat) (tr : List CsidEvent),
      ∃ evs, csid_isr_1080_loop env csid buf_done_val n i tr = tr ++ evs ∧
        evs.filter CsidEvent.is_buf_done
          = ((List.range' i n).filter (csid_buf_done_test csid buf_done_val)).map
              (fun j => CsidEvent.camss_buf_done csid.id j) := by
  induction n with
  | zero => intro i tr; exact ⟨[], by simp [csid_isr_1080_loop], by simp⟩
  | succ n ih =>
    intro i tr
    rw [csid_isr_1080_loop, List.range'_succ, List.filter_cons]
    by_cases hen : csid.en_vc &&& BIT i ≠ 0
    · rw [if_pos hen]
      simp only [csid_readl, csid_writel]
      by_cases hbd : buf_done_val &&& BIT (BUF_DONE_IRQ_STATUS_RDI_OFFSET + i) ≠ 0
      · rw [if_pos hbd]
        have ht : csid_buf_done_test csid buf_done_val i = true := by
          simp [csid_buf_done_test, hen, hbd]
        obtain ⟨evs, he, hf⟩ := ih (i + 1)
          (tr ++ [CsidEvent.readl (CSID_RDIN_IRQ_STATUS i)] ++
            [CsidEvent.writel (u32 (env.readl tr.length (CSID_RDIN_IRQ_STATUS i)))
              (CSID_RDIN_IRQ_CLEAR i)] ++ [CsidEvent.camss_buf_done csid.id i])
        refine ⟨[CsidEvent.readl (CSID_RDIN_IRQ_STATUS i),
          CsidEvent.writel (u32 (env.readl tr.length (CSID_RDIN_IRQ_STATUS i)))
            (CSID_RDIN_IRQ_CLEAR i), CsidEvent.camss_buf_done csid.id i] ++ evs, ?_, ?_⟩
        · rw [he]
          simp [List.append_assoc]
        · rw [List.filter_append, hf, if_pos ht]
          simp [List.filter_cons, CsidEvent.is_buf_done]
      · rw [if_neg hbd]
        have ht : ¬ csid_buf_done_test csid buf_done_val i = true := by
          simp [csid_buf_done_test, hen, hbd]
        obtain ⟨evs, he, hf⟩ := ih (i + 1)
          (tr ++ [CsidEvent.readl (CSID_RDIN_IRQ_STATUS i)] ++
            [CsidEvent.writel (u32 (env.readl tr.length (CSID_RDIN_IRQ_STATUS i)))
              (CSID_RDIN_IRQ_CLEAR i)])
        refine ⟨[CsidEvent.readl (CSID_RDIN_IRQ_STATUS i),
          CsidEvent.writel (u32 (env.readl tr.length (CSID_RDIN_IRQ_STATUS i)))
            (CSID_RDIN_IRQ_CLEAR i)] ++ evs, ?_, ?_⟩
        · rw [he]
          simp [List.append_assoc]
        · rw [List.filter_append, hf, if_neg ht]
          simp [List.filter_cons, CsidEvent.is_buf_done]
    · rw [if_neg hen]
      have ht : ¬ csid_buf_done_test csid buf_done_val i = true := by
        simp [csid_buf_done_test, hen]
      obtain ⟨evs, he, hf⟩ := ih (i + 1) tr
      exact ⟨evs, he, by rw [hf, if_neg ht]⟩

/-- The notifications `csid_isr_1080` makes, in order: one for each RDI below
the stream limit that passes the test of the loop. -/
theorem csid_isr_1080_buf_done_events (env : CsidEnv) (csid : csid_device)
    (tr : List CsidEvent) :
    ∃ evs, (csid_isr_1080 env csid tr).2 = tr ++ evs ∧
      evs.filter CsidEvent.is_buf_done
        = ((List.range' 0 (MSM_CSID_MAX_SRC_STREAMS_1080 csid)).filter
            (csid_buf_done_test csid
              (u32 (env.readl (tr.length + 2) CSID_BUF_DONE_IRQ_STATUS)))).map
            (fun j => CsidEvent.camss_buf_done csid.id j) := by
  unfold csid_isr_1080
  simp only [csid_readl, csid_writel, List.length_append, List.length_singleton]
  generalize u32 (env.readl tr.length CSID_TOP_IRQ_STATUS) = val
  generalize u32 (env.readl (tr.length + 1 + 1) CSID_BUF_DONE_IRQ_STATUS) = bd
  obtain ⟨L, hL, hLf⟩ := csid_isr_1080_loop_buf_done env csid bd
    (MSM_CSID_MAX_SRC_STREAMS_1080 csid) 0
    (tr ++ [CsidEvent.readl CSID_TOP_IRQ_STATUS] ++ [CsidEvent.writel val CSID_TOP_IRQ_CLEAR]
      ++ [CsidEvent.readl CSID_BUF_DONE_IRQ_STATUS]
      ++ [CsidEvent.writel bd CSID_BUF_DONE_IRQ_CLEAR])
  rw [hL]
  split
  · refine ⟨[CsidEvent.readl CSID_TOP_IRQ_STATUS, CsidEvent.writel val CSID_TOP_IRQ_CLEAR,
      CsidEvent.readl CSID_BUF_DONE_IRQ_STATUS, CsidEvent.writel bd CSID_BUF_DONE_IRQ_CLEAR]
      ++ L ++ [CsidEvent.writel IRQ_CMD_CLEAR CSID_IRQ_CMD,
        CsidEvent.complete_reset_complete], by simp [List.append_assoc], ?_⟩
    rw [List.filter_append, List.filter_append, hLf]
    simp [List.filter_cons, CsidEvent.is_buf_done]
  · refine ⟨[CsidEvent.readl CSID_TOP_IRQ_STATUS, CsidEvent.writel val CSID_TOP_IRQ_CLEAR,
      CsidEvent.readl CSID_BUF_DONE_IRQ_STATUS, CsidEvent.writel bd CSID_BUF_DONE_IRQ_CLEAR]
      ++ L ++ [CsidEvent.writel IRQ_CMD_CLEAR CSID_IRQ_CMD],
      by simp [List.append_assoc], ?_⟩
    rw [List.filter_append, List.filter_append, hLf]
    simp [List.filter_cons, CsidEvent.is_buf_done]

/-- C16: in one run of `csid_isr_1080` the VFE is notified of a finished buffer
for RDI `i` (`camss_buf_done(camss, id, i)`) if and only if `i` is below the
stream limit (4 on a lite CSID, 5 otherwise), bit `i` of `phy.en_vc` is set and
bit `16 + i` of the value read from `CSID_BUF_DONE_IRQ_STATUS` is set; no RDI
is notified more than once, and every notification carries the CSID's own
`id`. -/
theorem csid_isr_1080_buf_done (env : CsidEnv) (csid : csid_device)
    (tr : List CsidEvent) :
    ∃ evs, (csid_isr_1080 env csid tr).2 = tr ++ evs ∧
      (∀ i, CsidEvent.camss_buf_done csid.id i ∈ evs ↔
        (i < (if csid.is_lite then 4 else 5) ∧ csid.en_vc.testBit i = true ∧
          (u32 (env.readl (tr.length + 2) CSID_BUF_DONE_IRQ_STATUS)).testBit (16 + i)
            = true)) ∧
      (∀ id i, evs.count (CsidEvent.camss_buf_done id i) ≤ 1) ∧
      (∀ id i, CsidEvent.camss_buf_done id i ∈ evs → id = csid.id) := by
  obtain ⟨evs, he, hf⟩ := csid_isr_1080_buf_done_events env csid tr
  have hmem : ∀ id i, CsidEvent.camss_buf_done id i ∈ evs ↔
      CsidEvent.camss_buf_done id i ∈ evs.filter CsidEvent.is_buf_done := by
    intro id i
    rw [List.mem_filter]
    exact ⟨fun h => ⟨h, rfl⟩, fun h => h.1⟩
  have hinj : Function.Injective (fun j => CsidEvent.camss_buf_done csid.id j) := by
    intro a b hab
    simpa using hab
  refine ⟨evs, he, ?_, ?_, ?_⟩
  · intro i
    rw [hmem, hf, List.mem_map]
    constructor
    · rintro ⟨j, hj, hji⟩
      have hij : j = i := by simpa using hji
      subst hij
      rw [List.mem_filter, List.mem_range'_1] at hj
      obtain ⟨⟨_, hlt⟩, ht⟩ := hj
      simp only [csid_buf_done_test, Bool.and_eq_true, decide_eq_true_eq] at ht
      refine ⟨by simpa [MSM_CSID_MAX_SRC_STREAMS_1080] using hlt,
        (and_BIT_ne_zero _ _).mp ht.1, (and_BIT_ne_zero _ _).mp ht.2⟩
    · rintro ⟨hlt, hen, hbd⟩
      refine ⟨i, ?_, rfl⟩
      rw [List.mem_filter, List.mem_range'_1]
      refine ⟨⟨Nat.zero_le _, by simpa [MSM_CSID_MAX_SRC_STREAMS_1080] using hlt⟩, ?_⟩
      simp only [csid_buf_done_test, Bool.and_eq_true, decide_eq_true_eq]
      exact ⟨(and_BIT_ne_zero _ _).mpr hen, (and_BIT_ne_zero _ _).mpr hbd⟩
  · intro id i
    rw [← List.count_filter (p := CsidEvent.is_buf_done)
      (a := CsidEvent.camss_buf_done id i) (l := evs) rfl, hf]
    exact List.nodup_iff_count_le_one.mp
      (List.Nodup.map hinj (List.Nodup.filter _ (List.nodup_range' 0 _))) _
  · intro id i hm
    rw [hmem, hf, List.mem_map] at hm
    obtain ⟨j, _, hji⟩ := hm
    simp only [CsidEvent.camss_buf_done.injEq] at hji
    exact hji.1.symm

/-! ### `print_ascii85` -/

theorem print_ascii85_scan_spec (data : List Nat) (n : Nat) :
    ∀ (i datalen : Nat) (reads : List Nat), i + n ≤ data.length →
      ∃ datalen1, print_ascii85_scan data n i datalen reads
          = some (datalen1, reads ++ List.range' i n) ∧
        ((∀ j, i ≤ j → j < i + n → data.getD j 0 = 0) → datalen1 = datalen) ∧
        (∀ m, i ≤ m → m < i + n → data.getD m 0 ≠ 0 →
          (∀ j, m < j → j < i + n → data.getD j 0 = 0) → datalen1 = 4 * (m + 1)) := by
  induction n with
  | zero =>
    intro i datalen reads _
    refine ⟨datalen, by simp [print_ascii85_scan], fun _ => rfl, ?_⟩
    intro m h1 h2
    omega
  | succ n ih =>
    intro i datalen reads hlen
    have hi : i < data.length := by omega
    have hget : data[i]? = some (data.getD i 0) := by
      rw [List.getD_eq_getElem?_getD, List.getElem?_eq_getElem hi]
      rfl
    rw [print_ascii85_scan, hget]
    obtain ⟨dl1, hrun, hzero, hlast⟩ := ih (i + 1)
      (if data.getD i 0 ≠ 0 then (i + 1) <<< 2 else datalen) (reads ++ [i]) (by omega)
    refine ⟨dl1, ?_, ?_, ?_⟩
    · simp only [hrun, List.range'_succ, List.append_assoc, List.singleton_append]
    · intro hz
      rw [hzero (fun j h1 h2 => hz j (by omega) (by omega))]
      rw [if_neg (by simpa using hz i le_rfl (by omega))]
    · intro m h1 h2 hm hz
      by_cases hmi : m = i
      · subst hmi
        rw [hzero (fun j h1 h2 => hz j (by omega) (by omega)), if_pos hm,
          Nat.shiftLeft_eq]
        omega
      · exact hlast m (by omega) (by omega) hm (fun j h1 h2 => hz j h1 (by omega))

theorem print_ascii85_encode_spec (encode : Nat → String) (data : List Nat) (n : Nat) :
    ∀ (i : Nat) (p : Printed), i + n ≤ data.length →
      print_ascii85_encode encode data n i p
        = some { out := p.out ++ ((data.drop i).take n).map encode
                 reads := p.reads ++ List.range' i n } := by
  induction n with
  | zero => intro i p _; simp [print_ascii85_encode]
  | succ n ih =>
    intro i p hlen
    have hi : i < data.length := by omega
    rw [print_ascii85_encode, List.getElem?_eq_getElem hi]
    simp only
    rw [ih (i + 1) _ (by omega)]
    have hd : data.drop i = data[i] :: data.drop (i + 1) := List.drop_eq_getElem_cons hi
    rw [hd, List.take_succ_cons, List.map_cons, List.range'_succ]
    simp

/-- C12: for a buffer of `len` bytes that holds `len / 4` dwords, with
`ascii85_encode_len(4 * n) = n` as for the kernel's `DIV_ROUND_UP(len, 4)`:
`print_ascii85` prints nothing when every dword is zero; otherwise, with `m`
the index of the last non-zero dword, it prints the two strings of the data
header, then the encoding of `data[0]`, ..., `data[m]`, in order and of nothing
else, then a newline.  It reads every dword once to find `m`, then
`data[0]` to `data[m]`, and never reads at an index `>= len / 4`. -/
theorem print_ascii85_output (encode_len : Nat → Nat) (encode : Nat → String)
    (len : Nat) (data : List Nat)
    (hdata : data.length = len / 4)
    (hlen : ∀ n, encode_len (4 * n) = n) :
    ((∀ j, j < data.length → data.getD j 0 = 0) →
        print_ascii85 encode_len encode len data
          = some { out := [], reads := List.range (len / 4) }) ∧
      (∀ m, m < data.length → data.getD m 0 ≠ 0 →
        (∀ j, m < j → j < data.length → data.getD j 0 = 0) →
        print_ascii85 encode_len encode len data
          = some { out := ["    data: !!ascii85 |\n", "      "]
                     ++ (data.take (m + 1)).map encode ++ ["\n"]
                   reads := List.range (len / 4) ++ List.range (m + 1) }) ∧
      (∀ p, print_ascii85 encode_len encode len data = some p →
        ∀ i ∈ p.reads, i < len / 4) := by
  have hshift : len >>> 2 = data.length := by
    rw [Nat.shiftRight_eq_div_pow, hdata]
  obtain ⟨dl, hscan, hzero, hlast⟩ :=
    print_ascii85_scan_spec data data.length 0 0 [] (by omega)
  simp only [Nat.zero_add, List.nil_append] at hscan hzero hlast
  have hall : (∀ j, j < data.length → data.getD j 0 = 0) →
      print_ascii85 encode_len encode len data
        = some { out := [], reads := List.range (len / 4) } := by
    intro hz
    have hdl : dl = 0 := hzero (fun j _ h => hz j h)
    unfold print_ascii85
    rw [hshift, hscan, hdl]
    simp [hdata, List.range_eq_range']
  have hsome : ∀ m, m < data.length → data.getD m 0 ≠ 0 →
      (∀ j, m < j → j < data.length → data.getD j 0 = 0) →
      print_ascii85 encode_len encode len data
        = some { out := ["    data: !!ascii85 |\n", "      "]
                   ++ (data.take (m + 1)).map encode ++ ["\n"]
                 reads := List.range (len / 4) ++ List.range (m + 1) } := by
    intro m hm hne hz
    have hdl : dl = 4 * (m + 1) := hlast m (Nat.zero_le _) hm hne hz
    unfold print_ascii85
    rw [hshift, hscan, hdl]
    simp only [Nat.mul_eq_zero, Nat.add_one_ne_zero, or_false, OfNat.ofNat_ne_zero,
      if_false, hlen]
    rw [print_ascii85_encode_spec encode data (m + 1) 0 _ (by omega)]
    simp [hdata, List.range_eq_range']
  refine ⟨hall, hsome, ?_⟩
  intro p hp i hi
  by_cases hz : ∀ j, j < data.length → data.getD j 0 = 0
  · rw [hall hz] at hp
    cases hp
    exact List.mem_range.mp hi
  · have hex : ∃ m, m < data.length ∧ data.getD m 0 ≠ 0 ∧
        ∀ j, m < j → j < data.length → data.getD j 0 = 0 := by
      by_contra hno
      apply hz
      have key : ∀ k, ∀ j, data.length - k ≤ j → j < data.length → data.getD j 0 = 0 := by
        intro k
        induction k with
        | zero => intro j h1 h2; omega
        | succ k ih =>
          intro j h1 h2
          by_cases hj : data.length - k ≤ j
          · exact ih j hj h2
          · by_contra hne
            exact hno ⟨j, h2, hne, fun j1 h3 h4 => ih j1 (by omega) h4⟩
      exact fun j hj => key data.length j (by omega) hj
    obtain ⟨m, hm, hne, hzm⟩ := hex
    rw [hsome m hm hne hzm] at hp
    cases hp
    rcases List.mem_append.mp hi with h | h
    · exact List.mem_range.mp h
    · have := List.mem_range.mp h
      omega

/-- C12 at a buffer of 16 bytes with the dwords 0, 7, `0x12345678`, 0 and the
kernel's encoding: the header, the encodings of the first three dwords and a
newline; and at a buffer of two zero dwords: nothing. -/
theorem print_ascii85_output_witness :
    print_ascii85 ascii85_encode_len_div_round_up ascii85_encode_base85 16
        [0, 7, 0x12345678, 0]
        = some { out := ["    data: !!ascii85 |\n", "      ", "z", "!!!!(", "&i<X6", "\n"]
                 reads := [0, 1, 2, 3, 0, 1, 2] } ∧
      print_ascii85 ascii85_encode_len_div_round_up ascii85_encode_base85 8 [0, 0]
        = some { out := [], reads := [0, 1] } := by
  have hlen : ∀ n, ascii85_encode_len_div_round_up (4 * n) = n := by
    intro n
    unfold ascii85_encode_len_div_round_up
    omega
  have h1 := (print_ascii85_output ascii85_encode_len_div_round_up ascii85_encode_base85
    16 [0, 7, 0x12345678, 0] rfl hlen).2.1 2 (by decide) (by decide) (by
      intro j h1 h2
      have hj : j = 3 := by
        simp only [List.length_cons, List.length_nil] at h2
        omega
      subst hj
      rfl)
  have h2 := (print_ascii85_output ascii85_encode_len_div_round_up ascii85_encode_base85
    8 [0, 0] rfl hlen).1 (by
      intro j hj
      simp only [List.length_cons, List.length_nil] at hj
      have : j = 0 ∨ j = 1 := by omega
      rcases this with rfl | rfl <;> rfl)
  exact ⟨h1.trans (by decide), h2.trans (by decide)⟩

/-! ### The data bound and the 32-bit size checks -/

end LinuxMtk
